import Mathlib

/-!
# terraform-provider-ranger: the policy mapper and the CRUD orchestrator

A shallow embedding of `internal/provider/policy_resource.go`.

* Go slices are `Slice α = Option (List α)`: `none` is the nil slice, `some []` is an
  allocated slice of length zero.  `len` of nil is `0` and `range` over nil runs no iteration.
* Go pointers to a struct (`*ResourceTypeModel`, `*ranger.ResourceType`) are `Option`:
  `none` is the nil pointer.
* A framework value (`types.String`, `types.Bool`, `types.Int64`) is null, unknown or known;
  its `Value…()` accessor gives the zero value of the kind when it is null or unknown.
* `int64` and `int` values are integers; `int(x)` wraps to the width of `int`
  (`intSize`, 64 bits), `int64(x)` of an `int` is exact.
-/

set_option autoImplicit false

/-! ## Go basics -/

/-- Go `string`. -/
abbrev GoString := String

/-- Go `bool`. -/
abbrev GoBool := Bool

/-- Go slice: `none` is nil, `some xs` an allocated slice holding `xs`. -/
abbrev Slice (α : Type) := Option (List α)

/-- Go `len(s)`: the nil slice has length 0. -/
def len {α : Type} (s : Slice α) : Nat :=
  match s with
  | none => 0
  | some xs => xs.length

/-- The elements a `for _, v := range s` loop visits, in order (none for nil). -/
def elems {α : Type} (s : Slice α) : List α :=
  match s with
  | none => []
  | some xs => xs

/-- Go `make([]T, n)`: an allocated list of `n` zero values. -/
def make {β : Type} [Inhabited β] (n : Nat) : List β :=
  List.replicate n default

/-- The loop `for i, v := range src { dst[i] = f(v) }`, started at index `i`. -/
def rangeAssignFrom {α β : Type} (f : α → β) : Nat → List α → List β → List β
  | _, [], dst => dst
  | i, v :: vs, dst => rangeAssignFrom f (i + 1) vs (dst.set i (f v))

/-- The Go idiom `dst := make([]T, len(src)); for i, v := range src { dst[i] = f(v) }`.
The result is always an allocated (non-nil) slice. -/
def makeAndFill {α β : Type} [Inhabited β] (f : α → β) (src : Slice α) : List β :=
  rangeAssignFrom f 0 (elems src) (make (len src))

/-- Width in bits of Go `int` on the 64-bit targets. -/
def intSize : Nat := 64

/-- Two-complement wrap of an integer to `w` bits. -/
def wrapSigned (w : Nat) (x : Int) : Int :=
  (x + 2 ^ (w - 1)) % 2 ^ w - 2 ^ (w - 1)

/-- Go conversion `int(x)` of an `int64`. -/
def toInt (x : Int) : Int := wrapSigned intSize x

/-- Go conversion `int64(x)` of an `int`: sign extension, exact. -/
def toInt64 (x : Int) : Int := x

/-- The values of a 64-bit signed integer. -/
def inInt64 (x : Int) : Prop := -(2 ^ 63) ≤ x ∧ x < 2 ^ 63

instance (x : Int) : Decidable (inInt64 x) := by
  unfold inInt64; exact inferInstance

/-! ## Framework values (`github.com/hashicorp/terraform-plugin-framework/types`) -/

/-- Framework `types.String`: null (the zero value), unknown or a known string. -/
inductive types.String where
  | null
  | unknown
  | known (v : GoString)
  deriving DecidableEq, Repr

/-- Framework `types.Bool`. -/
inductive types.Bool where
  | null
  | unknown
  | known (v : GoBool)
  deriving DecidableEq, Repr

/-- Framework `types.Int64`. -/
inductive types.Int64 where
  | null
  | unknown
  | known (v : Int)
  deriving DecidableEq, Repr

instance : Inhabited types.String := ⟨types.String.null⟩
instance : Inhabited types.Bool := ⟨types.Bool.null⟩
instance : Inhabited types.Int64 := ⟨types.Int64.null⟩

/-- Go `types.StringValue(s)`. -/
def types.StringValue (s : GoString) : types.String := types.String.known s

/-- Go `types.StringNull()`. -/
def types.StringNull : types.String := types.String.null

/-- Go `types.BoolValue(b)`. -/
def types.BoolValue (b : GoBool) : types.Bool := types.Bool.known b

/-- Go `types.Int64Value(n)`. -/
def types.Int64Value (n : Int) : types.Int64 := types.Int64.known n

/-- Go `s.ValueString()`: the known string, `""` when null or unknown. -/
def types.String.ValueString : types.String → GoString
  | types.String.known v => v
  | _ => ""

/-- Go `b.ValueBool()`: the known boolean, `false` when null or unknown. -/
def types.Bool.ValueBool : types.Bool → GoBool
  | types.Bool.known v => v
  | _ => false

/-- Go `n.ValueInt64()`: the known integer, `0` when null or unknown. -/
def types.Int64.ValueInt64 : types.Int64 → Int
  | types.Int64.known v => v
  | _ => 0

/-- Go `v.IsNull()`. -/
def types.String.IsNull : types.String → GoBool
  | types.String.null => true
  | _ => false

/-- Go `v.IsUnknown()`. -/
def types.String.IsUnknown : types.String → GoBool
  | types.String.unknown => true
  | _ => false

/-- A framework string is known. -/
def types.String.isKnown : types.String → GoBool
  | types.String.known _ => true
  | _ => false

/-- A framework boolean is known. -/
def types.Bool.isKnown : types.Bool → GoBool
  | types.Bool.known _ => true
  | _ => false

/-- A framework integer is known. -/
def types.Int64.isKnown : types.Int64 → GoBool
  | types.Int64.known _ => true
  | _ => false

/-! ## The configuration model (`policy_resource.go`, lines 24-69) -/

/-- The Go type `AccessModel`; the field `Type` is written `Type_`. -/
structure AccessModel where
  Type_ : types.String
  IsAllowed : types.Bool
  deriving DecidableEq, Repr

/-- The Go type `PolicyItemModel`. -/
structure PolicyItemModel where
  Accesses : Slice AccessModel
  Users : Slice types.String
  Groups : Slice types.String
  DelegateAdmin : types.Bool
  deriving DecidableEq, Repr

/-- The Go type `ResourceTypeModel`. -/
structure ResourceTypeModel where
  Values : Slice types.String
  IsExcludes : types.Bool
  IsRecursive : types.Bool
  deriving DecidableEq, Repr

/-- The Go type `ResourcesModel`: eight optional filters (nil pointer = absent). -/
structure ResourcesModel where
  Topic : Option ResourceTypeModel
  Database : Option ResourceTypeModel
  Table : Option ResourceTypeModel
  URL : Option ResourceTypeModel
  HiveService : Option ResourceTypeModel
  Global : Option ResourceTypeModel
  UDF : Option ResourceTypeModel
  Column : Option ResourceTypeModel
  deriving DecidableEq, Repr

/-- The Go type `policyResourceModel`. -/
structure policyResourceModel where
  ID : types.Int64
  GUID : types.String
  Name : types.String
  Description : types.String
  Service : types.String
  Resources : ResourcesModel
  IsAuditEnabled : types.Bool
  IsEnabled : types.Bool
  Version : types.Int64
  PolicyType : types.Int64
  PolicyPriority : types.Int64
  IsDenyAllElse : types.Bool
  ServiceType : types.String
  PolicyItems : Slice PolicyItemModel
  deriving DecidableEq, Repr

instance : Inhabited AccessModel := ⟨⟨default, default⟩⟩
instance : Inhabited PolicyItemModel := ⟨⟨none, none, none, default⟩⟩

/-! ## The wire representation (`github.com/g-research/ranger-go`)

The fields are the ones `policy_resource.go` reads and writes, with the Go types its
conversions and literals fix (`int(...)`, `int64(...)`, `make([]string, ...)`, `&ranger.ResourceType`). -/

/-- The Go type `ranger.Access`; the field `Type` is written `Type_`. -/
structure ranger.Access where
  Type_ : GoString
  IsAllowed : GoBool
  deriving DecidableEq, Repr

/-- The Go type `ranger.PolicyItem`. -/
structure ranger.PolicyItem where
  Accesses : Slice ranger.Access
  Users : Slice GoString
  Groups : Slice GoString
  DelegateAdmin : GoBool
  deriving DecidableEq, Repr

/-- The Go type `ranger.ResourceType`. -/
structure ranger.ResourceType where
  Values : Slice GoString
  IsExcludes : GoBool
  IsRecursive : GoBool
  deriving DecidableEq, Repr

/-- The Go type `ranger.Resources`: eight optional wire filters (nil pointer = key omitted). -/
structure ranger.Resources where
  Topic : Option ranger.ResourceType
  Database : Option ranger.ResourceType
  Table : Option ranger.ResourceType
  URL : Option ranger.ResourceType
  HiveService : Option ranger.ResourceType
  Global : Option ranger.ResourceType
  UDF : Option ranger.ResourceType
  Column : Option ranger.ResourceType
  deriving DecidableEq, Repr

/-- The Go type `ranger.Policy`. -/
structure ranger.Policy where
  ID : Int
  GUID : GoString
  Name : GoString
  Description : GoString
  Service : GoString
  ServiceType : GoString
  Resources : ranger.Resources
  IsAuditEnabled : GoBool
  IsEnabled : GoBool
  Version : Int
  PolicyType : Int
  PolicyPriority : Int
  IsDenyAllElse : GoBool
  PolicyItems : Slice ranger.PolicyItem
  deriving DecidableEq, Repr

instance : Inhabited ranger.Access := ⟨⟨"", false⟩⟩
instance : Inhabited ranger.PolicyItem := ⟨⟨none, none, none, false⟩⟩

/-- The zero value `ranger.Resources{}`: every pointer nil. -/
def ranger.Resources.zero : ranger.Resources :=
  ⟨none, none, none, none, none, none, none, none⟩

/-- The zero value `ResourcesModel{}`: every pointer nil. -/
def ResourcesModel.zero : ResourcesModel :=
  ⟨none, none, none, none, none, none, none, none⟩

/-! ## `ConvertModelToPolicy` (lines 292-443) -/

/-- One of the eight blocks of lines 317-403, for a non-nil filter pointer:
`&ranger.ResourceType{Values: make([]string, len(f.Values)), IsExcludes: f.IsExcludes.ValueBool(),
IsRecursive: f.IsRecursive.ValueBool()}` followed by
`for i, value := range f.Values { Values[i] = value.ValueString() }`. -/
def modelFilterToWire (f : ResourceTypeModel) : ranger.ResourceType :=
  { Values := some (makeAndFill types.String.ValueString f.Values)
    IsExcludes := f.IsExcludes.ValueBool
    IsRecursive := f.IsRecursive.ValueBool }

/-- Lines 429-432: the wire grant built from a config grant. -/
def modelAccessToWire (access : AccessModel) : ranger.Access :=
  { Type_ := access.Type_.ValueString
    IsAllowed := access.IsAllowed.ValueBool }

/-- Lines 409-434: the body of the `for i, item := range plan.PolicyItems` loop. -/
def modelItemToWire (item : PolicyItemModel) : ranger.PolicyItem :=
  { DelegateAdmin := item.DelegateAdmin.ValueBool
    Users :=
      match item.Users with
      | some _ => some (makeAndFill types.String.ValueString item.Users)
      | none => none
    Groups :=
      match item.Groups with
      | some _ => some (makeAndFill types.String.ValueString item.Groups)
      | none => none
    Accesses :=
      match item.Accesses with
      | some _ => some (makeAndFill modelAccessToWire item.Accesses)
      | none => none }

/-- The function `ConvertModelToPolicy(plan)`.  `ID`, `GUID` and `Version` are never assigned and keep
their zero values. -/
def ConvertModelToPolicy (plan : policyResourceModel) : ranger.Policy :=
  { ID := 0
    GUID := ""
    Version := 0
    Name := plan.Name.ValueString
    Service := plan.Service.ValueString
    IsAuditEnabled := plan.IsAuditEnabled.ValueBool
    IsEnabled := plan.IsEnabled.ValueBool
    PolicyType := toInt plan.PolicyType.ValueInt64
    PolicyPriority := toInt plan.PolicyPriority.ValueInt64
    IsDenyAllElse := plan.IsDenyAllElse.ValueBool
    Description :=
      if plan.Description.ValueString ≠ "" then plan.Description.ValueString else ""
    ServiceType :=
      if plan.ServiceType.ValueString ≠ "" then plan.ServiceType.ValueString else ""
    Resources :=
      { Topic := plan.Resources.Topic.map modelFilterToWire
        Database := plan.Resources.Database.map modelFilterToWire
        Table := plan.Resources.Table.map modelFilterToWire
        URL := plan.Resources.URL.map modelFilterToWire
        HiveService := plan.Resources.HiveService.map modelFilterToWire
        Global := plan.Resources.Global.map modelFilterToWire
        UDF := plan.Resources.UDF.map modelFilterToWire
        Column := plan.Resources.Column.map modelFilterToWire }
    PolicyItems :=
      match plan.PolicyItems with
      | some _ => some (makeAndFill modelItemToWire plan.PolicyItems)
      | none => none }

/-! ## `ConvertPolicyToModel` (lines 445-592) -/

/-- One of the eight blocks of lines 469-555 (and of lines 622-708), for a non-nil wire filter:
`&ResourceTypeModel{Values: make([]types.String, len(f.Values)), IsExcludes: types.BoolValue(..),
IsRecursive: types.BoolValue(..)}` followed by
`for i, value := range f.Values { Values[i] = types.StringValue(value) }`. -/
def wireFilterToModel (f : ranger.ResourceType) : ResourceTypeModel :=
  { Values := some (makeAndFill types.StringValue f.Values)
    IsExcludes := types.BoolValue f.IsExcludes
    IsRecursive := types.BoolValue f.IsRecursive }

/-- Lines 580-583 (and 731-734): the config grant built from a wire grant. -/
def wireAccessToModel (access : ranger.Access) : AccessModel :=
  { Type_ := types.StringValue access.Type_
    IsAllowed := types.BoolValue access.IsAllowed }

/-- Lines 561-585: the body of the `for i, item := range policy.PolicyItems` loop of
`ConvertPolicyToModel`; `Accesses` is allocated only under `if item.Accesses != nil`. -/
def wireItemToModel (item : ranger.PolicyItem) : PolicyItemModel :=
  { DelegateAdmin := types.BoolValue item.DelegateAdmin
    Users :=
      match item.Users with
      | some _ => some (makeAndFill types.StringValue item.Users)
      | none => none
    Groups :=
      match item.Groups with
      | some _ => some (makeAndFill types.StringValue item.Groups)
      | none => none
    Accesses :=
      match item.Accesses with
      | some _ => some (makeAndFill wireAccessToModel item.Accesses)
      | none => none }

/-- The function `ConvertPolicyToModel(policy)`. -/
def ConvertPolicyToModel (policy : ranger.Policy) : policyResourceModel :=
  { ID := types.Int64Value (toInt64 policy.ID)
    Name := types.StringValue policy.Name
    IsEnabled := types.BoolValue policy.IsEnabled
    Version := types.Int64Value (toInt64 policy.Version)
    Service := types.StringValue policy.Service
    GUID := types.StringValue policy.GUID
    IsAuditEnabled := types.BoolValue policy.IsAuditEnabled
    PolicyType := types.Int64Value (toInt64 policy.PolicyType)
    PolicyPriority := types.Int64Value (toInt64 policy.PolicyPriority)
    IsDenyAllElse := types.BoolValue policy.IsDenyAllElse
    ServiceType := types.StringValue policy.ServiceType
    Description :=
      if policy.Description ≠ "" then types.StringValue policy.Description
      else types.StringNull
    Resources :=
      { Topic := policy.Resources.Topic.map wireFilterToModel
        Database := policy.Resources.Database.map wireFilterToModel
        Table := policy.Resources.Table.map wireFilterToModel
        URL := policy.Resources.URL.map wireFilterToModel
        HiveService := policy.Resources.HiveService.map wireFilterToModel
        Global := policy.Resources.Global.map wireFilterToModel
        UDF := policy.Resources.UDF.map wireFilterToModel
        Column := policy.Resources.Column.map wireFilterToModel }
    PolicyItems :=
      match policy.PolicyItems with
      | some _ => some (makeAndFill wireItemToModel policy.PolicyItems)
      | none => none }

/-! ## `UpdatePlanFromPolicy` (lines 594-740) -/

/-- Lines 714-735: the body of the `for i, item := range policy.PolicyItems` loop of
`UpdatePlanFromPolicy`; here `Accesses` is allocated unconditionally in the literal
(`Accesses: make([]AccessModel, len(item.Accesses))`). -/
def wireItemToPlan (item : ranger.PolicyItem) : PolicyItemModel :=
  { DelegateAdmin := types.BoolValue item.DelegateAdmin
    Accesses := some (makeAndFill wireAccessToModel item.Accesses)
    Users :=
      match item.Users with
      | some _ => some (makeAndFill types.StringValue item.Users)
      | none => none
    Groups :=
      match item.Groups with
      | some _ => some (makeAndFill types.StringValue item.Groups)
      | none => none }

/-- The function `UpdatePlanFromPolicy(plan, policy, resp)`: the value of `*plan` on return.  Every field
of `plan` is assigned; `resp` is not used by the body. -/
def UpdatePlanFromPolicy (plan : policyResourceModel) (policy : ranger.Policy) :
    policyResourceModel :=
  { plan with
    ID := types.Int64Value (toInt64 policy.ID)
    GUID := types.StringValue policy.GUID
    Name := types.StringValue policy.Name
    Service := types.StringValue policy.Service
    Version := types.Int64Value (toInt64 policy.Version)
    IsEnabled := types.BoolValue policy.IsEnabled
    IsAuditEnabled := types.BoolValue policy.IsAuditEnabled
    PolicyType := types.Int64Value (toInt64 policy.PolicyType)
    PolicyPriority := types.Int64Value (toInt64 policy.PolicyPriority)
    IsDenyAllElse := types.BoolValue policy.IsDenyAllElse
    Description :=
      if policy.Description ≠ "" then types.StringValue policy.Description
      else types.StringNull
    ServiceType :=
      if policy.ServiceType ≠ "" then types.StringValue policy.ServiceType
      else types.StringNull
    Resources :=
      { Topic := policy.Resources.Topic.map wireFilterToModel
        Database := policy.Resources.Database.map wireFilterToModel
        Table := policy.Resources.Table.map wireFilterToModel
        URL := policy.Resources.URL.map wireFilterToModel
        HiveService := policy.Resources.HiveService.map wireFilterToModel
        Global := policy.Resources.Global.map wireFilterToModel
        UDF := policy.Resources.UDF.map wireFilterToModel
        Column := policy.Resources.Column.map wireFilterToModel }
    PolicyItems :=
      match policy.PolicyItems with
      | some _ => some (makeAndFill wireItemToPlan policy.PolicyItems)
      | none => none }

/-! ## The eight resource-type keys -/

/-- The fixed set of resource-type keys of the schema (lines 216-228). -/
inductive ResourceKey where
  | topic | database | table | url | hiveservice | global | udf | column
  deriving DecidableEq, Repr

/-- The config filter stored under a key. -/
def ResourcesModel.get (r : ResourcesModel) : ResourceKey → Option ResourceTypeModel
  | ResourceKey.topic => r.Topic
  | ResourceKey.database => r.Database
  | ResourceKey.table => r.Table
  | ResourceKey.url => r.URL
  | ResourceKey.hiveservice => r.HiveService
  | ResourceKey.global => r.Global
  | ResourceKey.udf => r.UDF
  | ResourceKey.column => r.Column

/-- The wire filter stored under a key. -/
def ranger.Resources.get (r : ranger.Resources) : ResourceKey → Option ranger.ResourceType
  | ResourceKey.topic => r.Topic
  | ResourceKey.database => r.Database
  | ResourceKey.table => r.Table
  | ResourceKey.url => r.URL
  | ResourceKey.hiveservice => r.HiveService
  | ResourceKey.global => r.Global
  | ResourceKey.udf => r.UDF
  | ResourceKey.column => r.Column

/-! ## Diagnostics (`github.com/hashicorp/terraform-plugin-framework/diag`) -/

/-- Severity of a diagnostic. -/
inductive diag.Severity where
  | SeverityError
  | SeverityWarning
  deriving DecidableEq, Repr

/-- A diagnostic: severity, summary, detail and, for an attribute diagnostic, its path. -/
structure diag.Diagnostic where
  Severity : diag.Severity
  Summary : GoString
  Detail : GoString
  Path : Option GoString
  deriving DecidableEq, Repr

/-- The Go type `diag.Diagnostics`, a list of diagnostics. -/
abbrev diag.Diagnostics := List diag.Diagnostic

/-- Go `diag.NewErrorDiagnostic(summary, detail)`. -/
def diag.NewErrorDiagnostic (summary detail : GoString) : diag.Diagnostic :=
  { Severity := diag.Severity.SeverityError, Summary := summary, Detail := detail, Path := none }

/-- Go `diags.Contains(d)`. -/
def diag.Contains (diags : diag.Diagnostics) (d : diag.Diagnostic) : GoBool :=
  diags.any (fun e => decide (e = d))

/-- Go `diags.Append(in...)`: each diagnostic not yet contained is added at the end. -/
def diag.Append (diags : diag.Diagnostics) : diag.Diagnostics → diag.Diagnostics
  | [] => diags
  | d :: ds =>
    if diag.Contains diags d then diag.Append diags ds
    else diag.Append (diags ++ [d]) ds

/-- Go `diags.AddError(summary, detail)`. -/
def diag.AddError (diags : diag.Diagnostics) (summary detail : GoString) : diag.Diagnostics :=
  diag.Append diags [diag.NewErrorDiagnostic summary detail]

/-- Go `diags.HasError()`. -/
def diag.HasError (diags : diag.Diagnostics) : GoBool :=
  diags.any (fun e => decide (e.Severity = diag.Severity.SeverityError))

/-- Go `n.String()` of a `types.Int64`. -/
def types.Int64.String : types.Int64 → GoString
  | types.Int64.unknown => "<unknown>"
  | types.Int64.null => "<null>"
  | types.Int64.known v => toString v

/-! ## The API client and the host requests -/

/-- The Go type `ranger.Service`, as far as `service_data_source.go` reads it. -/
structure ranger.Service where
  ID : Int
  Name : GoString
  deriving DecidableEq, Repr

/-- The remote calls of `*ranger.Client` that the provider makes.  The remote side is a state
`σ`; each call returns its answer (an error is its `err.Error()` text) and the next state. -/
structure ranger.Client (σ : Type) where
  CreatePolicy : ranger.Policy → σ → Except GoString ranger.Policy × σ
  GetPolicy : Int → σ → Except GoString ranger.Policy × σ
  UpdatePolicy : ranger.Policy → σ → Except GoString ranger.Policy × σ
  DeletePolicy : Int → σ → Option GoString × σ
  GetServices : σ → Except GoString (List ranger.Service) × σ

/-- What `x.Get(ctx, &v)` yields on a plan, state or config: its diagnostics and the
decoded value `v`. -/
structure Got (α : Type) where
  diags : diag.Diagnostics
  value : α

/-- The Go type `resource.CreateRequest`. -/
structure resource.CreateRequest where
  Plan : Got policyResourceModel

/-- The Go type `resource.UpdateRequest`. -/
structure resource.UpdateRequest where
  Plan : Got policyResourceModel
  State : Got policyResourceModel

/-- The part of `resource.CreateResponse` / `resource.UpdateResponse` the methods touch:
the state (`none` while no state is recorded) and the diagnostics. -/
structure resource.Response where
  State : Option policyResourceModel
  Diagnostics : diag.Diagnostics
  deriving DecidableEq, Repr

/-- Go `resp.State.Set(ctx, v)`: the state becomes `v`; encoding a model of the declared shape
yields no diagnostics. -/
def resource.Response.SetState (resp : resource.Response) (v : policyResourceModel) :
    resource.Response :=
  { resp with State := some v }

/-! ## `policyResource.Create` (lines 744-773) and `policyResource.Update` (lines 806-845) -/

/-- The method `(r *policyResource) Create(ctx, req, resp)`: the response and remote state on return. -/
def policyResource.Create {σ : Type} (client : ranger.Client σ) (req : resource.CreateRequest)
    (resp : resource.Response) (s : σ) : resource.Response × σ :=
  let plan := req.Plan.value
  let resp := { resp with Diagnostics := diag.Append resp.Diagnostics req.Plan.diags }
  if diag.HasError resp.Diagnostics then (resp, s)
  else
    let policyToCreate := ConvertModelToPolicy plan
    match client.CreatePolicy policyToCreate s with
    | (Except.error err, s1) =>
      ({ resp with
          Diagnostics := diag.AddError resp.Diagnostics "Error creating policy"
            ("Could not create policy, unexpected error: " ++ err) }, s1)
    | (Except.ok policy, s1) =>
      let plan := UpdatePlanFromPolicy plan policy
      (resp.SetState plan, s1)

/-- The method `(r *policyResource) Update(ctx, req, resp)`: the response and remote state on return. -/
def policyResource.Update {σ : Type} (client : ranger.Client σ) (req : resource.UpdateRequest)
    (resp : resource.Response) (s : σ) : resource.Response × σ :=
  let plan := req.Plan.value
  let resp := { resp with Diagnostics := diag.Append resp.Diagnostics req.Plan.diags }
  if diag.HasError resp.Diagnostics then (resp, s)
  else
    let policyToUpdate := ConvertModelToPolicy plan
    let state := req.State.value
    if diag.HasError req.State.diags then
      ({ resp with Diagnostics := diag.Append resp.Diagnostics req.State.diags }, s)
    else
      let policyToUpdate := { policyToUpdate with ID := toInt state.ID.ValueInt64 }
      match client.UpdatePolicy policyToUpdate s with
      | (Except.error err, s1) =>
        ({ resp with
            Diagnostics := diag.AddError resp.Diagnostics "Error updating Ranger policy"
              ("Could not update policy ID " ++ plan.ID.String ++ ": " ++ err) }, s1)
      | (Except.ok policy, s1) =>
        let plan := UpdatePlanFromPolicy plan policy
        (resp.SetState plan, s1)

/-! ## Predicates used to state the properties -/

/-- Every element of a list of framework strings is known. -/
def allKnownStrings (vs : List types.String) : GoBool :=
  vs.all types.String.isKnown

/-- A config filter supplied with known values: an allocated list of known patterns and two
known flags. -/
def ResourceTypeModel.allKnown (f : ResourceTypeModel) : GoBool :=
  (match f.Values with
    | some vs => allKnownStrings vs
    | none => false)
  && f.IsExcludes.isKnown && f.IsRecursive.isKnown

/-- A wire filter whose `Values` slice is allocated (non-nil). -/
def ranger.ResourceType.hasValues (f : ranger.ResourceType) : GoBool :=
  f.Values.isSome

/-- The schema defaults of lines 158-206: `is_audit_enabled` and `is_enabled` default to true,
`policy_type` and `policy_priority` to 0, `is_deny_all_else` to false. -/
def hasSchemaDefaults (m : policyResourceModel) : Prop :=
  m.IsAuditEnabled = types.Bool.known true ∧ m.IsEnabled = types.Bool.known true ∧
  m.PolicyType = types.Int64.known 0 ∧ m.PolicyPriority = types.Int64.known 0 ∧
  m.IsDenyAllElse = types.Bool.known false

instance (m : policyResourceModel) : Decidable (hasSchemaDefaults m) := by
  unfold hasSchemaDefaults; exact inferInstance

/-! ## Sample values

The configuration of the acceptance test (`policy_resource_test.go`, lines 18-45) and
variations of it. -/

/-- The `topic` filter of the acceptance test, with the defaulted flags. -/
def sampleTopic : ResourceTypeModel :=
  { Values := some [types.String.known "topic-pattern-0-*", types.String.known "topic-pattern-1-*"]
    IsExcludes := types.Bool.known false
    IsRecursive := types.Bool.known false }

/-- A config with only `name`, `service` and `resources.topic` supplied; computed fields
still unknown. -/
def sampleRequiredOnly : policyResourceModel :=
  { ID := types.Int64.unknown
    GUID := types.String.unknown
    Name := types.String.known "test-policy"
    Description := types.String.null
    Service := types.String.known "dev_kafka"
    Resources := { ResourcesModel.zero with Topic := some sampleTopic }
    IsAuditEnabled := types.Bool.known true
    IsEnabled := types.Bool.known true
    Version := types.Int64.unknown
    PolicyType := types.Int64.known 0
    PolicyPriority := types.Int64.known 0
    IsDenyAllElse := types.Bool.known false
    ServiceType := types.String.unknown
    PolicyItems := none }

/-- A wire policy as the remote returns it: server-assigned identity, one filter, two rules of
which the first has nil users and an allocated but empty groups list. -/
def sampleWirePolicy : ranger.Policy :=
  { ID := 42
    GUID := "b7f0c1c2-guid"
    Name := "test-policy"
    Description := "policy description"
    Service := "dev_kafka"
    ServiceType := "kafka"
    Resources :=
      { ranger.Resources.zero with
        Topic := some { Values := some ["topic-pattern-0-*", "topic-pattern-0-*"],
                        IsExcludes := false, IsRecursive := true } }
    IsAuditEnabled := true
    IsEnabled := true
    Version := 3
    PolicyType := 0
    PolicyPriority := 1
    IsDenyAllElse := false
    PolicyItems := some
      [ { Accesses := some [⟨"publish", true⟩], Users := none, Groups := some [],
          DelegateAdmin := false },
        { Accesses := some [⟨"consume", true⟩, ⟨"describe", false⟩],
          Users := some ["example-user"], Groups := none, DelegateAdmin := true } ] }

/-- The rule of the acceptance test: one `publish` grant, one user, one group. -/
def sampleRule : PolicyItemModel :=
  { Accesses := some [⟨types.String.known "publish", types.Bool.known true⟩]
    Users := some [types.String.known "example-user"]
    Groups := some [types.String.known "example-group"]
    DelegateAdmin := types.Bool.known false }

/-- The full plan of the acceptance test's create step, as the host hands it over: defaults
applied, computed fields unknown. -/
def sampleFullPlan : policyResourceModel :=
  { sampleRequiredOnly with
    Description := types.String.known "policy description"
    PolicyItems := some [sampleRule] }

/-- A rule that supplies no users (nil) and an explicitly empty groups list. -/
def sampleNilEmptyRule : PolicyItemModel :=
  { Accesses := some [⟨types.String.known "consume", types.Bool.known true⟩]
    Users := none
    Groups := some []
    DelegateAdmin := types.Bool.known true }

/-- The sample plan with the nil/empty rule added as a second rule. -/
def sampleNilEmptyPlan : policyResourceModel :=
  { sampleFullPlan with PolicyItems := some [sampleRule, sampleNilEmptyRule] }

/-- A wire policy with an empty service type and a rule whose accesses slice is nil. -/
def sampleWireNoServiceType : ranger.Policy :=
  { sampleWirePolicy with
    ServiceType := ""
    PolicyItems := some
      [ { Accesses := none, Users := some ["example-user"], Groups := none,
          DelegateAdmin := false } ] }

/-- A create response that echoes neither the filters, nor the description, nor the rules. -/
def sampleBareResponse : ranger.Policy :=
  { ID := 7
    GUID := "guid-7"
    Name := "test-policy"
    Description := ""
    Service := "dev_kafka"
    ServiceType := "kafka"
    Resources := ranger.Resources.zero
    IsAuditEnabled := true
    IsEnabled := true
    Version := 1
    PolicyType := 0
    PolicyPriority := 0
    IsDenyAllElse := false
    PolicyItems := none }

/-- A remote (without state) that answers every create and update with `answer` and fails
every other call. -/
def constantClient (answer : ranger.Policy) : ranger.Client Unit :=
  { CreatePolicy := fun _ s => (Except.ok answer, s)
    GetPolicy := fun _ s => (Except.error "not found", s)
    UpdatePolicy := fun _ s => (Except.ok answer, s)
    DeletePolicy := fun _ s => (some "not found", s)
    GetServices := fun s => (Except.error "unavailable", s) }

/-- A response with no state recorded and no diagnostics, as the host passes it to Create. -/
def emptyResponse : resource.Response :=
  { State := none, Diagnostics := [] }

/-- A config grant with known type and allowed flag. -/
def AccessModel.allKnown (a : AccessModel) : GoBool :=
  a.Type_.isKnown && a.IsAllowed.isKnown

/-- An optional list of strings: not supplied (nil), or allocated with known elements. -/
def nilOrKnownStrings (s : Slice types.String) : GoBool :=
  match s with
  | none => true
  | some vs => allKnownStrings vs

/-- A config rule with a non-nil list of known grants, users and groups each either not
supplied or known, and a known delegate-admin flag. -/
def PolicyItemModel.allKnown (c : PolicyItemModel) : GoBool :=
  (match c.Accesses with
    | some as => as.all AccessModel.allKnown
    | none => false)
  && nilOrKnownStrings c.Users && nilOrKnownStrings c.Groups && c.DelegateAdmin.isKnown

/-- A known framework integer holding a 64-bit value. -/
def types.Int64.isKnownInt64 (v : types.Int64) : GoBool :=
  match v with
  | types.Int64.known n => decide (inInt64 n)
  | _ => false

/-- A description that is null or a known non-empty string. -/
def nullOrNonEmpty (d : types.String) : GoBool :=
  match d with
  | types.String.null => true
  | types.String.known v => decide (v ≠ "")
  | types.String.unknown => false

/-- A plan whose supplied values are all known: known name, service, flags and numbers, a
description that is null or non-empty, known filters, and rules (if any) that are known. -/
structure SuppliedPlan (plan : policyResourceModel) : Prop where
  name : plan.Name.isKnown = true
  service : plan.Service.isKnown = true
  description : nullOrNonEmpty plan.Description = true
  resources : ∀ k f, plan.Resources.get k = some f → f.allKnown = true
  audit : plan.IsAuditEnabled.isKnown = true
  enabled : plan.IsEnabled.isKnown = true
  policyType : plan.PolicyType.isKnownInt64 = true
  policyPriority : plan.PolicyPriority.isKnownInt64 = true
  denyAllElse : plan.IsDenyAllElse.isKnown = true
  items : ∀ items, plan.PolicyItems = some items → ∀ c ∈ items, c.allKnown = true

/-- The submitted policy with the server-assigned identity filled in. -/
def withServerFields (submitted : ranger.Policy) (id : Int) (guid : GoString) (version : Int)
    (serviceType : GoString) : ranger.Policy :=
  { submitted with ID := id, GUID := guid, Version := version, ServiceType := serviceType }

/-- A remote (without state) that answers create and update with the submitted policy plus
the given server-assigned id, guid, version and service type. -/
def echoClient (id : Int) (guid : GoString) (version : Int) (serviceType : GoString) :
    ranger.Client Unit :=
  { CreatePolicy := fun submitted s =>
      (Except.ok (withServerFields submitted id guid version serviceType), s)
    GetPolicy := fun _ s => (Except.error "not found", s)
    UpdatePolicy := fun submitted s =>
      (Except.ok (withServerFields submitted id guid version serviceType), s)
    DeletePolicy := fun _ s => (some "not found", s)
    GetServices := fun s => (Except.error "unavailable", s) }

/-! ## Observing the remote calls -/

/-- A remote call with its argument. -/
inductive RemoteCall where
  | CreatePolicy (p : ranger.Policy)
  | GetPolicy (id : Int)
  | UpdatePolicy (p : ranger.Policy)
  | DeletePolicy (id : Int)
  | GetServices
  deriving DecidableEq, Repr

/-- The client `c` with a log: every call is answered by `c` and appended, with its argument,
to the list of calls made so far. -/
def ranger.Client.traced {σ : Type} (c : ranger.Client σ) : ranger.Client (σ × List RemoteCall) :=
  { CreatePolicy := fun p st =>
      ((c.CreatePolicy p st.1).1, ((c.CreatePolicy p st.1).2, st.2 ++ [RemoteCall.CreatePolicy p]))
    GetPolicy := fun id st =>
      ((c.GetPolicy id st.1).1, ((c.GetPolicy id st.1).2, st.2 ++ [RemoteCall.GetPolicy id]))
    UpdatePolicy := fun p st =>
      ((c.UpdatePolicy p st.1).1, ((c.UpdatePolicy p st.1).2, st.2 ++ [RemoteCall.UpdatePolicy p]))
    DeletePolicy := fun id st =>
      ((c.DeletePolicy id st.1).1, ((c.DeletePolicy id st.1).2, st.2 ++ [RemoteCall.DeletePolicy id]))
    GetServices := fun st =>
      ((c.GetServices st.1).1, ((c.GetServices st.1).2, st.2 ++ [RemoteCall.GetServices])) }

/-! ## `policyResource.Read` (lines 776-803) and `policyResource.Delete` (lines 848-866) -/

/-- The Go type `resource.ReadRequest`. -/
structure resource.ReadRequest where
  State : Got policyResourceModel

/-- The Go type `resource.DeleteRequest`. -/
structure resource.DeleteRequest where
  State : Got policyResourceModel

/-- The method `(r *policyResource) Read(ctx, req, resp)`: the response and remote state on
return. -/
def policyResource.Read {σ : Type} (client : ranger.Client σ) (req : resource.ReadRequest)
    (resp : resource.Response) (s : σ) : resource.Response × σ :=
  let state := req.State.value
  let resp := { resp with Diagnostics := diag.Append resp.Diagnostics req.State.diags }
  if diag.HasError resp.Diagnostics then (resp, s)
  else
    match client.GetPolicy (toInt state.ID.ValueInt64) s with
    | (Except.error err, s1) =>
      ({ resp with
          Diagnostics := diag.AddError resp.Diagnostics "Error Reading Ranger policy"
            ("Could not read policy ID " ++ state.ID.String ++ ": " ++ err) }, s1)
    | (Except.ok policy, s1) =>
      let state := ConvertPolicyToModel policy
      (resp.SetState state, s1)

/-- The method `(r *policyResource) Delete(ctx, req, resp)`: the response and remote state on
return.  The body never assigns `resp.State`. -/
def policyResource.Delete {σ : Type} (client : ranger.Client σ) (req : resource.DeleteRequest)
    (resp : resource.Response) (s : σ) : resource.Response × σ :=
  let state := req.State.value
  let resp := { resp with Diagnostics := diag.Append resp.Diagnostics req.State.diags }
  if diag.HasError resp.Diagnostics then (resp, s)
  else
    match client.DeletePolicy (toInt state.ID.ValueInt64) s with
    | (some err, s1) =>
      ({ resp with
          Diagnostics := diag.AddError resp.Diagnostics "Error Deleting Ranger policy"
            ("Could not delete policy, unexpected error: " ++ err) }, s1)
    | (none, s1) => (resp, s1)

/-- What the framework does with the response once `Delete` has returned: the state of the
entity is removed only when the diagnostics hold no error. -/
def removeStateUnlessError (resp : resource.Response) : resource.Response :=
  if diag.HasError resp.Diagnostics then resp else { resp with State := none }

/-! ## `serviceDataSource.Read` (`service_data_source.go`, lines 51-100) -/

/-- The Go type `serviceModel`. -/
structure serviceModel where
  ID : types.Int64
  Name : types.String
  deriving DecidableEq, Repr

/-- The Go type `datasource.ReadRequest`. -/
structure datasource.ReadRequest where
  Config : Got serviceModel

/-- The part of `datasource.ReadResponse` that `Read` touches. -/
structure datasource.ReadResponse where
  State : Option serviceModel
  Diagnostics : diag.Diagnostics
  deriving DecidableEq, Repr

/-- Lines 71-78: `var service ranger.Service` followed by the loop
`for _, s := range services { if s.Name == name { service = s; break } }`; the result is the
first service with that name, or the zero value. -/
def scanServices (name : GoString) : List ranger.Service → ranger.Service
  | [] => { ID := 0, Name := "" }
  | s :: rest => if s.Name = name then s else scanServices name rest

/-- The method `(d *serviceDataSource) Read(ctx, req, resp)`: the response and remote state on
return. -/
def serviceDataSource.Read {σ : Type} (client : ranger.Client σ) (req : datasource.ReadRequest)
    (resp : datasource.ReadResponse) (s : σ) : datasource.ReadResponse × σ :=
  let state := req.Config.value
  let resp := { resp with Diagnostics := diag.Append resp.Diagnostics req.Config.diags }
  if diag.HasError resp.Diagnostics then (resp, s)
  else
    match client.GetServices s with
    | (Except.error err, s1) =>
      ({ resp with
          Diagnostics := diag.AddError resp.Diagnostics "Unable to Read Ranger Policy" err }, s1)
    | (Except.ok services, s1) =>
      let service := scanServices state.Name.ValueString services
      if service.ID = 0 then
        ({ resp with
            Diagnostics := diag.AddError resp.Diagnostics "Service Not Found"
              ("Service with name '" ++ state.Name.ValueString ++ "' not found.") }, s1)
      else
        let state : serviceModel :=
          { ID := types.Int64Value (toInt64 service.ID)
            Name := types.StringValue service.Name }
        ({ resp with State := some state }, s1)

/-! ## `rangerProvider.Configure` (`provider.go`, lines 77-196) -/

/-- The Go type `rangerProviderModel`. -/
structure rangerProviderModel where
  Host : types.String
  Username : types.String
  Password : types.String
  deriving DecidableEq, Repr

/-- The three environment variables `Configure` reads with `os.Getenv` (an unset variable
reads as the empty string). -/
structure Environ where
  RANGER_HOST : GoString
  RANGER_USERNAME : GoString
  RANGER_PASSWORD : GoString
  deriving DecidableEq, Repr

/-- The value `ranger.NewClient(host, username, password)`, identified by its arguments. -/
structure ranger.ClientHandle where
  host : GoString
  username : GoString
  password : GoString
  deriving DecidableEq, Repr

/-- The Go type `provider.ConfigureRequest`. -/
structure provider.ConfigureRequest where
  Config : Got rangerProviderModel

/-- The part of `provider.ConfigureResponse` that `Configure` touches. -/
structure provider.ConfigureResponse where
  DataSourceData : Option ranger.ClientHandle
  ResourceData : Option ranger.ClientHandle
  Diagnostics : diag.Diagnostics
  deriving DecidableEq, Repr

/-- Go `diag.NewAttributeErrorDiagnostic(path.Root(attr), summary, detail)`. -/
def diag.NewAttributeErrorDiagnostic (attr summary detail : GoString) : diag.Diagnostic :=
  { Severity := diag.Severity.SeverityError, Summary := summary, Detail := detail,
    Path := some attr }

/-- Go `diags.AddAttributeError(path.Root(attr), summary, detail)`. -/
def diag.AddAttributeError (diags : diag.Diagnostics) (attr summary detail : GoString) :
    diag.Diagnostics :=
  diag.Append diags [diag.NewAttributeErrorDiagnostic attr summary detail]

/-- One of the three blocks of lines 126-140: `v := os.Getenv(..)` followed by
`if !config.X.IsNull() { v = config.X.ValueString() }`. -/
def configOrEnv (cfg : types.String) (env : GoString) : GoString :=
  if !cfg.IsNull then cfg.ValueString else env

/-- Lines 92-117: the three `IsUnknown` checks, each adding an attribute error. -/
def addUnknownErrors (config : rangerProviderModel) (diags : diag.Diagnostics) :
    diag.Diagnostics :=
  let diags :=
    if config.Host.IsUnknown then
      diag.AddAttributeError diags "host" "Unknown Ranger Host"
        ("The provider cannot create the Ranger client as there is an unknown configuration value for the Ranger host. " ++
          "Either target apply the source of the value first, set the value statically in the configuration, or use the RANGER_HOST environment variable.")
    else diags
  let diags :=
    if config.Username.IsUnknown then
      diag.AddAttributeError diags "username" "Unknown Ranger Username"
        ("The provider cannot create the Ranger client as there is an unknown configuration value for the Ranger username. " ++
          "Either target apply the source of the value first, set the value statically in the configuration, or use the RANGER_USERNAME environment variable.")
    else diags
  if config.Password.IsUnknown then
    diag.AddAttributeError diags "password" "Unknown Ranger API Password"
      ("The provider cannot create the Ranger client as there is an unknown configuration value for the Ranger API password. " ++
        "Either target apply the source of the value first, set the value statically in the configuration, or use the RANGER_PASSWORD environment variable.")
  else diags

/-- Lines 145-173: the three emptiness checks on the resolved values, each adding an
attribute error. -/
def addMissingErrors (host username password : GoString) (diags : diag.Diagnostics) :
    diag.Diagnostics :=
  let diags :=
    if host = "" then
      diag.AddAttributeError diags "host" "Missing Ranger Host"
        ("The provider cannot create the Ranger client as there is a missing or empty value for the Ranger host. " ++
          "Set the host value in the configuration or use the RANGER_HOST environment variable. " ++
          "If either is already set, ensure the value is not empty.")
    else diags
  let diags :=
    if username = "" then
      diag.AddAttributeError diags "username" "Missing Ranger Username"
        ("The provider cannot create the Ranger client as there is a missing or empty value for the Ranger username. " ++
          "Set the username value in the configuration or use the RANGER_USERNAME environment variable. " ++
          "If either is already set, ensure the value is not empty.")
    else diags
  if password = "" then
    diag.AddAttributeError diags "password" "Missing Ranger Password"
      ("The provider cannot create the Ranger client as there is a missing or empty value for the Ranger password. " ++
        "Set the password value in the configuration or use the RANGER_PASSWORD environment variable. " ++
        "If either is already set, ensure the value is not empty.")
  else diags

/-- The method `(p *rangerProvider) Configure(ctx, req, resp)`: the response on return, given
the process environment. -/
def rangerProvider.Configure (env : Environ) (req : provider.ConfigureRequest)
    (resp : provider.ConfigureResponse) : provider.ConfigureResponse :=
  let config := req.Config.value
  let resp := { resp with Diagnostics := diag.Append resp.Diagnostics req.Config.diags }
  if diag.HasError resp.Diagnostics then resp
  else
    let resp := { resp with Diagnostics := addUnknownErrors config resp.Diagnostics }
    if diag.HasError resp.Diagnostics then resp
    else
      let host := configOrEnv config.Host env.RANGER_HOST
      let username := configOrEnv config.Username env.RANGER_USERNAME
      let password := configOrEnv config.Password env.RANGER_PASSWORD
      let resp := { resp with
        Diagnostics := addMissingErrors host username password resp.Diagnostics }
      if diag.HasError resp.Diagnostics then resp
      else
        let client : ranger.ClientHandle :=
          { host := host, username := username, password := password }
        { resp with DataSourceData := some client, ResourceData := some client }

/-- A remote (without state) on which every call fails with the error text `err`. -/
def failingClient (err : GoString) : ranger.Client Unit :=
  { CreatePolicy := fun _ s => (Except.error err, s)
    GetPolicy := fun _ s => (Except.error err, s)
    UpdatePolicy := fun _ s => (Except.error err, s)
    DeletePolicy := fun _ s => (some err, s)
    GetServices := fun s => (Except.error err, s) }

/-- The sample plan carrying the given id. -/
def samplePlanWithID (id : Int) : policyResourceModel :=
  { sampleFullPlan with ID := types.Int64.known id }

/-- A remote (without state) that holds one policy and a list of services: every policy call
succeeds with that policy, deletion succeeds, and the service list is returned as it is. -/
def servingClient (p : ranger.Policy) (services : List ranger.Service) : ranger.Client Unit :=
  { CreatePolicy := fun _ s => (Except.ok p, s)
    GetPolicy := fun _ s => (Except.ok p, s)
    UpdatePolicy := fun _ s => (Except.ok p, s)
    DeletePolicy := fun _ s => (none, s)
    GetServices := fun s => (Except.ok services, s) }

/-- A service list in which the name `dev_kafka` occurs twice. -/
def sampleServices : List ranger.Service :=
  [⟨3, "dev_hive"⟩, ⟨6, "dev_kafka"⟩, ⟨9, "dev_kafka"⟩]

/-- The lookup request for the given name: the config holds the name, the id is still null. -/
def lookupRequest (name : GoString) : datasource.ReadRequest :=
  { Config := { diags := [], value := { ID := types.Int64.null, Name := types.String.known name } } }

/-- The response as the host passes it to the data source: no state, no diagnostics. -/
def emptyLookupResponse : datasource.ReadResponse :=
  { State := none, Diagnostics := [] }

/-- The provider configuration of the acceptance tests (`provider_test.go`, lines 15-19). -/
def sampleProviderConfig : rangerProviderModel :=
  { Host := types.String.known "http://localhost:6080"
    Username := types.String.known "admin"
    Password := types.String.known "rangerR0cks!" }

/-- An environment in which all three variables are set, to other values. -/
def sampleEnviron : Environ :=
  { RANGER_HOST := "http://ranger.example:6080"
    RANGER_USERNAME := "env-user"
    RANGER_PASSWORD := "env-password" }

/-- The response as the host passes it to the provider: no client, no diagnostics. -/
def emptyConfigureResponse : provider.ConfigureResponse :=
  { DataSourceData := none, ResourceData := none, Diagnostics := [] }

/-! ## The diagnostics of `rangerProvider.Configure`, one by one -/

/-- The diagnostic of lines 93-98 (host unknown). -/
def unknownHostError : diag.Diagnostic :=
  diag.NewAttributeErrorDiagnostic "host" "Unknown Ranger Host"
    ("The provider cannot create the Ranger client as there is an unknown configuration value for the Ranger host. " ++
      "Either target apply the source of the value first, set the value statically in the configuration, or use the RANGER_HOST environment variable.")

/-- The diagnostic of lines 102-107 (username unknown). -/
def unknownUsernameError : diag.Diagnostic :=
  diag.NewAttributeErrorDiagnostic "username" "Unknown Ranger Username"
    ("The provider cannot create the Ranger client as there is an unknown configuration value for the Ranger username. " ++
      "Either target apply the source of the value first, set the value statically in the configuration, or use the RANGER_USERNAME environment variable.")

/-- The diagnostic of lines 111-116 (password unknown). -/
def unknownPasswordError : diag.Diagnostic :=
  diag.NewAttributeErrorDiagnostic "password" "Unknown Ranger API Password"
    ("The provider cannot create the Ranger client as there is an unknown configuration value for the Ranger API password. " ++
      "Either target apply the source of the value first, set the value statically in the configuration, or use the RANGER_PASSWORD environment variable.")

/-- The diagnostic of lines 146-152 (host empty). -/
def missingHostError : diag.Diagnostic :=
  diag.NewAttributeErrorDiagnostic "host" "Missing Ranger Host"
    ("The provider cannot create the Ranger client as there is a missing or empty value for the Ranger host. " ++
      "Set the host value in the configuration or use the RANGER_HOST environment variable. " ++
      "If either is already set, ensure the value is not empty.")

/-- The diagnostic of lines 156-162 (username empty). -/
def missingUsernameError : diag.Diagnostic :=
  diag.NewAttributeErrorDiagnostic "username" "Missing Ranger Username"
    ("The provider cannot create the Ranger client as there is a missing or empty value for the Ranger username. " ++
      "Set the username value in the configuration or use the RANGER_USERNAME environment variable. " ++
      "If either is already set, ensure the value is not empty.")

/-- The diagnostic of lines 166-172 (password empty). -/
def missingPasswordError : diag.Diagnostic :=
  diag.NewAttributeErrorDiagnostic "password" "Missing Ranger Password"
    ("The provider cannot create the Ranger client as there is a missing or empty value for the Ranger password. " ++
      "Set the password value in the configuration or use the RANGER_PASSWORD environment variable. " ++
      "If either is already set, ensure the value is not empty.")

/-- One diagnostic for each attribute whose configuration value is unknown, in the order
host, username, password. -/
def unknownErrors (config : rangerProviderModel) : List diag.Diagnostic :=
  (if config.Host.IsUnknown then [unknownHostError] else []) ++
  (if config.Username.IsUnknown then [unknownUsernameError] else []) ++
  (if config.Password.IsUnknown then [unknownPasswordError] else [])

/-- One diagnostic for each resolved value that is the empty string, in the order host,
username, password. -/
def missingErrors (host username password : GoString) : List diag.Diagnostic :=
  (if host = "" then [missingHostError] else []) ++
  (if username = "" then [missingUsernameError] else []) ++
  (if password = "" then [missingPasswordError] else [])

/-- A configuration in which no value is unknown. -/
def noneUnknown (config : rangerProviderModel) : GoBool :=
  !config.Host.IsUnknown && !config.Username.IsUnknown && !config.Password.IsUnknown

/-- The resolved host of lines 126-132. -/
def resolvedHost (env : Environ) (config : rangerProviderModel) : GoString :=
  configOrEnv config.Host env.RANGER_HOST

/-- The resolved username of lines 127-136. -/
def resolvedUsername (env : Environ) (config : rangerProviderModel) : GoString :=
  configOrEnv config.Username env.RANGER_USERNAME

/-- The resolved password of lines 128-140. -/
def resolvedPassword (env : Environ) (config : rangerProviderModel) : GoString :=
  configOrEnv config.Password env.RANGER_PASSWORD

/-- A provider configuration with an unknown host and no username at all. -/
def sampleUnknownHostConfig : rangerProviderModel :=
  { Host := types.String.unknown
    Username := types.String.null
    Password := types.String.known "rangerR0cks!" }

/-- An environment in which none of the three variables is set. -/
def emptyEnviron : Environ :=
  { RANGER_HOST := "", RANGER_USERNAME := "", RANGER_PASSWORD := "" }

/-- A plan whose policy type and priority are the largest and the smallest 64-bit integer. -/
def sampleExtremePlan : policyResourceModel :=
  { sampleFullPlan with
    PolicyType := types.Int64.known 9223372036854775807
    PolicyPriority := types.Int64.known (-9223372036854775808) }

/-- A config with a `table` filter that is present but lists no pattern. -/
def sampleEmptyFilterPlan : policyResourceModel :=
  { sampleRequiredOnly with
    Resources :=
      { sampleRequiredOnly.Resources with
        Table := some { Values := some [], IsExcludes := types.Bool.known true,
                        IsRecursive := types.Bool.known false } } }

/-! ## The mappers with checked indexed writes

The same three functions, with every indexed write `dst[i] = v` checked against the length of
the destination: a write out of range (the run-time panic of Go) makes the result `none`. -/

/-- The indexed write `dst[i] = v`: `none` when `i` is not below `len(dst)`. -/
def setIndex {β : Type} (dst : List β) (i : Nat) (v : β) : Option (List β) :=
  if i < dst.length then some (dst.set i v) else none

/-- The loop `for i, v := range src { dst[i] = f(v) }` with checked writes, started at index
`i`; computing `f(v)` may itself fail. -/
def rangeAssignChecked {α β : Type} (f : α → Option β) : Nat → List α → List β → Option (List β)
  | _, [], dst => some dst
  | i, v :: vs, dst =>
    match f v with
    | none => none
    | some w =>
      match setIndex dst i w with
      | none => none
      | some dst2 => rangeAssignChecked f (i + 1) vs dst2

/-- The idiom `dst := make([]T, len(src)); for i, v := range src { dst[i] = f(v) }` with
checked writes. -/
def makeAndFillChecked {α β : Type} [Inhabited β] (f : α → Option β) (src : Slice α) :
    Option (List β) :=
  rangeAssignChecked f 0 (elems src) (make (len src))

/-- A block guarded by `if ptr != nil`: nothing is done for the nil pointer. -/
def checkedPointer {α β : Type} (g : α → Option β) : Option α → Option (Option β)
  | none => some none
  | some a => (g a).map some

/-- A copy guarded by `if src != nil`: the destination stays nil for the nil slice. -/
def checkedSlice {α β : Type} [Inhabited β] (f : α → Option β) (src : Slice α) :
    Option (Slice β) :=
  match src with
  | none => some none
  | some _ => (makeAndFillChecked f src).map some

/-- The block of `modelFilterToWire` with checked writes. -/
def checkedModelFilterToWire (f : ResourceTypeModel) : Option ranger.ResourceType :=
  (makeAndFillChecked (fun v => some v.ValueString) f.Values).map fun values =>
    { Values := some values
      IsExcludes := f.IsExcludes.ValueBool
      IsRecursive := f.IsRecursive.ValueBool }

/-- The loop body of `modelItemToWire` with checked writes. -/
def checkedModelItemToWire (item : PolicyItemModel) : Option ranger.PolicyItem := do
  let users ← checkedSlice (fun u => some u.ValueString) item.Users
  let groups ← checkedSlice (fun g => some g.ValueString) item.Groups
  let accesses ← checkedSlice (fun a => some (modelAccessToWire a)) item.Accesses
  pure { DelegateAdmin := item.DelegateAdmin.ValueBool
         Users := users, Groups := groups, Accesses := accesses }

/-- The function `ConvertModelToPolicy` with checked writes. -/
def checkedConvertModelToPolicy (plan : policyResourceModel) : Option ranger.Policy := do
  let topic ← checkedPointer checkedModelFilterToWire plan.Resources.Topic
  let database ← checkedPointer checkedModelFilterToWire plan.Resources.Database
  let table ← checkedPointer checkedModelFilterToWire plan.Resources.Table
  let url ← checkedPointer checkedModelFilterToWire plan.Resources.URL
  let hiveService ← checkedPointer checkedModelFilterToWire plan.Resources.HiveService
  let global ← checkedPointer checkedModelFilterToWire plan.Resources.Global
  let udf ← checkedPointer checkedModelFilterToWire plan.Resources.UDF
  let column ← checkedPointer checkedModelFilterToWire plan.Resources.Column
  let items ← checkedSlice checkedModelItemToWire plan.PolicyItems
  pure
    { ID := 0
      GUID := ""
      Version := 0
      Name := plan.Name.ValueString
      Service := plan.Service.ValueString
      IsAuditEnabled := plan.IsAuditEnabled.ValueBool
      IsEnabled := plan.IsEnabled.ValueBool
      PolicyType := toInt plan.PolicyType.ValueInt64
      PolicyPriority := toInt plan.PolicyPriority.ValueInt64
      IsDenyAllElse := plan.IsDenyAllElse.ValueBool
      Description :=
        if plan.Description.ValueString ≠ "" then plan.Description.ValueString else ""
      ServiceType :=
        if plan.ServiceType.ValueString ≠ "" then plan.ServiceType.ValueString else ""
      Resources :=
        { Topic := topic, Database := database, Table := table, URL := url
          HiveService := hiveService, Global := global, UDF := udf, Column := column }
      PolicyItems := items }

/-- The block of `wireFilterToModel` with checked writes. -/
def checkedWireFilterToModel (f : ranger.ResourceType) : Option ResourceTypeModel :=
  (makeAndFillChecked (fun v => some (types.StringValue v)) f.Values).map fun values =>
    { Values := some values
      IsExcludes := types.BoolValue f.IsExcludes
      IsRecursive := types.BoolValue f.IsRecursive }

/-- The loop body of `wireItemToModel` with checked writes. -/
def checkedWireItemToModel (item : ranger.PolicyItem) : Option PolicyItemModel := do
  let users ← checkedSlice (fun u => some (types.StringValue u)) item.Users
  let groups ← checkedSlice (fun g => some (types.StringValue g)) item.Groups
  let accesses ← checkedSlice (fun a => some (wireAccessToModel a)) item.Accesses
  pure { DelegateAdmin := types.BoolValue item.DelegateAdmin
         Users := users, Groups := groups, Accesses := accesses }

/-- The loop body of `wireItemToPlan` with checked writes. -/
def checkedWireItemToPlan (item : ranger.PolicyItem) : Option PolicyItemModel := do
  let users ← checkedSlice (fun u => some (types.StringValue u)) item.Users
  let groups ← checkedSlice (fun g => some (types.StringValue g)) item.Groups
  let accesses ← makeAndFillChecked (fun a => some (wireAccessToModel a)) item.Accesses
  pure { DelegateAdmin := types.BoolValue item.DelegateAdmin
         Users := users, Groups := groups, Accesses := some accesses }

/-- The eight filter blocks of lines 469-555 and 622-708 with checked writes. -/
def checkedResourcesToModel (r : ranger.Resources) : Option ResourcesModel := do
  let topic ← checkedPointer checkedWireFilterToModel r.Topic
  let database ← checkedPointer checkedWireFilterToModel r.Database
  let table ← checkedPointer checkedWireFilterToModel r.Table
  let url ← checkedPointer checkedWireFilterToModel r.URL
  let hiveService ← checkedPointer checkedWireFilterToModel r.HiveService
  let global ← checkedPointer checkedWireFilterToModel r.Global
  let udf ← checkedPointer checkedWireFilterToModel r.UDF
  let column ← checkedPointer checkedWireFilterToModel r.Column
  pure { Topic := topic, Database := database, Table := table, URL := url
         HiveService := hiveService, Global := global, UDF := udf, Column := column }

/-- The function `ConvertPolicyToModel` with checked writes. -/
def checkedConvertPolicyToModel (policy : ranger.Policy) : Option policyResourceModel := do
  let resources ← checkedResourcesToModel policy.Resources
  let items ← checkedSlice checkedWireItemToModel policy.PolicyItems
  pure
    { ID := types.Int64Value (toInt64 policy.ID)
      Name := types.StringValue policy.Name
      IsEnabled := types.BoolValue policy.IsEnabled
      Version := types.Int64Value (toInt64 policy.Version)
      Service := types.StringValue policy.Service
      GUID := types.StringValue policy.GUID
      IsAuditEnabled := types.BoolValue policy.IsAuditEnabled
      PolicyType := types.Int64Value (toInt64 policy.PolicyType)
      PolicyPriority := types.Int64Value (toInt64 policy.PolicyPriority)
      IsDenyAllElse := types.BoolValue policy.IsDenyAllElse
      ServiceType := types.StringValue policy.ServiceType
      Description :=
        if policy.Description ≠ "" then types.StringValue policy.Description
        else types.StringNull
      Resources := resources
      PolicyItems := items }

/-- The function `UpdatePlanFromPolicy` with checked writes. -/
def checkedUpdatePlanFromPolicy (plan : policyResourceModel) (policy : ranger.Policy) :
    Option policyResourceModel := do
  let resources ← checkedResourcesToModel policy.Resources
  let items ← checkedSlice checkedWireItemToPlan policy.PolicyItems
  pure
    { plan with
      ID := types.Int64Value (toInt64 policy.ID)
      GUID := types.StringValue policy.GUID
      Name := types.StringValue policy.Name
      Service := types.StringValue policy.Service
      Version := types.Int64Value (toInt64 policy.Version)
      IsEnabled := types.BoolValue policy.IsEnabled
      IsAuditEnabled := types.BoolValue policy.IsAuditEnabled
      PolicyType := types.Int64Value (toInt64 policy.PolicyType)
      PolicyPriority := types.Int64Value (toInt64 policy.PolicyPriority)
      IsDenyAllElse := types.BoolValue policy.IsDenyAllElse
      Description :=
        if policy.Description ≠ "" then types.StringValue policy.Description
        else types.StringNull
      ServiceType :=
        if policy.ServiceType ≠ "" then types.StringValue policy.ServiceType
        else types.StringNull
      Resources := resources
      PolicyItems := items }

/-! ## `policyResource.Configure` (lines 869-888) and `serviceDataSource.Configure`
(`service_data_source.go`, lines 103-121) -/

/-- The value of `req.ProviderData` (of type `any`): the nil interface, a `*ranger.Client`
(which may be a nil pointer), or a value of any other dynamic type, given by the text that
the verb `%T` prints for it. -/
inductive ProviderData where
  | absent
  | client (c : Option ranger.ClientHandle)
  | other (typeName : GoString)
  deriving DecidableEq, Repr

/-- The Go type `resource.ConfigureRequest`. -/
structure resource.ConfigureRequest where
  ProviderData : ProviderData

/-- The part of `resource.ConfigureResponse` that `Configure` touches. -/
structure resource.ConfigureResponse where
  Diagnostics : diag.Diagnostics
  deriving DecidableEq, Repr

/-- The Go type `datasource.ConfigureRequest`. -/
structure datasource.ConfigureRequest where
  ProviderData : ProviderData

/-- The part of `datasource.ConfigureResponse` that `Configure` touches. -/
structure datasource.ConfigureResponse where
  Diagnostics : diag.Diagnostics
  deriving DecidableEq, Repr

/-- The Go type `policyResource`: the client pointer (nil until configured). -/
structure policyResource where
  client : Option ranger.ClientHandle
  deriving DecidableEq, Repr

/-- The Go type `serviceDataSource`: the client pointer (nil until configured). -/
structure serviceDataSource where
  client : Option ranger.ClientHandle
  deriving DecidableEq, Repr

/-- The method `(r *policyResource) Configure(ctx, req, resp)`: the receiver and the response
on return. -/
def policyResource.Configure (r : policyResource) (req : resource.ConfigureRequest)
    (resp : resource.ConfigureResponse) : policyResource × resource.ConfigureResponse :=
  match req.ProviderData with
  | ProviderData.absent => (r, resp)
  | ProviderData.other typeName =>
    (r, { resp with
          Diagnostics := diag.AddError resp.Diagnostics "Unexpected Resource Configure Type"
            ("Expected *ranger.Client, got: " ++ typeName ++
              ". Please report this issue to the provider developers.") })
  | ProviderData.client client => ({ r with client := client }, resp)

/-- The method `(d *serviceDataSource) Configure(ctx, req, resp)`: the receiver and the
response on return. -/
def serviceDataSource.Configure (d : serviceDataSource) (req : datasource.ConfigureRequest)
    (resp : datasource.ConfigureResponse) : serviceDataSource × datasource.ConfigureResponse :=
  match req.ProviderData with
  | ProviderData.absent => (d, resp)
  | ProviderData.other typeName =>
    (d, { resp with
          Diagnostics := diag.AddError resp.Diagnostics "Unexpected Data Source Configure Type"
            ("Expected *ranger.Client, got: " ++ typeName ++
              ". Please report this issue to the provider developers.") })
  | ProviderData.client client => ({ d with client := client }, resp)

/-! ## Known scalars -/

/-- Every scalar of a config filter is known: each pattern and the two flags. -/
def ResourceTypeModel.scalarsKnown (f : ResourceTypeModel) : GoBool :=
  allKnownStrings (elems f.Values) && f.IsExcludes.isKnown && f.IsRecursive.isKnown

/-- Every scalar of a config rule is known: the delegate-admin flag, the type and allowed
flag of every grant, every user and every group (the lists themselves may be nil). -/
def PolicyItemModel.scalarsKnown (c : PolicyItemModel) : GoBool :=
  c.DelegateAdmin.isKnown && (elems c.Accesses).all AccessModel.allKnown
  && allKnownStrings (elems c.Users) && allKnownStrings (elems c.Groups)

/-- Every scalar of a config other than `description` and `service_type` is known. -/
structure policyResourceModel.scalarsKnown (m : policyResourceModel) : Prop where
  id : m.ID.isKnown = true
  guid : m.GUID.isKnown = true
  name : m.Name.isKnown = true
  service : m.Service.isKnown = true
  audit : m.IsAuditEnabled.isKnown = true
  enabled : m.IsEnabled.isKnown = true
  version : m.Version.isKnown = true
  policyType : m.PolicyType.isKnown = true
  policyPriority : m.PolicyPriority.isKnown = true
  denyAllElse : m.IsDenyAllElse.isKnown = true
  resources : ∀ k f, m.Resources.get k = some f → f.scalarsKnown = true
  items : ∀ items, m.PolicyItems = some items → ∀ c ∈ items, c.scalarsKnown = true

/-- A config with null and unknown values throughout: an unknown name, a null service, an
empty description, unknown numbers and flags, a filter with a null and an unknown pattern,
and a rule with a null grant type, an unknown user and nil groups. -/
def sampleUnsetPlan : policyResourceModel :=
  { ID := types.Int64.known 99
    GUID := types.String.known "client-guid"
    Name := types.String.unknown
    Description := types.String.known ""
    Service := types.String.null
    Resources :=
      { ResourcesModel.zero with
        Topic := some { Values := some [types.String.null, types.String.known "t-*",
                          types.String.unknown],
                        IsExcludes := types.Bool.null, IsRecursive := types.Bool.unknown }
        Column := some { Values := none, IsExcludes := types.Bool.known true,
                         IsRecursive := types.Bool.null } }
    IsAuditEnabled := types.Bool.null
    IsEnabled := types.Bool.unknown
    Version := types.Int64.unknown
    PolicyType := types.Int64.unknown
    PolicyPriority := types.Int64.null
    IsDenyAllElse := types.Bool.null
    ServiceType := types.String.unknown
    PolicyItems := some
      [ { Accesses := some [⟨types.String.null, types.Bool.unknown⟩,
                            ⟨types.String.known "publish", types.Bool.null⟩]
          Users := some [types.String.unknown, types.String.known "example-user"]
          Groups := none
          DelegateAdmin := types.Bool.unknown },
        { Accesses := none, Users := none, Groups := some [], DelegateAdmin := types.Bool.null } ] }

/-! ## Basic facts about the copy loop -/

theorem rangeAssignFrom_append {α β : Type} (f : α → β) (z : β) (src : List α) :
    ∀ pre : List β,
      rangeAssignFrom f pre.length src (pre ++ List.replicate src.length z) = pre ++ src.map f := by
  induction src with
  | nil => intro pre; simp [rangeAssignFrom]
  | cons v vs ih =>
    intro pre
    have h := ih (pre ++ [f v])
    simp only [List.length_append, List.length_singleton, List.append_assoc,
      List.singleton_append] at h
    simp only [rangeAssignFrom, List.length_cons, List.replicate_succ, List.map_cons]
    rw [List.set_append_right _ _ (Nat.le_refl _)]
    simpa using h

/-- The allocate-and-copy idiom computes `map` over the visited elements. -/
theorem makeAndFill_eq_map {α β : Type} [Inhabited β] (f : α → β) (src : Slice α) :
    makeAndFill f src = (elems src).map f := by
  have h := rangeAssignFrom_append f (default : β) (elems src) []
  cases src <;> simpa [makeAndFill, make, len, elems] using h

/-! ## Conversions of integers -/

theorem toInt_of_inInt64 (x : Int) (h : inInt64 x) : toInt x = x := by
  unfold inInt64 at h
  unfold toInt wrapSigned intSize
  omega

/-! ## Round trips of the elementary values -/

theorem stringValue_valueString (v : types.String) (h : v.isKnown = true) :
    types.StringValue v.ValueString = v := by
  cases v <;> simp_all [types.String.isKnown, types.StringValue, types.String.ValueString]

theorem boolValue_valueBool (v : types.Bool) (h : v.isKnown = true) :
    types.BoolValue v.ValueBool = v := by
  cases v <;> simp_all [types.Bool.isKnown, types.BoolValue, types.Bool.ValueBool]

theorem map_stringValue_valueString (vs : List types.String) (h : allKnownStrings vs = true) :
    (vs.map types.String.ValueString).map types.StringValue = vs := by
  induction vs with
  | nil => rfl
  | cons v vs ih =>
    simp only [allKnownStrings, List.all_cons, Bool.and_eq_true] at h
    simp only [List.map_cons, stringValue_valueString v h.1]
    rw [ih (by simpa [allKnownStrings] using h.2)]

theorem map_valueString_stringValue (ws : List GoString) :
    (ws.map types.StringValue).map types.String.ValueString = ws := by
  induction ws with
  | nil => rfl
  | cons w ws ih => simp [types.StringValue, types.String.ValueString] at ih ⊢; exact ih

/-- A known config filter survives config → wire → config. -/
theorem wireFilterToModel_modelFilterToWire (f : ResourceTypeModel) (h : f.allKnown = true) :
    wireFilterToModel (modelFilterToWire f) = f := by
  obtain ⟨vals, ex, re⟩ := f
  cases vals with
  | none => simp [ResourceTypeModel.allKnown] at h
  | some vs =>
    simp only [ResourceTypeModel.allKnown, Bool.and_eq_true] at h
    obtain ⟨⟨hv, hex⟩, hre⟩ := h
    simp only [wireFilterToModel, modelFilterToWire, makeAndFill_eq_map, elems,
      map_stringValue_valueString vs hv, boolValue_valueBool ex hex, boolValue_valueBool re hre]

/-- A wire filter with allocated values survives wire → config → wire. -/
theorem modelFilterToWire_wireFilterToModel (f : ranger.ResourceType)
    (h : f.hasValues = true) : modelFilterToWire (wireFilterToModel f) = f := by
  obtain ⟨vals, ex, re⟩ := f
  cases vals with
  | none => simp [ranger.ResourceType.hasValues] at h
  | some ws =>
    simp only [wireFilterToModel, modelFilterToWire, makeAndFill_eq_map, elems,
      map_valueString_stringValue, types.BoolValue, types.Bool.ValueBool]

theorem option_map_roundtrip {α β : Type} (f : α → β) (g : β → α) (P : α → Prop)
    (hfg : ∀ a, P a → g (f a) = a) (o : Option α) (ho : ∀ a, o = some a → P a) :
    (o.map f).map g = o := by
  cases o with
  | none => rfl
  | some a => simp [hfg a (ho a rfl)]

/-! ## C1: config → wire → config on a config with only the required fields -/

/-- C1. For every policy config `m` with only the required fields supplied (name and
service known, each present filter with known patterns and flags, description null,
`policy_items` nil, the five defaulted fields at their schema defaults),
`ConvertPolicyToModel (ConvertModelToPolicy m)` equals `m` in every field except the
server-assigned `id`, `guid`, `version` and `service_type`, which become known values. -/
theorem C1_required_fields_roundtrip (m : policyResourceModel)
    (hname : m.Name.isKnown = true) (hservice : m.Service.isKnown = true)
    (hres : ∀ k f, m.Resources.get k = some f → f.allKnown = true)
    (hdesc : m.Description = types.String.null)
    (hitems : m.PolicyItems = none)
    (hdef : hasSchemaDefaults m) :
    ConvertPolicyToModel (ConvertModelToPolicy m) =
      { m with
        ID := types.Int64.known 0
        GUID := types.String.known ""
        Version := types.Int64.known 0
        ServiceType := types.String.known m.ServiceType.ValueString } := by
  obtain ⟨id, guid, name, desc, service, res, audit, enabled, version, ptype, prio, deny,
    stype, items⟩ := m
  obtain ⟨topic, database, table, url, hive, glob, udf, column⟩ := res
  obtain ⟨haudit, henabled, htype, hprio, hdeny⟩ := hdef
  simp only at hname hservice hdesc hitems haudit henabled htype hprio hdeny
  subst hdesc hitems haudit henabled htype hprio hdeny
  have h0 : toInt 0 = 0 := toInt_of_inInt64 0 (by decide)
  have hf : ∀ k, ((ResourcesModel.get ⟨topic, database, table, url, hive, glob, udf, column⟩
      k).map modelFilterToWire).map wireFilterToModel =
      ResourcesModel.get ⟨topic, database, table, url, hive, glob, udf, column⟩ k := fun k =>
    option_map_roundtrip modelFilterToWire wireFilterToModel (fun f => f.allKnown = true)
      wireFilterToModel_modelFilterToWire _ (hres k)
  have e1 := hf ResourceKey.topic
  have e2 := hf ResourceKey.database
  have e3 := hf ResourceKey.table
  have e4 := hf ResourceKey.url
  have e5 := hf ResourceKey.hiveservice
  have e6 := hf ResourceKey.global
  have e7 := hf ResourceKey.udf
  have e8 := hf ResourceKey.column
  simp only [ResourcesModel.get] at e1 e2 e3 e4 e5 e6 e7 e8
  cases name <;> simp [types.String.isKnown] at hname
  cases service <;> simp [types.String.isKnown] at hservice
  simp only [ConvertPolicyToModel, ConvertModelToPolicy, e1, e2, e3, e4, e5, e6, e7, e8, h0,
    types.String.ValueString, types.Bool.ValueBool, types.Int64.ValueInt64, types.BoolValue,
    types.Int64Value, toInt64, types.StringNull, types.StringValue, ne_eq, not_true_eq_false,
    if_false, ite_self]
  cases stype <;> simp
  rename_i v
  intro hv
  exact hv.symm

/-- Witness of C1 on the required-only sample config. -/
theorem C1_required_fields_roundtrip_witness :
    ConvertPolicyToModel (ConvertModelToPolicy sampleRequiredOnly) =
      { sampleRequiredOnly with
        ID := types.Int64.known 0
        GUID := types.String.known ""
        Version := types.Int64.known 0
        ServiceType := types.String.known sampleRequiredOnly.ServiceType.ValueString } :=
  C1_required_fields_roundtrip sampleRequiredOnly (by decide) (by decide)
    (by intro k f h; cases k <;> simp [sampleRequiredOnly, ResourcesModel.get,
          ResourcesModel.zero] at h
        subst h; decide)
    rfl rfl (by decide)

/-! ## C2: wire → config → wire -/

theorem modelAccessToWire_wireAccessToModel (a : ranger.Access) :
    modelAccessToWire (wireAccessToModel a) = a := rfl

theorem map_access_roundtrip (as : List ranger.Access) :
    (as.map wireAccessToModel).map modelAccessToWire = as := by
  have h : modelAccessToWire ∘ wireAccessToModel = id :=
    funext modelAccessToWire_wireAccessToModel
  rw [List.map_map, h, List.map_id]

/-- A wire rule survives wire → config → wire, nil and empty lists included. -/
theorem modelItemToWire_wireItemToModel (item : ranger.PolicyItem) :
    modelItemToWire (wireItemToModel item) = item := by
  obtain ⟨accesses, users, groups, admin⟩ := item
  cases accesses <;> cases users <;> cases groups <;>
    simp only [modelItemToWire, wireItemToModel, makeAndFill_eq_map, elems,
      map_valueString_stringValue, map_access_roundtrip, types.BoolValue,
      types.Bool.ValueBool]

theorem map_item_roundtrip (items : List ranger.PolicyItem) :
    (items.map wireItemToModel).map modelItemToWire = items := by
  have h : modelItemToWire ∘ wireItemToModel = id :=
    funext modelItemToWire_wireItemToModel
  rw [List.map_map, h, List.map_id]

/-- C2. `ConvertModelToPolicy` inverts `ConvertPolicyToModel`: for every wire policy `p`
whose present resource filters carry a non-nil values list (and whose `int` fields are
64-bit integers), `ConvertModelToPolicy (ConvertPolicyToModel p)` is `p` with only `ID`,
`GUID` and `Version` reset to their zero values; so every rule, with its nil or empty users
and groups, comes back unchanged. -/
theorem C2_wire_config_wire (p : ranger.Policy)
    (hvals : ∀ k f, p.Resources.get k = some f → f.hasValues = true)
    (htype : inInt64 p.PolicyType) (hprio : inInt64 p.PolicyPriority) :
    ConvertModelToPolicy (ConvertPolicyToModel p) = { p with ID := 0, GUID := "", Version := 0 } := by
  obtain ⟨id, guid, name, desc, service, stype, res, audit, enabled, version, ptype, prio, deny,
    items⟩ := p
  obtain ⟨topic, database, table, url, hive, glob, udf, column⟩ := res
  simp only at htype hprio
  have hf : ∀ k, ((ranger.Resources.get ⟨topic, database, table, url, hive, glob, udf, column⟩
      k).map wireFilterToModel).map modelFilterToWire =
      ranger.Resources.get ⟨topic, database, table, url, hive, glob, udf, column⟩ k := fun k =>
    option_map_roundtrip wireFilterToModel modelFilterToWire (fun f => f.hasValues = true)
      modelFilterToWire_wireFilterToModel _ (hvals k)
  have e1 := hf ResourceKey.topic
  have e2 := hf ResourceKey.database
  have e3 := hf ResourceKey.table
  have e4 := hf ResourceKey.url
  have e5 := hf ResourceKey.hiveservice
  have e6 := hf ResourceKey.global
  have e7 := hf ResourceKey.udf
  have e8 := hf ResourceKey.column
  simp only [ranger.Resources.get] at e1 e2 e3 e4 e5 e6 e7 e8
  clear hf hvals
  by_cases hd : desc = "" <;> by_cases hs : stype = "" <;> cases items <;>
    simp only [ConvertModelToPolicy, ConvertPolicyToModel, e1, e2, e3, e4, e5, e6, e7, e8, hd, hs,
      makeAndFill_eq_map, elems, map_item_roundtrip, toInt64, types.Int64Value,
      types.Int64.ValueInt64, toInt_of_inInt64 _ htype, toInt_of_inInt64 _ hprio,
      types.StringValue, types.StringNull, types.String.ValueString, types.BoolValue,
      types.Bool.ValueBool, ne_eq, not_true_eq_false, not_false_eq_true, if_true, if_false,
      ite_self]

/-- Witness of C2 on the sample wire policy (nil users, empty groups, a duplicated pattern). -/
theorem C2_wire_config_wire_witness :
    ConvertModelToPolicy (ConvertPolicyToModel sampleWirePolicy) =
      { sampleWirePolicy with ID := 0, GUID := "", Version := 0 } :=
  C2_wire_config_wire sampleWirePolicy
    (by intro k f h; cases k <;> simp [sampleWirePolicy, ranger.Resources.get,
          ranger.Resources.zero] at h
        subst h; decide)
    (by decide) (by decide)

/-! ## C3: presence of a filter is preserved in both directions -/

theorem convertModelToPolicy_get (m : policyResourceModel) (k : ResourceKey) :
    (ConvertModelToPolicy m).Resources.get k = (m.Resources.get k).map modelFilterToWire := by
  cases k <;> rfl

theorem convertPolicyToModel_get (p : ranger.Policy) (k : ResourceKey) :
    (ConvertPolicyToModel p).Resources.get k = (p.Resources.get k).map wireFilterToModel := by
  cases k <;> rfl

theorem updatePlanFromPolicy_get (plan : policyResourceModel) (p : ranger.Policy)
    (k : ResourceKey) :
    (UpdatePlanFromPolicy plan p).Resources.get k =
      (p.Resources.get k).map wireFilterToModel := by
  cases k <;> rfl

/-- C3. For each of the eight resource-type keys `k`: `ConvertModelToPolicy` leaves the wire
filter at `k` absent exactly when the config filter at `k` is absent, and
`ConvertPolicyToModel` and `UpdatePlanFromPolicy` leave the config filter at `k` absent
exactly when the wire filter at `k` is absent.  An absent filter never becomes a present
one, and a present one never disappears. -/
theorem C3_filter_presence_preserved (m plan : policyResourceModel) (p : ranger.Policy)
    (k : ResourceKey) :
    ((ConvertModelToPolicy m).Resources.get k = none ↔ m.Resources.get k = none) ∧
    ((ConvertPolicyToModel p).Resources.get k = none ↔ p.Resources.get k = none) ∧
    ((UpdatePlanFromPolicy plan p).Resources.get k = none ↔ p.Resources.get k = none) := by
  rw [convertModelToPolicy_get, convertPolicyToModel_get, updatePlanFromPolicy_get]
  simp only [Option.map_eq_none', and_self]

/-! ## C4: a present filter is copied verbatim under its own key -/

theorem map_valueString_known (ps : List GoString) :
    (ps.map types.String.known).map types.String.ValueString = ps :=
  map_valueString_stringValue ps

/-- C4. For each key `k` and every config whose filter at `k` is present with known values
(patterns `ps`, flags `ex` and `re`), the wire filter that `ConvertModelToPolicy` emits at
the same key `k` has exactly the values list `ps` (same length, same order, duplicates kept)
and the flags `ex` and `re`; and the wire filter at `k` depends on the config filter at `k`
alone: two configs with the same filter at `k` give the same wire filter at `k`. -/
theorem C4_filter_copied_verbatim (m : policyResourceModel) (k : ResourceKey)
    (ps : List GoString) (ex re : GoBool)
    (h : m.Resources.get k =
      some { Values := some (ps.map types.String.known)
             IsExcludes := types.Bool.known ex
             IsRecursive := types.Bool.known re }) :
    (ConvertModelToPolicy m).Resources.get k =
        some { Values := some ps, IsExcludes := ex, IsRecursive := re } ∧
    ∀ m2 : policyResourceModel, m2.Resources.get k = m.Resources.get k →
      (ConvertModelToPolicy m2).Resources.get k = (ConvertModelToPolicy m).Resources.get k := by
  constructor
  · rw [convertModelToPolicy_get, h]
    simp only [Option.map_some', modelFilterToWire, makeAndFill_eq_map, elems,
      map_valueString_known, types.Bool.ValueBool]
  · intro m2 h2
    rw [convertModelToPolicy_get, convertModelToPolicy_get, h2]

/-- Witness of C4: the `topic` filter of the sample config. -/
theorem C4_filter_copied_verbatim_witness :
    (ConvertModelToPolicy sampleRequiredOnly).Resources.get ResourceKey.topic =
        some { Values := some ["topic-pattern-0-*", "topic-pattern-1-*"],
               IsExcludes := false, IsRecursive := false } ∧
    ∀ m2 : policyResourceModel,
      m2.Resources.get ResourceKey.topic = sampleRequiredOnly.Resources.get ResourceKey.topic →
      (ConvertModelToPolicy m2).Resources.get ResourceKey.topic =
        (ConvertModelToPolicy sampleRequiredOnly).Resources.get ResourceKey.topic :=
  C4_filter_copied_verbatim sampleRequiredOnly ResourceKey.topic
    ["topic-pattern-0-*", "topic-pattern-1-*"] false false rfl

/-! ## C5 - C7: the rules of a policy, config → wire -/

/-- The wire rules are the config rules converted one by one, in order. -/
theorem convertModelToPolicy_items (m : policyResourceModel) (items : List PolicyItemModel)
    (h : m.PolicyItems = some items) :
    (ConvertModelToPolicy m).PolicyItems = some (items.map modelItemToWire) := by
  simp only [ConvertModelToPolicy, h, makeAndFill_eq_map, elems]

theorem modelItemToWire_accesses (c : PolicyItemModel) :
    (modelItemToWire c).Accesses = c.Accesses.map (fun as => as.map modelAccessToWire) := by
  obtain ⟨accesses, users, groups, admin⟩ := c
  cases accesses <;> simp only [modelItemToWire, makeAndFill_eq_map, elems, Option.map]

theorem modelItemToWire_users (c : PolicyItemModel) :
    (modelItemToWire c).Users = c.Users.map (fun us => us.map types.String.ValueString) := by
  obtain ⟨accesses, users, groups, admin⟩ := c
  cases users <;> simp only [modelItemToWire, makeAndFill_eq_map, elems, Option.map]

theorem modelItemToWire_groups (c : PolicyItemModel) :
    (modelItemToWire c).Groups = c.Groups.map (fun gs => gs.map types.String.ValueString) := by
  obtain ⟨accesses, users, groups, admin⟩ := c
  cases groups <;> simp only [modelItemToWire, makeAndFill_eq_map, elems, Option.map]

/-- C5. For every config and every rule index `i`, wire rule `i` produced by
`ConvertModelToPolicy` has exactly as many grants as config rule `i`, and wherever config
grant `j` is known (type `t`, allowed flag `a`) wire grant `j` is the grant with type `t` and
flag `a`: nothing is dropped, duplicated or reordered.  In particular a rule with a single
known grant yields exactly one wire grant with the same type and flag. -/
theorem C5_grants_preserved (m : policyResourceModel) (items : List PolicyItemModel) (i : Nat)
    (c : PolicyItemModel) (hitems : m.PolicyItems = some items) (hc : items[i]? = some c) :
    ∃ (witems : List ranger.PolicyItem) (w : ranger.PolicyItem),
      (ConvertModelToPolicy m).PolicyItems = some witems ∧ witems[i]? = some w ∧
      len w.Accesses = len c.Accesses ∧
      (∀ (j : Nat) (t : GoString) (a : GoBool),
        (elems c.Accesses)[j]? = some ⟨types.String.known t, types.Bool.known a⟩ →
        (elems w.Accesses)[j]? = some ⟨t, a⟩) ∧
      (∀ (t : GoString) (a : GoBool),
        c.Accesses = some [⟨types.String.known t, types.Bool.known a⟩] →
        w.Accesses = some [⟨t, a⟩]) := by
  refine ⟨items.map modelItemToWire, modelItemToWire c, convertModelToPolicy_items m items hitems,
    ?_, ?_, ?_, ?_⟩
  · rw [List.getElem?_map, hc]; rfl
  · rw [modelItemToWire_accesses]
    cases c.Accesses <;> simp [len]
  · intro j t a hj
    rw [modelItemToWire_accesses]
    cases hacc : c.Accesses with
    | none => rw [hacc] at hj; simp [elems] at hj
    | some as =>
      rw [hacc] at hj
      simp only [elems] at hj
      simp only [Option.map_some', elems, List.getElem?_map, hj]
      rfl
  · intro t a hacc
    rw [modelItemToWire_accesses, hacc]
    rfl

/-- Witness of C5: the single `publish` grant of the acceptance test. -/
theorem C5_grants_preserved_witness :
    ∃ (witems : List ranger.PolicyItem) (w : ranger.PolicyItem),
      (ConvertModelToPolicy sampleFullPlan).PolicyItems = some witems ∧ witems[0]? = some w ∧
      len w.Accesses = len sampleRule.Accesses ∧
      (∀ (j : Nat) (t : GoString) (a : GoBool),
        (elems sampleRule.Accesses)[j]? = some ⟨types.String.known t, types.Bool.known a⟩ →
        (elems w.Accesses)[j]? = some ⟨t, a⟩) ∧
      (∀ (t : GoString) (a : GoBool),
        sampleRule.Accesses = some [⟨types.String.known t, types.Bool.known a⟩] →
        w.Accesses = some [⟨t, a⟩]) :=
  C5_grants_preserved sampleFullPlan [sampleRule] 0 sampleRule rfl rfl

theorem map_valueString_length_getElem (us : List types.String) :
    (us.map types.String.ValueString).length = us.length ∧
    ∀ (j : Nat) (s : GoString), us[j]? = some (types.String.known s) →
      (us.map types.String.ValueString)[j]? = some s := by
  refine ⟨List.length_map _ _, ?_⟩
  intro j s hj
  rw [List.getElem?_map, hj]
  rfl

/-- C6. For every config rule, `ConvertModelToPolicy` leaves the wire rule's users
(respectively groups) nil if and only if the config rule's users (respectively groups) is
nil; when the config list is non-nil, also when it is empty, the wire list is non-nil, has
the same length and holds, at every index where the config string is known, that string. -/
theorem C6_users_groups_nil_or_copied (m : policyResourceModel) (items : List PolicyItemModel)
    (i : Nat) (c : PolicyItemModel) (hitems : m.PolicyItems = some items)
    (hc : items[i]? = some c) :
    ∃ (witems : List ranger.PolicyItem) (w : ranger.PolicyItem),
      (ConvertModelToPolicy m).PolicyItems = some witems ∧ witems[i]? = some w ∧
      (w.Users = none ↔ c.Users = none) ∧ (w.Groups = none ↔ c.Groups = none) ∧
      (∀ us : List types.String, c.Users = some us →
        ∃ ws : List GoString, w.Users = some ws ∧ ws.length = us.length ∧
          ∀ (j : Nat) (s : GoString), us[j]? = some (types.String.known s) → ws[j]? = some s) ∧
      (∀ gs : List types.String, c.Groups = some gs →
        ∃ ws : List GoString, w.Groups = some ws ∧ ws.length = gs.length ∧
          ∀ (j : Nat) (s : GoString), gs[j]? = some (types.String.known s) → ws[j]? = some s) := by
  refine ⟨items.map modelItemToWire, modelItemToWire c, convertModelToPolicy_items m items hitems,
    ?_, ?_, ?_, ?_, ?_⟩
  · rw [List.getElem?_map, hc]; rfl
  · rw [modelItemToWire_users]; exact Option.map_eq_none'
  · rw [modelItemToWire_groups]; exact Option.map_eq_none'
  · intro us hus
    refine ⟨us.map types.String.ValueString, ?_, map_valueString_length_getElem us⟩
    rw [modelItemToWire_users, hus]; rfl
  · intro gs hgs
    refine ⟨gs.map types.String.ValueString, ?_, map_valueString_length_getElem gs⟩
    rw [modelItemToWire_groups, hgs]; rfl

/-- Witness of C6: a rule with nil users and an allocated, empty groups list. -/
theorem C6_users_groups_nil_or_copied_witness :
    ∃ (witems : List ranger.PolicyItem) (w : ranger.PolicyItem),
      (ConvertModelToPolicy sampleNilEmptyPlan).PolicyItems = some witems ∧
      witems[1]? = some w ∧
      (w.Users = none ↔ sampleNilEmptyRule.Users = none) ∧
      (w.Groups = none ↔ sampleNilEmptyRule.Groups = none) ∧
      (∀ us : List types.String, sampleNilEmptyRule.Users = some us →
        ∃ ws : List GoString, w.Users = some ws ∧ ws.length = us.length ∧
          ∀ (j : Nat) (s : GoString), us[j]? = some (types.String.known s) → ws[j]? = some s) ∧
      (∀ gs : List types.String, sampleNilEmptyRule.Groups = some gs →
        ∃ ws : List GoString, w.Groups = some ws ∧ ws.length = gs.length ∧
          ∀ (j : Nat) (s : GoString), gs[j]? = some (types.String.known s) → ws[j]? = some s) :=
  C6_users_groups_nil_or_copied sampleNilEmptyPlan [sampleRule, sampleNilEmptyRule] 1
    sampleNilEmptyRule rfl rfl

/-- C7. If the config's `policy_items` is nil, `ConvertModelToPolicy` leaves the wire
`PolicyItems` nil (not an empty list); otherwise the wire list is allocated, has the length
of the config's list and, for every index `i`, wire rule `i` carries the delegate-admin flag
of config rule `i` (its `ValueBool()`, which is the flag itself when it is known). -/
theorem C7_rules_nil_or_one_per_rule (m : policyResourceModel) :
    (m.PolicyItems = none → (ConvertModelToPolicy m).PolicyItems = none) ∧
    (∀ items : List PolicyItemModel, m.PolicyItems = some items →
      ∃ witems : List ranger.PolicyItem,
        (ConvertModelToPolicy m).PolicyItems = some witems ∧ witems.length = items.length ∧
        ∀ (i : Nat) (c : PolicyItemModel), items[i]? = some c →
          ∃ w : ranger.PolicyItem, witems[i]? = some w ∧
            w.DelegateAdmin = c.DelegateAdmin.ValueBool ∧
            ∀ b : GoBool, c.DelegateAdmin = types.Bool.known b → w.DelegateAdmin = b) := by
  constructor
  · intro h
    simp only [ConvertModelToPolicy, h]
  · intro items h
    refine ⟨items.map modelItemToWire, convertModelToPolicy_items m items h,
      List.length_map _ _, ?_⟩
    intro i c hc
    refine ⟨modelItemToWire c, ?_, rfl, ?_⟩
    · rw [List.getElem?_map, hc]; rfl
    · intro b hb
      simp only [modelItemToWire, hb, types.Bool.ValueBool]

/-! ## C8: `UpdatePlanFromPolicy` against `ConvertPolicyToModel` -/

/-- The rule written by `UpdatePlanFromPolicy` is the rule of `ConvertPolicyToModel` with a
nil accesses list replaced by an allocated empty one. -/
theorem wireItemToPlan_eq (item : ranger.PolicyItem) :
    wireItemToPlan item =
      { wireItemToModel item with Accesses := some (elems (wireItemToModel item).Accesses) } := by
  obtain ⟨accesses, users, groups, admin⟩ := item
  cases accesses <;>
    simp only [wireItemToPlan, wireItemToModel, makeAndFill_eq_map, elems, List.map_nil]

theorem wireItemToPlan_of_accesses (item : ranger.PolicyItem) (h : item.Accesses ≠ none) :
    wireItemToPlan item = wireItemToModel item := by
  obtain ⟨accesses, users, groups, admin⟩ := item
  cases accesses with
  | none => exact absurd rfl h
  | some as => simp only [wireItemToPlan, wireItemToModel]

theorem map_wireItemToPlan_of_accesses (items : List ranger.PolicyItem)
    (h : ∀ it ∈ items, it.Accesses ≠ none) :
    items.map wireItemToPlan = items.map wireItemToModel :=
  List.map_congr_left (fun it hit => wireItemToPlan_of_accesses it (h it hit))

/-- C8 (as stated) fails: on a wire policy with an empty service type and a rule with nil
accesses, `UpdatePlanFromPolicy` writes a null `service_type` and an empty accesses list
where `ConvertPolicyToModel` gives the known empty string and a nil list. -/
theorem C8_counterexample :
    (UpdatePlanFromPolicy sampleFullPlan sampleWireNoServiceType).ServiceType = types.String.null ∧
    (ConvertPolicyToModel sampleWireNoServiceType).ServiceType = types.String.known "" ∧
    ((UpdatePlanFromPolicy sampleFullPlan sampleWireNoServiceType).PolicyItems.map
        (List.map PolicyItemModel.Accesses)) = some [some []] ∧
    ((ConvertPolicyToModel sampleWireNoServiceType).PolicyItems.map
        (List.map PolicyItemModel.Accesses)) = some [none] ∧
    UpdatePlanFromPolicy sampleFullPlan sampleWireNoServiceType ≠
      ConvertPolicyToModel sampleWireNoServiceType := by
  refine ⟨by decide, by decide, by decide, by decide, by decide⟩

/-- C8 (amended). For every plan and every wire policy `p`, the config that
`UpdatePlanFromPolicy` writes equals `ConvertPolicyToModel p` in every field other than
`service_type` and the accesses lists of the rules: `service_type` is null when `p`'s
service type is empty, and rule by rule the two configs have the same users, groups,
delegate-admin flag and the same grants in the same order.  When `p`'s service type is not
empty and every rule of `p` has a non-nil accesses list, the two configs are equal field for
field. -/
theorem C8_update_plan_matches_convert (plan : policyResourceModel) (p : ranger.Policy) :
    UpdatePlanFromPolicy plan p =
      { ConvertPolicyToModel p with
        ServiceType :=
          if p.ServiceType ≠ "" then (ConvertPolicyToModel p).ServiceType else types.String.null
        PolicyItems := (UpdatePlanFromPolicy plan p).PolicyItems } ∧
    (UpdatePlanFromPolicy plan p).PolicyItems.map
        (List.map (fun c => { c with Accesses := some (elems c.Accesses) })) =
      (ConvertPolicyToModel p).PolicyItems.map
        (List.map (fun c => { c with Accesses := some (elems c.Accesses) })) ∧
    (p.ServiceType ≠ "" →
      (∀ items : List ranger.PolicyItem, p.PolicyItems = some items →
        ∀ it ∈ items, it.Accesses ≠ none) →
      UpdatePlanFromPolicy plan p = ConvertPolicyToModel p) := by
  obtain ⟨id, guid, name, desc, service, stype, res, audit, enabled, version, ptype, prio, deny,
    items⟩ := p
  refine ⟨?_, ?_, ?_⟩
  · simp only [UpdatePlanFromPolicy, ConvertPolicyToModel, types.StringNull]
  · cases items with
    | none => simp only [UpdatePlanFromPolicy, ConvertPolicyToModel, Option.map]
    | some its =>
      have h : (its.map wireItemToPlan).map
            (fun c => { c with Accesses := some (elems c.Accesses) }) =
          (its.map wireItemToModel).map
            (fun c => { c with Accesses := some (elems c.Accesses) }) := by
        rw [List.map_map, List.map_map]
        refine List.map_congr_left (fun it _ => ?_)
        simp only [Function.comp, wireItemToPlan_eq it, elems]
      simp only [UpdatePlanFromPolicy, ConvertPolicyToModel, makeAndFill_eq_map, elems,
        Option.map] at h ⊢
      rw [h]
  · intro hst hacc
    simp only at hst
    cases items with
    | none => simp only [UpdatePlanFromPolicy, ConvertPolicyToModel, hst, ne_eq,
        not_false_eq_true, if_true]
    | some its =>
      have h := map_wireItemToPlan_of_accesses its (hacc its rfl)
      simp only [UpdatePlanFromPolicy, ConvertPolicyToModel, makeAndFill_eq_map, elems, h, hst,
        ne_eq, not_false_eq_true, if_true]

/-- Witness of C8 (amended): on the sample wire policy the two configs coincide. -/
theorem C8_update_plan_matches_convert_witness :
    UpdatePlanFromPolicy sampleFullPlan sampleWirePolicy = ConvertPolicyToModel sampleWirePolicy :=
  (C8_update_plan_matches_convert sampleFullPlan sampleWirePolicy).2.2 (by decide)
    (by intro items h it hit
        simp only [sampleWirePolicy, Option.some.injEq] at h
        subst h
        simp only [List.mem_cons, List.mem_singleton, List.not_mem_nil, or_false] at hit
        rcases hit with rfl | rfl <;> simp)

/-! ## C9: what Create keeps of the plan -/

/-- The result of Create on a successful remote call: the state is the plan overwritten by
the response. -/
theorem create_ok {σ : Type} (client : ranger.Client σ) (req : resource.CreateRequest)
    (resp : resource.Response) (s s1 : σ) (p : ranger.Policy)
    (hget : diag.HasError (diag.Append resp.Diagnostics req.Plan.diags) = false)
    (hcall : client.CreatePolicy (ConvertModelToPolicy req.Plan.value) s = (Except.ok p, s1)) :
    policyResource.Create client req resp s =
      ({ State := some (UpdatePlanFromPolicy req.Plan.value p)
         Diagnostics := diag.Append resp.Diagnostics req.Plan.diags }, s1) := by
  simp only [policyResource.Create, hget, hcall, resource.Response.SetState, Bool.false_eq_true,
    if_false]

/-- The result of Update on a successful remote call: the state is the plan overwritten by
the response. -/
theorem update_ok {σ : Type} (client : ranger.Client σ) (req : resource.UpdateRequest)
    (resp : resource.Response) (s s1 : σ) (p : ranger.Policy)
    (hplan : diag.HasError (diag.Append resp.Diagnostics req.Plan.diags) = false)
    (hstate : diag.HasError req.State.diags = false)
    (hcall : client.UpdatePolicy
      { ConvertModelToPolicy req.Plan.value with ID := toInt req.State.value.ID.ValueInt64 } s =
        (Except.ok p, s1)) :
    policyResource.Update client req resp s =
      ({ State := some (UpdatePlanFromPolicy req.Plan.value p)
         Diagnostics := diag.Append resp.Diagnostics req.Plan.diags }, s1) := by
  simp only [policyResource.Update, hplan, hstate, hcall, resource.Response.SetState,
    Bool.false_eq_true, if_false]

/-- C9 (as stated) fails: the plan supplies a `topic` filter, a description and a rule list;
the create response echoes none of them; the state Create writes has none of them. -/
theorem C9_counterexample :
    sampleFullPlan.Resources.Topic ≠ none ∧ sampleBareResponse.Resources.Topic = none ∧
    sampleFullPlan.Description = types.String.known "policy description" ∧
    sampleBareResponse.Description = "" ∧
    sampleFullPlan.PolicyItems ≠ none ∧ sampleBareResponse.PolicyItems = none ∧
    ∃ st : policyResourceModel,
      (policyResource.Create (constantClient sampleBareResponse) ⟨⟨[], sampleFullPlan⟩⟩
        emptyResponse ()).1.State = some st ∧
      st.Resources.Topic = none ∧ st.Description = types.String.null ∧ st.PolicyItems = none ∧
      st.Resources.Topic ≠ sampleFullPlan.Resources.Topic ∧
      st.Description ≠ sampleFullPlan.Description ∧
      st.PolicyItems ≠ sampleFullPlan.PolicyItems := by
  refine ⟨by decide, by decide, by decide, by decide, by decide, by decide, ?_⟩
  refine ⟨UpdatePlanFromPolicy sampleFullPlan sampleBareResponse, ?_, by decide, by decide,
    by decide, by decide, by decide, by decide⟩
  rfl

/-- C9 (amended). On a successful Create (the plan is retrieved without error and the remote
create call answers with a policy `p`), the state written is the plan overwritten by `p` in
every field: it does not depend on the plan (any other plan gives the same state), and a
resource-type filter, description or rule list that is absent (nil / empty string) in the
response is absent (nil / null) in the state, whatever the plan held. -/
theorem C9_create_state_is_response {σ : Type} (client : ranger.Client σ)
    (req : resource.CreateRequest) (resp : resource.Response) (s s1 : σ) (p : ranger.Policy)
    (hget : diag.HasError (diag.Append resp.Diagnostics req.Plan.diags) = false)
    (hcall : client.CreatePolicy (ConvertModelToPolicy req.Plan.value) s = (Except.ok p, s1)) :
    ∃ st : policyResourceModel,
      (policyResource.Create client req resp s).1.State = some st ∧
      (∀ plan2 : policyResourceModel, st = UpdatePlanFromPolicy plan2 p) ∧
      (∀ k : ResourceKey, p.Resources.get k = none → st.Resources.get k = none) ∧
      (p.Description = "" → st.Description = types.String.null) ∧
      (p.PolicyItems = none → st.PolicyItems = none) := by
  refine ⟨UpdatePlanFromPolicy req.Plan.value p, ?_, ?_, ?_, ?_, ?_⟩
  · rw [create_ok client req resp s s1 p hget hcall]
  · intro plan2
    rfl
  · intro k hk
    rw [updatePlanFromPolicy_get, hk]
    rfl
  · intro hd
    simp only [UpdatePlanFromPolicy, hd, ne_eq, not_true_eq_false, if_false, types.StringNull]
  · intro hi
    simp only [UpdatePlanFromPolicy, hi]

/-- Witness of C9 (amended): the sample plan against the bare create response. -/
theorem C9_create_state_is_response_witness :
    ∃ st : policyResourceModel,
      (policyResource.Create (constantClient sampleBareResponse) ⟨⟨[], sampleFullPlan⟩⟩
        emptyResponse ()).1.State = some st ∧
      (∀ plan2 : policyResourceModel, st = UpdatePlanFromPolicy plan2 sampleBareResponse) ∧
      (∀ k : ResourceKey, sampleBareResponse.Resources.get k = none →
        st.Resources.get k = none) ∧
      (sampleBareResponse.Description = "" → st.Description = types.String.null) ∧
      (sampleBareResponse.PolicyItems = none → st.PolicyItems = none) :=
  C9_create_state_is_response (constantClient sampleBareResponse) ⟨⟨[], sampleFullPlan⟩⟩
    emptyResponse () () sampleBareResponse (by decide) rfl

/-! ## C10: read-after-write through Create and Update -/

theorem wireAccessToModel_modelAccessToWire (a : AccessModel) (h : a.allKnown = true) :
    wireAccessToModel (modelAccessToWire a) = a := by
  obtain ⟨t, al⟩ := a
  simp only [AccessModel.allKnown, Bool.and_eq_true] at h
  simp only [wireAccessToModel, modelAccessToWire, stringValue_valueString t h.1,
    boolValue_valueBool al h.2]

theorem map_roundtrip_of_all {α β : Type} (f : α → β) (g : β → α) (q : α → Bool)
    (hfg : ∀ a, q a = true → g (f a) = a) (xs : List α) (h : xs.all q = true) :
    (xs.map f).map g = xs := by
  induction xs with
  | nil => rfl
  | cons x xs ih =>
    simp only [List.all_cons, Bool.and_eq_true] at h
    simp only [List.map_cons, hfg x h.1, ih h.2]

theorem nilOrKnown_roundtrip (s : Slice types.String) (h : nilOrKnownStrings s = true) :
    (s.map (fun us => us.map types.String.ValueString)).map
      (fun ws => ws.map types.StringValue) = s := by
  cases s with
  | none => rfl
  | some vs =>
    simp only [nilOrKnownStrings] at h
    simp only [Option.map_some', map_stringValue_valueString vs h]

theorem wireItemToPlan_users (w : ranger.PolicyItem) :
    (wireItemToPlan w).Users = w.Users.map (fun ws => ws.map types.StringValue) := by
  obtain ⟨accesses, users, groups, admin⟩ := w
  cases users <;> simp only [wireItemToPlan, makeAndFill_eq_map, elems, Option.map]

theorem wireItemToPlan_groups (w : ranger.PolicyItem) :
    (wireItemToPlan w).Groups = w.Groups.map (fun ws => ws.map types.StringValue) := by
  obtain ⟨accesses, users, groups, admin⟩ := w
  cases groups <;> simp only [wireItemToPlan, makeAndFill_eq_map, elems, Option.map]

/-- A known config rule survives config → wire → plan. -/
theorem wireItemToPlan_modelItemToWire (c : PolicyItemModel) (h : c.allKnown = true) :
    wireItemToPlan (modelItemToWire c) = c := by
  have hu := wireItemToPlan_users (modelItemToWire c)
  have hg := wireItemToPlan_groups (modelItemToWire c)
  rw [modelItemToWire_users] at hu
  rw [modelItemToWire_groups] at hg
  obtain ⟨accesses, users, groups, admin⟩ := c
  simp only [PolicyItemModel.allKnown, Bool.and_eq_true] at h
  obtain ⟨⟨⟨hacc, hus⟩, hgs⟩, hadm⟩ := h
  rw [nilOrKnown_roundtrip users hus] at hu
  rw [nilOrKnown_roundtrip groups hgs] at hg
  cases accesses with
  | none => simp at hacc
  | some as =>
    simp only at hacc
    have ha := map_roundtrip_of_all modelAccessToWire wireAccessToModel AccessModel.allKnown
      wireAccessToModel_modelAccessToWire as hacc
    have hd : (wireItemToPlan (modelItemToWire ⟨some as, users, groups, admin⟩)).DelegateAdmin
        = admin := boolValue_valueBool admin hadm
    have hacc2 : (wireItemToPlan (modelItemToWire ⟨some as, users, groups, admin⟩)).Accesses
        = some as := by
      simp only [wireItemToPlan, modelItemToWire, makeAndFill_eq_map, elems, ha]
    generalize wireItemToPlan (modelItemToWire ⟨some as, users, groups, admin⟩) = r at *
    obtain ⟨ra, ru, rg, rd⟩ := r
    simp only at hu hg hd hacc2
    rw [hu, hg, hd, hacc2]

/-- The plan overwritten by the echo of its own submission: the plan itself, with the four
server-assigned fields filled in. -/
theorem updatePlanFromPolicy_echo (plan : policyResourceModel) (h : SuppliedPlan plan)
    (id : Int) (guid : GoString) (version : Int) (st : GoString) :
    UpdatePlanFromPolicy plan (withServerFields (ConvertModelToPolicy plan) id guid version st) =
      { plan with
        ID := types.Int64.known id
        GUID := types.String.known guid
        Version := types.Int64.known version
        ServiceType := if st ≠ "" then types.String.known st else types.String.null } := by
  obtain ⟨hname, hservice, hdesc, hres, haudit, henabled, htype, hprio, hdeny, hitems⟩ := h
  obtain ⟨pid, pguid, name, desc, service, res, audit, enabled, pversion, ptype, prio, deny,
    stype, items⟩ := plan
  obtain ⟨topic, database, table, url, hive, glob, udf, column⟩ := res
  simp only at hname hservice hdesc hres haudit henabled htype hprio hdeny hitems
  have hf : ∀ k, ((ResourcesModel.get ⟨topic, database, table, url, hive, glob, udf, column⟩
      k).map modelFilterToWire).map wireFilterToModel =
      ResourcesModel.get ⟨topic, database, table, url, hive, glob, udf, column⟩ k := fun k =>
    option_map_roundtrip modelFilterToWire wireFilterToModel (fun f => f.allKnown = true)
      wireFilterToModel_modelFilterToWire _ (hres k)
  have e1 := hf ResourceKey.topic
  have e2 := hf ResourceKey.database
  have e3 := hf ResourceKey.table
  have e4 := hf ResourceKey.url
  have e5 := hf ResourceKey.hiveservice
  have e6 := hf ResourceKey.global
  have e7 := hf ResourceKey.udf
  have e8 := hf ResourceKey.column
  simp only [ResourcesModel.get] at e1 e2 e3 e4 e5 e6 e7 e8
  clear hf hres
  cases name <;> simp [types.String.isKnown] at hname
  cases service <;> simp [types.String.isKnown] at hservice
  cases audit <;> simp [types.Bool.isKnown] at haudit
  cases enabled <;> simp [types.Bool.isKnown] at henabled
  cases deny <;> simp [types.Bool.isKnown] at hdeny
  cases ptype <;> simp [types.Int64.isKnownInt64] at htype
  cases prio <;> simp [types.Int64.isKnownInt64] at hprio
  cases items with
  | none =>
    cases desc <;> simp [nullOrNonEmpty] at hdesc <;>
      simp only [UpdatePlanFromPolicy, withServerFields, ConvertModelToPolicy, e1, e2, e3, e4,
        e5, e6, e7, e8, hdesc, toInt64, types.Int64Value, types.Int64.ValueInt64,
        toInt_of_inInt64 _ htype, toInt_of_inInt64 _ hprio, types.StringValue, types.StringNull,
        types.String.ValueString, types.BoolValue, types.Bool.ValueBool, ne_eq,
        not_true_eq_false, not_false_eq_true, if_true, if_false]
  | some its =>
    have hi : (its.map modelItemToWire).map wireItemToPlan = its :=
      map_roundtrip_of_all modelItemToWire wireItemToPlan PolicyItemModel.allKnown
        wireItemToPlan_modelItemToWire its
        (List.all_eq_true.mpr (fun c hc => hitems its rfl c hc))
    cases desc <;> simp [nullOrNonEmpty] at hdesc <;>
      simp only [UpdatePlanFromPolicy, withServerFields, ConvertModelToPolicy, e1, e2, e3, e4,
        e5, e6, e7, e8, hi, hdesc, makeAndFill_eq_map, elems, toInt64, types.Int64Value,
        types.Int64.ValueInt64, toInt_of_inInt64 _ htype, toInt_of_inInt64 _ hprio,
        types.StringValue, types.StringNull, types.String.ValueString, types.BoolValue,
        types.Bool.ValueBool, ne_eq, not_true_eq_false, not_false_eq_true, if_true, if_false]


theorem sampleNilEmptyPlan_supplied : SuppliedPlan sampleNilEmptyPlan where
  name := by decide
  service := by decide
  description := by decide
  resources := by
    intro k f h
    cases k <;> simp [sampleNilEmptyPlan, sampleFullPlan, sampleRequiredOnly,
      ResourcesModel.get, ResourcesModel.zero] at h
    subst h; decide
  audit := by decide
  enabled := by decide
  policyType := by decide
  policyPriority := by decide
  denyAllElse := by decide
  items := by
    intro items h c hc
    simp only [sampleNilEmptyPlan, Option.some.injEq] at h
    subst h
    simp only [List.mem_cons, List.mem_singleton, List.not_mem_nil, or_false] at hc
    rcases hc with rfl | rfl <;> decide

/-- C10 (as stated) fails: the plan is fully known and the remote create call answers with the
submitted policy plus id 42, a guid, version 1 and an empty service type; the state written
by Create equals the plan in the user-set fields, but its `service_type` is null and not the
server's (empty) service type as a known value. -/
theorem C10_counterexample :
    SuppliedPlan sampleNilEmptyPlan ∧
    (echoClient 42 "guid-42" 1 "").CreatePolicy (ConvertModelToPolicy sampleNilEmptyPlan) () =
      (Except.ok (withServerFields (ConvertModelToPolicy sampleNilEmptyPlan) 42 "guid-42" 1 ""),
        ()) ∧
    ∃ state : policyResourceModel,
      (policyResource.Create (echoClient 42 "guid-42" 1 "") ⟨⟨[], sampleNilEmptyPlan⟩⟩
        emptyResponse ()).1.State = some state ∧
      state.ServiceType = types.String.null ∧
      state.ServiceType ≠ types.String.known "" := by
  refine ⟨sampleNilEmptyPlan_supplied, rfl, ?_⟩
  refine ⟨UpdatePlanFromPolicy sampleNilEmptyPlan
    (withServerFields (ConvertModelToPolicy sampleNilEmptyPlan) 42 "guid-42" 1 ""), rfl,
    by decide, by decide⟩

/-- C10 (amended). For every plan whose values are all known, whose description is null or a
non-empty string and whose rules each carry a non-nil accesses list: if the remote create
call answers with the submitted policy plus server-assigned id, guid, version and service
type, then the state written by Create equals the plan in name, description, service,
resources, the three flags, policy type, policy priority and the rules (users or groups that
were not supplied stay nil), carries the server's id, guid and version as known values, and
carries the server's service type as a known value when that is not empty; when the server's
service type is empty the `service_type` of the state is null.  The same holds for Update
when the remote update call answers in that way. -/
theorem C10_read_after_write {σ : Type} (client : ranger.Client σ)
    (plan prior : policyResourceModel) (planDiags stateDiags : diag.Diagnostics)
    (resp : resource.Response) (s : σ)
    (id : Int) (guid : GoString) (version : Int) (st : GoString)
    (hplan : SuppliedPlan plan)
    (hget : diag.HasError (diag.Append resp.Diagnostics planDiags) = false) :
    (∀ s1 : σ,
      client.CreatePolicy (ConvertModelToPolicy plan) s =
        (Except.ok (withServerFields (ConvertModelToPolicy plan) id guid version st), s1) →
      (policyResource.Create client ⟨⟨planDiags, plan⟩⟩ resp s).1.State =
        some { plan with
          ID := types.Int64.known id
          GUID := types.String.known guid
          Version := types.Int64.known version
          ServiceType := if st ≠ "" then types.String.known st else types.String.null }) ∧
    (∀ s2 : σ,
      diag.HasError stateDiags = false →
      client.UpdatePolicy
          { ConvertModelToPolicy plan with ID := toInt prior.ID.ValueInt64 } s =
        (Except.ok (withServerFields
          { ConvertModelToPolicy plan with ID := toInt prior.ID.ValueInt64 } id guid version st),
          s2) →
      (policyResource.Update client ⟨⟨planDiags, plan⟩, ⟨stateDiags, prior⟩⟩ resp s).1.State =
        some { plan with
          ID := types.Int64.known id
          GUID := types.String.known guid
          Version := types.Int64.known version
          ServiceType := if st ≠ "" then types.String.known st else types.String.null }) := by
  have hecho := updatePlanFromPolicy_echo plan hplan id guid version st
  constructor
  · intro s1 hcreate
    rw [create_ok client ⟨⟨planDiags, plan⟩⟩ resp s s1 _ hget hcreate]
    simp only [hecho]
  · intro s2 hstate hupdate
    rw [update_ok client ⟨⟨planDiags, plan⟩, ⟨stateDiags, prior⟩⟩ resp s s2 _ hget hstate
      hupdate]
    exact congrArg some hecho

/-- Witness of C10 (amended): the sample plan (second rule without users) against a remote
that echoes the submission with id 42, version 1 and service type `kafka`. -/
theorem C10_read_after_write_witness :
    (policyResource.Create (echoClient 42 "guid-42" 1 "kafka") ⟨⟨[], sampleNilEmptyPlan⟩⟩
      emptyResponse ()).1.State =
        some { sampleNilEmptyPlan with
          ID := types.Int64.known 42
          GUID := types.String.known "guid-42"
          Version := types.Int64.known 1
          ServiceType := types.String.known "kafka" } ∧
    (policyResource.Update (echoClient 42 "guid-42" 1 "kafka")
      ⟨⟨[], sampleNilEmptyPlan⟩, ⟨[], ConvertPolicyToModel sampleWirePolicy⟩⟩
      emptyResponse ()).1.State =
        some { sampleNilEmptyPlan with
          ID := types.Int64.known 42
          GUID := types.String.known "guid-42"
          Version := types.Int64.known 1
          ServiceType := types.String.known "kafka" } :=
  ⟨(C10_read_after_write (echoClient 42 "guid-42" 1 "kafka") sampleNilEmptyPlan
      (ConvertPolicyToModel sampleWirePolicy) [] [] emptyResponse () 42 "guid-42" 1 "kafka"
      sampleNilEmptyPlan_supplied (by decide)).1 () rfl,
   (C10_read_after_write (echoClient 42 "guid-42" 1 "kafka") sampleNilEmptyPlan
      (ConvertPolicyToModel sampleWirePolicy) [] [] emptyResponse () 42 "guid-42" 1 "kafka"
      sampleNilEmptyPlan_supplied (by decide)).2 () (by decide) rfl⟩

/-! ## Facts about diagnostics -/

theorem diag.mem_Append_left (e : diag.Diagnostics) :
    ∀ (d : diag.Diagnostics) (x : diag.Diagnostic), x ∈ d → x ∈ diag.Append d e := by
  induction e with
  | nil => intro d x hx; simpa [diag.Append] using hx
  | cons a as ih =>
    intro d x hx
    unfold diag.Append
    split
    · exact ih d x hx
    · exact ih (d ++ [a]) x (List.mem_append_left _ hx)

theorem diag.mem_Append_right (e : diag.Diagnostics) :
    ∀ (d : diag.Diagnostics) (x : diag.Diagnostic), x ∈ e → x ∈ diag.Append d e := by
  induction e with
  | nil => intro d x hx; simp at hx
  | cons a as ih =>
    intro d x hx
    unfold diag.Append
    rcases List.mem_cons.mp hx with rfl | hx
    · split
      · rename_i hc
        apply diag.mem_Append_left
        simp only [diag.Contains, List.any_eq_true, decide_eq_true_eq] at hc
        obtain ⟨y, hy, rfl⟩ := hc
        exact hy
      · apply diag.mem_Append_left
        simp
    · split
      · exact ih d x hx
      · exact ih (d ++ [a]) x hx

theorem diag.mem_of_mem_Append (e : diag.Diagnostics) :
    ∀ (d : diag.Diagnostics) (x : diag.Diagnostic), x ∈ diag.Append d e → x ∈ d ∨ x ∈ e := by
  induction e with
  | nil => intro d x hx; left; simpa [diag.Append] using hx
  | cons a as ih =>
    intro d x hx
    unfold diag.Append at hx
    split at hx
    · rcases ih d x hx with h | h
      · exact Or.inl h
      · exact Or.inr (List.mem_cons_of_mem _ h)
    · rcases ih (d ++ [a]) x hx with h | h
      · rcases List.mem_append.mp h with h | h
        · exact Or.inl h
        · right; simp at h; simp [h]
      · exact Or.inr (List.mem_cons_of_mem _ h)

theorem diag.HasError_iff (d : diag.Diagnostics) :
    diag.HasError d = true ↔ ∃ x ∈ d, x.Severity = diag.Severity.SeverityError := by
  simp [diag.HasError]

/-- Appending reports an error exactly when one of the two lists holds one. -/
theorem diag.HasError_Append (d e : diag.Diagnostics) :
    diag.HasError (diag.Append d e) = (diag.HasError d || diag.HasError e) := by
  rw [Bool.eq_iff_iff, Bool.or_eq_true, diag.HasError_iff, diag.HasError_iff, diag.HasError_iff]
  constructor
  · rintro ⟨x, hx, hs⟩
    rcases diag.mem_of_mem_Append e d x hx with h | h
    · exact Or.inl ⟨x, h, hs⟩
    · exact Or.inr ⟨x, h, hs⟩
  · rintro (⟨x, hx, hs⟩ | ⟨x, hx, hs⟩)
    · exact ⟨x, diag.mem_Append_left e d x hx, hs⟩
    · exact ⟨x, diag.mem_Append_right e d x hx, hs⟩

/-- An error diagnostic is not contained in a list without errors. -/
theorem diag.Contains_of_noError (d : diag.Diagnostics) (x : diag.Diagnostic)
    (hd : diag.HasError d = false) (hx : x.Severity = diag.Severity.SeverityError) :
    diag.Contains d x = false := by
  rw [Bool.eq_false_iff]
  intro hc
  simp only [diag.Contains, List.any_eq_true, decide_eq_true_eq] at hc
  obtain ⟨y, hy, rfl⟩ := hc
  have : diag.HasError d = true := (diag.HasError_iff d).mpr ⟨y, hy, hx⟩
  rw [hd] at this
  exact Bool.false_ne_true this

/-- On a list without errors, `AddError` adds exactly one diagnostic at the end. -/
theorem diag.AddError_of_noError (d : diag.Diagnostics) (summary detail : GoString)
    (hd : diag.HasError d = false) :
    diag.AddError d summary detail = d ++ [diag.NewErrorDiagnostic summary detail] := by
  have hc := diag.Contains_of_noError d (diag.NewErrorDiagnostic summary detail) hd rfl
  simp only [diag.AddError, diag.Append, hc, Bool.false_eq_true, if_false]

theorem diag.HasError_AddError (d : diag.Diagnostics) (summary detail : GoString) :
    diag.HasError (diag.AddError d summary detail) = true := by
  rw [diag.AddError, diag.HasError_Append]
  simp [diag.HasError, diag.NewErrorDiagnostic]

theorem diag.HasError_AddAttributeError (d : diag.Diagnostics) (attr summary detail : GoString) :
    diag.HasError (diag.AddAttributeError d attr summary detail) = true := by
  rw [diag.AddAttributeError, diag.HasError_Append]
  simp [diag.HasError, diag.NewAttributeErrorDiagnostic]

/-! ## C11 - C12: the policy submitted by Create and by Update -/

/-- The calls Create makes: none when the plan could not be retrieved, otherwise the single
call `CreatePolicy (ConvertModelToPolicy plan)`. -/
theorem create_calls {σ : Type} (client : ranger.Client σ) (req : resource.CreateRequest)
    (resp : resource.Response) (s : σ) :
    (policyResource.Create client.traced req resp (s, [])).2.2 =
      if diag.HasError (diag.Append resp.Diagnostics req.Plan.diags) then []
      else [RemoteCall.CreatePolicy (ConvertModelToPolicy req.Plan.value)] := by
  unfold policyResource.Create
  by_cases h : diag.HasError (diag.Append resp.Diagnostics req.Plan.diags) = true
  · simp only [h, if_true]
  · simp only [h, Bool.false_eq_true, if_false, ranger.Client.traced, List.nil_append]
    cases (client.CreatePolicy (ConvertModelToPolicy req.Plan.value) s).1 <;> rfl

/-- The calls Update makes: none when the plan or the prior state could not be retrieved,
otherwise the single call `UpdatePolicy` on the converted plan with the prior state's id. -/
theorem update_calls {σ : Type} (client : ranger.Client σ) (req : resource.UpdateRequest)
    (resp : resource.Response) (s : σ) :
    (policyResource.Update client.traced req resp (s, [])).2.2 =
      if diag.HasError (diag.Append resp.Diagnostics req.Plan.diags) then []
      else if diag.HasError req.State.diags then []
      else [RemoteCall.UpdatePolicy
        { ConvertModelToPolicy req.Plan.value with
          ID := toInt req.State.value.ID.ValueInt64 }] := by
  unfold policyResource.Update
  by_cases h : diag.HasError (diag.Append resp.Diagnostics req.Plan.diags) = true
  · simp only [h, if_true]
  · by_cases h2 : diag.HasError req.State.diags = true
    · simp only [h, h2, Bool.false_eq_true, if_false, if_true]
    · simp only [h, h2, Bool.false_eq_true, if_false, ranger.Client.traced, List.nil_append]
      cases (client.UpdatePolicy { ConvertModelToPolicy req.Plan.value with
        ID := toInt req.State.value.ID.ValueInt64 } s).1 <;> rfl

/-- C11. For every plan, whatever `id`, `guid` and `version` it carries, the wire policy
returned by `ConvertModelToPolicy` has `ID = 0`, `GUID = ""` and `Version = 0`; and for
every client, every remote call that Create makes is a `CreatePolicy` call whose policy has
`ID = 0`, `GUID = ""` and `Version = 0`. -/
theorem C11_create_sends_no_identity {σ : Type} (client : ranger.Client σ)
    (plan : policyResourceModel) (planDiags : diag.Diagnostics) (resp : resource.Response)
    (s : σ) :
    (ConvertModelToPolicy plan).ID = 0 ∧ (ConvertModelToPolicy plan).GUID = "" ∧
    (ConvertModelToPolicy plan).Version = 0 ∧
    ∀ c ∈ (policyResource.Create client.traced ⟨⟨planDiags, plan⟩⟩ resp (s, [])).2.2,
      ∃ p : ranger.Policy, c = RemoteCall.CreatePolicy p ∧ p.ID = 0 ∧ p.GUID = "" ∧
        p.Version = 0 := by
  refine ⟨rfl, rfl, rfl, ?_⟩
  intro c hc
  rw [create_calls] at hc
  split at hc
  · simp at hc
  · simp only [List.mem_singleton] at hc
    exact ⟨ConvertModelToPolicy plan, hc, rfl, rfl, rfl⟩

/-- C12. For every desired plan and prior state (both retrieved without error), Update makes
exactly one remote call, `UpdatePolicy q`, where `q.ID` is the prior state's id (whatever id
the plan carries) and `q` equals `ConvertModelToPolicy plan` in every other field. -/
theorem C12_update_targets_prior_id {σ : Type} (client : ranger.Client σ)
    (plan prior : policyResourceModel) (planDiags stateDiags : diag.Diagnostics)
    (resp : resource.Response) (s : σ)
    (hplan : diag.HasError (diag.Append resp.Diagnostics planDiags) = false)
    (hstate : diag.HasError stateDiags = false) :
    ∃ q : ranger.Policy,
      (policyResource.Update client.traced ⟨⟨planDiags, plan⟩, ⟨stateDiags, prior⟩⟩ resp
        (s, [])).2.2 = [RemoteCall.UpdatePolicy q] ∧
      q.ID = toInt prior.ID.ValueInt64 ∧
      (∀ n : Int, prior.ID = types.Int64.known n → inInt64 n → q.ID = n) ∧
      q = { ConvertModelToPolicy plan with ID := q.ID } := by
  refine ⟨{ ConvertModelToPolicy plan with ID := toInt prior.ID.ValueInt64 }, ?_, rfl, ?_, rfl⟩
  · rw [update_calls]
    simp only [hplan, hstate, Bool.false_eq_true, if_false]
  · intro n hn hr
    simp only [hn, types.Int64.ValueInt64, toInt_of_inInt64 n hr]

/-- Witness of C12: the plan carries id 5, the prior state id 42; the call goes to 42. -/
theorem C12_update_targets_prior_id_witness :
    ∃ q : ranger.Policy,
      (policyResource.Update (constantClient sampleBareResponse).traced
        ⟨⟨[], { sampleFullPlan with ID := types.Int64.known 5 }⟩,
          ⟨[], ConvertPolicyToModel sampleWirePolicy⟩⟩ emptyResponse ((), [])).2.2 =
        [RemoteCall.UpdatePolicy q] ∧
      q.ID = toInt (ConvertPolicyToModel sampleWirePolicy).ID.ValueInt64 ∧
      (∀ n : Int, (ConvertPolicyToModel sampleWirePolicy).ID = types.Int64.known n →
        inInt64 n → q.ID = n) ∧
      q = { ConvertModelToPolicy { sampleFullPlan with ID := types.Int64.known 5 } with
            ID := q.ID } :=
  C12_update_targets_prior_id (constantClient sampleBareResponse)
    { sampleFullPlan with ID := types.Int64.known 5 } (ConvertPolicyToModel sampleWirePolicy)
    [] [] emptyResponse () (by decide) (by decide)

/-! ## C13: the identifier in the error diagnostic of Update -/

/-- C13. On an Update the host hands over a plan that carries the prior state's id (`id` is
Computed with `UseStateForUnknown`, lines 125-131), a known 64-bit integer `n`.  For every
such plan and prior state (both retrieved without error) and every error `e` returned by the
remote update call, the policy sent to the update call has `ID = n`, and the one error
diagnostic that Update reports has the detail `Could not update policy ID n: e`, with `n` in
decimal: it includes the identifier being updated. -/
theorem C13_update_error_names_id {σ : Type} (client : ranger.Client σ)
    (plan prior : policyResourceModel) (planDiags stateDiags : diag.Diagnostics)
    (resp : resource.Response) (s s1 : σ) (e : GoString) (n : Int)
    (hprior : prior.ID = types.Int64.known n) (hrange : inInt64 n)
    (hsame : plan.ID = prior.ID)
    (hplan : diag.HasError (diag.Append resp.Diagnostics planDiags) = false)
    (hstate : diag.HasError stateDiags = false)
    (hcall : client.UpdatePolicy { ConvertModelToPolicy plan with ID := n } s =
      (Except.error e, s1)) :
    policyResource.Update client.traced ⟨⟨planDiags, plan⟩, ⟨stateDiags, prior⟩⟩ resp (s, []) =
      ({ resp with
          Diagnostics := diag.Append resp.Diagnostics planDiags ++
            [diag.NewErrorDiagnostic "Error updating Ranger policy"
              ("Could not update policy ID " ++ toString n ++ ": " ++ e)] },
        (s1, [RemoteCall.UpdatePolicy { ConvertModelToPolicy plan with ID := n }])) := by
  have hid : toInt prior.ID.ValueInt64 = n := by
    simp only [hprior, types.Int64.ValueInt64, toInt_of_inInt64 n hrange]
  have hstr : plan.ID.String = toString n := by
    rw [hsame, hprior]
    rfl
  simp only [policyResource.Update, hplan, hstate, Bool.false_eq_true, if_false,
    ranger.Client.traced, hid, hcall, hstr, diag.AddError_of_noError _ _ _ hplan,
    List.nil_append]

/-- Witness of C13: plan and prior state both carry id 7, and differ elsewhere; the update
call fails with `boom`. -/
theorem C13_update_error_names_id_witness :
    policyResource.Update (failingClient "boom").traced
        ⟨⟨[], samplePlanWithID 7⟩,
          ⟨[], { ConvertPolicyToModel sampleWirePolicy with ID := types.Int64.known 7 }⟩⟩
        emptyResponse ((), []) =
      ({ State := none
         Diagnostics := [diag.NewErrorDiagnostic "Error updating Ranger policy"
           "Could not update policy ID 7: boom"] },
       ((), [RemoteCall.UpdatePolicy
          { ConvertModelToPolicy (samplePlanWithID 7) with ID := 7 }])) :=
  C13_update_error_names_id (failingClient "boom") (samplePlanWithID 7)
    { ConvertPolicyToModel sampleWirePolicy with ID := types.Int64.known 7 } [] []
    emptyResponse () () "boom" 7 rfl (by decide) rfl (by decide) (by decide) rfl

/-! ## C14: Read replaces the state by the converted response -/

/-- The calls Read makes: none when the prior state could not be retrieved, otherwise the
single call `GetPolicy` with the prior state's id. -/
theorem read_calls {σ : Type} (client : ranger.Client σ) (req : resource.ReadRequest)
    (resp : resource.Response) (s : σ) :
    (policyResource.Read client.traced req resp (s, [])).2.2 =
      if diag.HasError (diag.Append resp.Diagnostics req.State.diags) then []
      else [RemoteCall.GetPolicy (toInt req.State.value.ID.ValueInt64)] := by
  unfold policyResource.Read
  by_cases h : diag.HasError (diag.Append resp.Diagnostics req.State.diags) = true
  · simp only [h, if_true]
  · simp only [h, Bool.false_eq_true, if_false, ranger.Client.traced, List.nil_append]
    cases (client.GetPolicy (toInt req.State.value.ID.ValueInt64) s).1 <;> rfl

/-- C14. For every prior state (retrieved without error) and every policy `p` that the
remote get call returns for the prior state's id, Read makes exactly that one call and the
state it writes is exactly `ConvertPolicyToModel p`; no other field of the prior state has
any influence: a second prior state with the same id gives the same result. -/
theorem C14_read_replaces_state {σ : Type} (client : ranger.Client σ)
    (prior prior2 : policyResourceModel) (stateDiags : diag.Diagnostics)
    (resp : resource.Response) (s s1 : σ) (p : ranger.Policy)
    (hget : diag.HasError (diag.Append resp.Diagnostics stateDiags) = false)
    (hcall : client.GetPolicy (toInt prior.ID.ValueInt64) s = (Except.ok p, s1))
    (hid : prior2.ID = prior.ID) :
    (policyResource.Read client ⟨⟨stateDiags, prior⟩⟩ resp s).1.State =
      some (ConvertPolicyToModel p) ∧
    (policyResource.Read client.traced ⟨⟨stateDiags, prior⟩⟩ resp (s, [])).2.2 =
      [RemoteCall.GetPolicy (toInt prior.ID.ValueInt64)] ∧
    (∀ n : Int, prior.ID = types.Int64.known n → inInt64 n →
      toInt prior.ID.ValueInt64 = n) ∧
    policyResource.Read client ⟨⟨stateDiags, prior2⟩⟩ resp s =
      policyResource.Read client ⟨⟨stateDiags, prior⟩⟩ resp s := by
  refine ⟨?_, ?_, ?_, ?_⟩
  · simp only [policyResource.Read, hget, hcall, resource.Response.SetState,
      Bool.false_eq_true, if_false]
  · rw [read_calls]
    simp only [hget, Bool.false_eq_true, if_false]
  · intro n hn hr
    simp only [hn, types.Int64.ValueInt64, toInt_of_inInt64 n hr]
  · simp only [policyResource.Read, hid]

/-- Witness of C14: two prior states with id 42 that differ in every other field. -/
theorem C14_read_replaces_state_witness :
    (policyResource.Read (servingClient sampleWirePolicy []) ⟨⟨[], samplePlanWithID 42⟩⟩
      emptyResponse ()).1.State = some (ConvertPolicyToModel sampleWirePolicy) ∧
    (policyResource.Read (servingClient sampleWirePolicy []).traced
      ⟨⟨[], samplePlanWithID 42⟩⟩ emptyResponse ((), [])).2.2 =
      [RemoteCall.GetPolicy (toInt (samplePlanWithID 42).ID.ValueInt64)] ∧
    (∀ n : Int, (samplePlanWithID 42).ID = types.Int64.known n → inInt64 n →
      toInt (samplePlanWithID 42).ID.ValueInt64 = n) ∧
    policyResource.Read (servingClient sampleWirePolicy [])
        ⟨⟨[], ConvertPolicyToModel sampleWirePolicy⟩⟩ emptyResponse () =
      policyResource.Read (servingClient sampleWirePolicy []) ⟨⟨[], samplePlanWithID 42⟩⟩
        emptyResponse () :=
  C14_read_replaces_state (servingClient sampleWirePolicy []) (samplePlanWithID 42)
    (ConvertPolicyToModel sampleWirePolicy) [] emptyResponse () () sampleWirePolicy
    (by decide) rfl rfl

/-! ## C15: an operation that reports an error leaves the state alone -/

theorem create_error_state {σ : Type} (client : ranger.Client σ) (req : resource.CreateRequest)
    (resp : resource.Response) (s : σ)
    (h : diag.HasError (policyResource.Create client req resp s).1.Diagnostics = true) :
    (policyResource.Create client req resp s).1.State = resp.State := by
  unfold policyResource.Create at h ⊢
  by_cases hp : diag.HasError (diag.Append resp.Diagnostics req.Plan.diags) = true
  · simp only [hp, if_true]
  · simp only [hp, Bool.false_eq_true, if_false] at h ⊢
    cases hc : client.CreatePolicy (ConvertModelToPolicy req.Plan.value) s with
    | mk r s1 =>
      cases r with
      | error err => rfl
      | ok p =>
        simp only [hc, resource.Response.SetState] at h
        exact absurd h hp

theorem read_error_state {σ : Type} (client : ranger.Client σ) (req : resource.ReadRequest)
    (resp : resource.Response) (s : σ)
    (h : diag.HasError (policyResource.Read client req resp s).1.Diagnostics = true) :
    (policyResource.Read client req resp s).1.State = resp.State := by
  unfold policyResource.Read at h ⊢
  by_cases hp : diag.HasError (diag.Append resp.Diagnostics req.State.diags) = true
  · simp only [hp, if_true]
  · simp only [hp, Bool.false_eq_true, if_false] at h ⊢
    cases hc : client.GetPolicy (toInt req.State.value.ID.ValueInt64) s with
    | mk r s1 =>
      cases r with
      | error err => rfl
      | ok p =>
        simp only [hc, resource.Response.SetState] at h
        exact absurd h hp

theorem update_error_state {σ : Type} (client : ranger.Client σ) (req : resource.UpdateRequest)
    (resp : resource.Response) (s : σ)
    (h : diag.HasError (policyResource.Update client req resp s).1.Diagnostics = true) :
    (policyResource.Update client req resp s).1.State = resp.State := by
  unfold policyResource.Update at h ⊢
  by_cases hp : diag.HasError (diag.Append resp.Diagnostics req.Plan.diags) = true
  · simp only [hp, if_true]
  · by_cases hs : diag.HasError req.State.diags = true
    · simp only [hp, hs, Bool.false_eq_true, if_false, if_true]
    · simp only [hp, hs, Bool.false_eq_true, if_false] at h ⊢
      cases hc : client.UpdatePolicy { ConvertModelToPolicy req.Plan.value with
          ID := toInt req.State.value.ID.ValueInt64 } s with
      | mk r s1 =>
        cases r with
        | error err => rfl
        | ok p =>
          simp only [hc, resource.Response.SetState] at h
          exact absurd h hp

/-- Delete never assigns the state. -/
theorem delete_state {σ : Type} (client : ranger.Client σ) (req : resource.DeleteRequest)
    (resp : resource.Response) (s : σ) :
    (policyResource.Delete client req resp s).1.State = resp.State := by
  unfold policyResource.Delete
  by_cases hp : diag.HasError (diag.Append resp.Diagnostics req.State.diags) = true
  · simp only [hp, if_true]
  · simp only [hp, Bool.false_eq_true, if_false]
    cases hc : client.DeletePolicy (toInt req.State.value.ID.ValueInt64) s with
    | mk r s1 => cases r <;> rfl

theorem service_read_error_state {σ : Type} (client : ranger.Client σ)
    (req : datasource.ReadRequest) (resp : datasource.ReadResponse) (s : σ)
    (h : diag.HasError (serviceDataSource.Read client req resp s).1.Diagnostics = true) :
    (serviceDataSource.Read client req resp s).1.State = resp.State := by
  unfold serviceDataSource.Read at h ⊢
  by_cases hp : diag.HasError (diag.Append resp.Diagnostics req.Config.diags) = true
  · simp only [hp, if_true]
  · simp only [hp, Bool.false_eq_true, if_false] at h ⊢
    cases hc : client.GetServices s with
    | mk r s1 =>
      cases r with
      | error err => rfl
      | ok services =>
        simp only [hc] at h ⊢
        by_cases hz : (scanServices req.Config.value.Name.ValueString services).ID = 0
        · simp only [hz, if_true]
        · simp only [hz, if_false] at h
          exact absurd h hp

/-- C15. In Create, Read, Update and Delete of the policy resource and in Read of the
service data source, for every request, every incoming response and every behaviour of the
API client: whenever the operation returns with an error diagnostic (retrieval failed, the
remote call failed, or the service was not found), the response state is the incoming one,
untouched.  Delete never writes the state at all, and with an error reported the state of
the entity is not removed afterwards. -/
theorem C15_error_leaves_state {σ : Type} (client : ranger.Client σ) (s : σ) :
    (∀ (req : resource.CreateRequest) (resp : resource.Response),
      diag.HasError (policyResource.Create client req resp s).1.Diagnostics = true →
      (policyResource.Create client req resp s).1.State = resp.State) ∧
    (∀ (req : resource.ReadRequest) (resp : resource.Response),
      diag.HasError (policyResource.Read client req resp s).1.Diagnostics = true →
      (policyResource.Read client req resp s).1.State = resp.State) ∧
    (∀ (req : resource.UpdateRequest) (resp : resource.Response),
      diag.HasError (policyResource.Update client req resp s).1.Diagnostics = true →
      (policyResource.Update client req resp s).1.State = resp.State) ∧
    (∀ (req : resource.DeleteRequest) (resp : resource.Response),
      (policyResource.Delete client req resp s).1.State = resp.State ∧
      (diag.HasError (policyResource.Delete client req resp s).1.Diagnostics = true →
        (removeStateUnlessError (policyResource.Delete client req resp s).1).State =
          resp.State)) ∧
    (∀ (req : datasource.ReadRequest) (resp : datasource.ReadResponse),
      diag.HasError (serviceDataSource.Read client req resp s).1.Diagnostics = true →
      (serviceDataSource.Read client req resp s).1.State = resp.State) := by
  refine ⟨fun req resp h => create_error_state client req resp s h,
    fun req resp h => read_error_state client req resp s h,
    fun req resp h => update_error_state client req resp s h, ?_,
    fun req resp h => service_read_error_state client req resp s h⟩
  intro req resp
  refine ⟨delete_state client req resp s, ?_⟩
  intro h
  simp only [removeStateUnlessError, h, if_true]
  exact delete_state client req resp s

/-- Witness of C15: a failing delete on a recorded state keeps that state recorded. -/
theorem C15_error_leaves_state_witness :
    (removeStateUnlessError (policyResource.Delete (failingClient "boom")
      ⟨⟨[], samplePlanWithID 42⟩⟩ ⟨some (samplePlanWithID 42), []⟩ ()).1).State =
      some (samplePlanWithID 42) :=
  ((C15_error_leaves_state (failingClient "boom") ()).2.2.2.1 ⟨⟨[], samplePlanWithID 42⟩⟩
    ⟨some (samplePlanWithID 42), []⟩).2 (by decide)

/-! ## C16: a failing remote call gives one diagnostic and no further call -/

/-- C16. For each remote call (`CreatePolicy`, `GetPolicy`, `UpdatePolicy`, `DeletePolicy`,
`GetServices`) and every error text `e` it returns (a not-found error of `GetPolicy`
included), the operation that made the call (its inputs retrieved without error) returns
with the state untouched, with exactly one diagnostic added, an error whose summary is the
fixed text of the operation and whose detail ends with `e` (is `e` for the service lookup),
and with that one call as the only remote call made. -/
theorem C16_remote_error_one_diagnostic {σ : Type} (client : ranger.Client σ) (s s1 : σ)
    (e : GoString) :
    (∀ (req : resource.CreateRequest) (resp : resource.Response),
      diag.HasError (diag.Append resp.Diagnostics req.Plan.diags) = false →
      client.CreatePolicy (ConvertModelToPolicy req.Plan.value) s = (Except.error e, s1) →
      policyResource.Create client.traced req resp (s, []) =
        ({ resp with
            Diagnostics := diag.Append resp.Diagnostics req.Plan.diags ++
              [diag.NewErrorDiagnostic "Error creating policy"
                ("Could not create policy, unexpected error: " ++ e)] },
          (s1, [RemoteCall.CreatePolicy (ConvertModelToPolicy req.Plan.value)]))) ∧
    (∀ (req : resource.ReadRequest) (resp : resource.Response),
      diag.HasError (diag.Append resp.Diagnostics req.State.diags) = false →
      client.GetPolicy (toInt req.State.value.ID.ValueInt64) s = (Except.error e, s1) →
      policyResource.Read client.traced req resp (s, []) =
        ({ resp with
            Diagnostics := diag.Append resp.Diagnostics req.State.diags ++
              [diag.NewErrorDiagnostic "Error Reading Ranger policy"
                ("Could not read policy ID " ++ req.State.value.ID.String ++ ": " ++ e)] },
          (s1, [RemoteCall.GetPolicy (toInt req.State.value.ID.ValueInt64)]))) ∧
    (∀ (req : resource.UpdateRequest) (resp : resource.Response),
      diag.HasError (diag.Append resp.Diagnostics req.Plan.diags) = false →
      diag.HasError req.State.diags = false →
      client.UpdatePolicy { ConvertModelToPolicy req.Plan.value with
          ID := toInt req.State.value.ID.ValueInt64 } s = (Except.error e, s1) →
      policyResource.Update client.traced req resp (s, []) =
        ({ resp with
            Diagnostics := diag.Append resp.Diagnostics req.Plan.diags ++
              [diag.NewErrorDiagnostic "Error updating Ranger policy"
                ("Could not update policy ID " ++ req.Plan.value.ID.String ++ ": " ++ e)] },
          (s1, [RemoteCall.UpdatePolicy { ConvertModelToPolicy req.Plan.value with
            ID := toInt req.State.value.ID.ValueInt64 }]))) ∧
    (∀ (req : resource.DeleteRequest) (resp : resource.Response),
      diag.HasError (diag.Append resp.Diagnostics req.State.diags) = false →
      client.DeletePolicy (toInt req.State.value.ID.ValueInt64) s = (some e, s1) →
      policyResource.Delete client.traced req resp (s, []) =
        ({ resp with
            Diagnostics := diag.Append resp.Diagnostics req.State.diags ++
              [diag.NewErrorDiagnostic "Error Deleting Ranger policy"
                ("Could not delete policy, unexpected error: " ++ e)] },
          (s1, [RemoteCall.DeletePolicy (toInt req.State.value.ID.ValueInt64)]))) ∧
    (∀ (req : datasource.ReadRequest) (resp : datasource.ReadResponse),
      diag.HasError (diag.Append resp.Diagnostics req.Config.diags) = false →
      client.GetServices s = (Except.error e, s1) →
      serviceDataSource.Read client.traced req resp (s, []) =
        ({ resp with
            Diagnostics := diag.Append resp.Diagnostics req.Config.diags ++
              [diag.NewErrorDiagnostic "Unable to Read Ranger Policy" e] },
          (s1, [RemoteCall.GetServices]))) := by
  refine ⟨?_, ?_, ?_, ?_, ?_⟩
  · intro req resp hp hc
    simp only [policyResource.Create, hp, Bool.false_eq_true, if_false, ranger.Client.traced,
      hc, diag.AddError_of_noError _ _ _ hp, List.nil_append]
  · intro req resp hp hc
    simp only [policyResource.Read, hp, Bool.false_eq_true, if_false, ranger.Client.traced,
      hc, diag.AddError_of_noError _ _ _ hp, List.nil_append]
  · intro req resp hp hs hc
    simp only [policyResource.Update, hp, hs, Bool.false_eq_true, if_false,
      ranger.Client.traced, hc, diag.AddError_of_noError _ _ _ hp, List.nil_append]
  · intro req resp hp hc
    simp only [policyResource.Delete, hp, Bool.false_eq_true, if_false, ranger.Client.traced,
      hc, diag.AddError_of_noError _ _ _ hp, List.nil_append]
  · intro req resp hp hc
    simp only [serviceDataSource.Read, hp, Bool.false_eq_true, if_false, ranger.Client.traced,
      hc, diag.AddError_of_noError _ _ _ hp, List.nil_append]

/-- Witness of C16: a `not found` answer to the get call of Read. -/
theorem C16_remote_error_one_diagnostic_witness :
    policyResource.Read (failingClient "not found").traced ⟨⟨[], samplePlanWithID 42⟩⟩
        ⟨some (samplePlanWithID 42), []⟩ ((), []) =
      ({ State := some (samplePlanWithID 42)
         Diagnostics := [diag.NewErrorDiagnostic "Error Reading Ranger policy"
           "Could not read policy ID 42: not found"] },
        ((), [RemoteCall.GetPolicy 42])) :=
  (C16_remote_error_one_diagnostic (failingClient "not found") () () "not found").2.1
    ⟨⟨[], samplePlanWithID 42⟩⟩ ⟨some (samplePlanWithID 42), []⟩ (by decide) rfl

/-! ## C17 - C19: the service lookup -/

theorem scanServices_first (name : GoString) (svc : ranger.Service) (post : List ranger.Service)
    (hname : svc.Name = name) :
    ∀ pre : List ranger.Service, (∀ x ∈ pre, x.Name ≠ name) →
      scanServices name (pre ++ svc :: post) = svc := by
  intro pre
  induction pre with
  | nil => intro _; simp [scanServices, hname]
  | cons a as ih =>
    intro h
    have ha : a.Name ≠ name := h a (List.mem_cons_self _ _)
    simp only [List.cons_append, scanServices, ha, if_false]
    exact ih (fun x hx => h x (List.mem_cons_of_mem _ hx))

theorem scanServices_none (name : GoString) :
    ∀ services : List ranger.Service, (∀ x ∈ services, x.Name ≠ name) →
      scanServices name services = { ID := 0, Name := "" } := by
  intro services
  induction services with
  | nil => intro _; rfl
  | cons a as ih =>
    intro h
    have ha : a.Name ≠ name := h a (List.mem_cons_self _ _)
    simp only [scanServices, ha, if_false]
    exact ih (fun x hx => h x (List.mem_cons_of_mem _ hx))

/-- The outcome of the lookup when the scan selects a service with identifier 0. -/
theorem service_read_zero {σ : Type} (client : ranger.Client σ) (req : datasource.ReadRequest)
    (resp : datasource.ReadResponse) (s s1 : σ) (services : List ranger.Service)
    (hget : diag.HasError (diag.Append resp.Diagnostics req.Config.diags) = false)
    (hcall : client.GetServices s = (Except.ok services, s1))
    (hz : (scanServices req.Config.value.Name.ValueString services).ID = 0) :
    serviceDataSource.Read client req resp s =
      ({ resp with
          Diagnostics := diag.Append resp.Diagnostics req.Config.diags ++
            [diag.NewErrorDiagnostic "Service Not Found"
              ("Service with name '" ++ req.Config.value.Name.ValueString ++ "' not found.")] },
        s1) := by
  simp only [serviceDataSource.Read, hget, hcall, hz, Bool.false_eq_true, if_false, if_true,
    diag.AddError_of_noError _ _ _ hget]

/-- C17 (as stated) fails: the list holds a service named `dev_kafka`, but its identifier
is 0; the lookup of `dev_kafka` writes no state and reports `Service Not Found`. -/
theorem C17_counterexample :
    (∃ x ∈ [(⟨0, "dev_kafka"⟩ : ranger.Service)], x.Name = "dev_kafka") ∧
    serviceDataSource.Read (servingClient sampleWirePolicy [⟨0, "dev_kafka"⟩])
        (lookupRequest "dev_kafka") emptyLookupResponse () =
      ({ State := none
         Diagnostics := [diag.NewErrorDiagnostic "Service Not Found"
           "Service with name 'dev_kafka' not found."] }, ()) := by
  refine ⟨⟨⟨0, "dev_kafka"⟩, by simp, rfl⟩, by decide⟩

/-- C17 (amended). For every service list returned by the remote and every query name such
that a listed service has exactly that name and the first such service in list order has a
non-zero identifier, the lookup writes the id and name of that first service and adds no
diagnostic. -/
theorem C17_lookup_first_match {σ : Type} (client : ranger.Client σ)
    (req : datasource.ReadRequest) (resp : datasource.ReadResponse) (s s1 : σ)
    (pre post : List ranger.Service) (svc : ranger.Service)
    (hget : diag.HasError (diag.Append resp.Diagnostics req.Config.diags) = false)
    (hcall : client.GetServices s = (Except.ok (pre ++ svc :: post), s1))
    (hpre : ∀ x ∈ pre, x.Name ≠ req.Config.value.Name.ValueString)
    (hname : svc.Name = req.Config.value.Name.ValueString)
    (hid : svc.ID ≠ 0) :
    serviceDataSource.Read client req resp s =
      ({ State := some { ID := types.Int64.known svc.ID, Name := types.String.known svc.Name }
         Diagnostics := diag.Append resp.Diagnostics req.Config.diags }, s1) := by
  have hscan := scanServices_first req.Config.value.Name.ValueString svc post hname pre hpre
  simp only [serviceDataSource.Read, hget, hcall, hscan, hid, Bool.false_eq_true, if_false,
    types.Int64Value, types.StringValue, toInt64]

/-- Witness of C17 (amended): `dev_kafka` is found with id 6, the first of two matches. -/
theorem C17_lookup_first_match_witness :
    serviceDataSource.Read (servingClient sampleWirePolicy sampleServices)
        (lookupRequest "dev_kafka") emptyLookupResponse () =
      ({ State := some { ID := types.Int64.known 6, Name := types.String.known "dev_kafka" }
         Diagnostics := [] }, ()) :=
  C17_lookup_first_match (servingClient sampleWirePolicy sampleServices)
    (lookupRequest "dev_kafka") emptyLookupResponse () () [⟨3, "dev_hive"⟩] [⟨9, "dev_kafka"⟩]
    ⟨6, "dev_kafka"⟩ (by decide) rfl (by decide) rfl (by decide)

/-- C18. For every service list and every query name that no listed service has exactly
(plain string equality), the lookup writes no state and adds exactly one diagnostic: an
error with summary `Service Not Found` whose detail quotes the query name. -/
theorem C18_lookup_unknown_name {σ : Type} (client : ranger.Client σ)
    (req : datasource.ReadRequest) (resp : datasource.ReadResponse) (s s1 : σ)
    (services : List ranger.Service)
    (hget : diag.HasError (diag.Append resp.Diagnostics req.Config.diags) = false)
    (hcall : client.GetServices s = (Except.ok services, s1))
    (hnone : ∀ x ∈ services, x.Name ≠ req.Config.value.Name.ValueString) :
    serviceDataSource.Read client req resp s =
      ({ State := resp.State
         Diagnostics := diag.Append resp.Diagnostics req.Config.diags ++
            [diag.NewErrorDiagnostic "Service Not Found"
              ("Service with name '" ++ req.Config.value.Name.ValueString ++ "' not found.")] },
        s1) := by
  have hscan := scanServices_none req.Config.value.Name.ValueString services hnone
  exact service_read_zero client req resp s s1 services hget hcall (by rw [hscan])

/-- Witness of C18: `Dev_Kafka ` differs from `dev_kafka` in case and by a trailing blank. -/
theorem C18_lookup_unknown_name_witness :
    serviceDataSource.Read (servingClient sampleWirePolicy sampleServices)
        (lookupRequest "Dev_Kafka ") emptyLookupResponse () =
      ({ State := none
         Diagnostics := [diag.NewErrorDiagnostic "Service Not Found"
              "Service with name 'Dev_Kafka ' not found."] }, ()) :=
  C18_lookup_unknown_name (servingClient sampleWirePolicy sampleServices)
    (lookupRequest "Dev_Kafka ") emptyLookupResponse () () sampleServices (by decide) rfl
    (by decide)

/-- C19. The service lookup never writes a state whose id is 0: whatever the request, the
incoming response and the client, the state on return is the incoming one or holds the
known id of a service with a non-zero identifier; and whenever the service selected by the
scan has identifier 0 (no match, or a match whose id is 0) the lookup leaves the state
untouched and reports the not-found error. -/
theorem C19_lookup_never_zero_id {σ : Type} (client : ranger.Client σ)
    (req : datasource.ReadRequest) (resp : datasource.ReadResponse) (s : σ) :
    ((serviceDataSource.Read client req resp s).1.State = resp.State ∨
      ∃ svc : ranger.Service, svc.ID ≠ 0 ∧
        (serviceDataSource.Read client req resp s).1.State =
          some { ID := types.Int64.known svc.ID, Name := types.String.known svc.Name }) ∧
    (∀ (services : List ranger.Service) (s1 : σ),
      diag.HasError (diag.Append resp.Diagnostics req.Config.diags) = false →
      client.GetServices s = (Except.ok services, s1) →
      (scanServices req.Config.value.Name.ValueString services).ID = 0 →
      (serviceDataSource.Read client req resp s).1.State = resp.State ∧
      (serviceDataSource.Read client req resp s).1.Diagnostics =
        diag.Append resp.Diagnostics req.Config.diags ++
          [diag.NewErrorDiagnostic "Service Not Found"
            ("Service with name '" ++ req.Config.value.Name.ValueString ++
              "' not found.")]) := by
  constructor
  · unfold serviceDataSource.Read
    by_cases hp : diag.HasError (diag.Append resp.Diagnostics req.Config.diags) = true
    · left; simp only [hp, if_true]
    · simp only [hp, Bool.false_eq_true, if_false]
      cases hc : client.GetServices s with
      | mk r s1 =>
        cases r with
        | error err => left; rfl
        | ok services =>
          by_cases hz : (scanServices req.Config.value.Name.ValueString services).ID = 0
          · left; simp only [hz, if_true]
          · right
            refine ⟨scanServices req.Config.value.Name.ValueString services, hz, ?_⟩
            simp only [hz, if_false, types.Int64Value, types.StringValue, toInt64]
  · intro services s1 hget hcall hz
    rw [service_read_zero client req resp s s1 services hget hcall hz]
    exact ⟨rfl, rfl⟩

/-- Witness of C19: a match whose identifier is 0 is reported as not found. -/
theorem C19_lookup_never_zero_id_witness :
    (serviceDataSource.Read (servingClient sampleWirePolicy [⟨0, "dev_kafka"⟩, ⟨6, "dev_kafka"⟩])
        (lookupRequest "dev_kafka") emptyLookupResponse ()).1.State = none ∧
    (serviceDataSource.Read (servingClient sampleWirePolicy [⟨0, "dev_kafka"⟩, ⟨6, "dev_kafka"⟩])
        (lookupRequest "dev_kafka") emptyLookupResponse ()).1.Diagnostics =
      [diag.NewErrorDiagnostic "Service Not Found" "Service with name 'dev_kafka' not found."] :=
  (C19_lookup_never_zero_id (servingClient sampleWirePolicy [⟨0, "dev_kafka"⟩, ⟨6, "dev_kafka"⟩])
    (lookupRequest "dev_kafka") emptyLookupResponse ()).2 [⟨0, "dev_kafka"⟩, ⟨6, "dev_kafka"⟩] ()
    (by decide) rfl (by decide)

/-! ## C20: configuration values override the environment -/

theorem configOrEnv_known (v env : GoString) : configOrEnv (types.String.known v) env = v := rfl

theorem configOrEnv_null (env : GoString) : configOrEnv types.String.null env = env := rfl

theorem addMissingErrors_hasError_of_empty (host username password : GoString)
    (d : diag.Diagnostics) (h : host = "" ∨ username = "" ∨ password = "") :
    diag.HasError (addMissingErrors host username password d) = true := by
  unfold addMissingErrors
  by_cases h3 : password = ""
  · simp only [h3, if_true, diag.HasError_AddAttributeError]
  · simp only [h3, if_false]
    by_cases h2 : username = ""
    · simp only [h2, if_true, diag.HasError_AddAttributeError]
    · simp only [h2, if_false]
      by_cases h1 : host = ""
      · simp only [h1, if_true, diag.HasError_AddAttributeError]
      · rcases h with h | h | h
        · exact absurd h h1
        · exact absurd h h2
        · exact absurd h h3

/-- The client data on return of Configure: either the incoming one, or the client built
from the three resolved values, none of which is empty. -/
theorem configure_resourceData (env : Environ) (req : provider.ConfigureRequest)
    (resp : provider.ConfigureResponse) :
    ((rangerProvider.Configure env req resp).ResourceData = resp.ResourceData ∧
      (rangerProvider.Configure env req resp).DataSourceData = resp.DataSourceData) ∨
    ((rangerProvider.Configure env req resp).ResourceData =
        some { host := configOrEnv req.Config.value.Host env.RANGER_HOST
               username := configOrEnv req.Config.value.Username env.RANGER_USERNAME
               password := configOrEnv req.Config.value.Password env.RANGER_PASSWORD } ∧
      (rangerProvider.Configure env req resp).DataSourceData =
        (rangerProvider.Configure env req resp).ResourceData ∧
      configOrEnv req.Config.value.Host env.RANGER_HOST ≠ "" ∧
      configOrEnv req.Config.value.Username env.RANGER_USERNAME ≠ "" ∧
      configOrEnv req.Config.value.Password env.RANGER_PASSWORD ≠ "") := by
  unfold rangerProvider.Configure
  by_cases h1 : diag.HasError (diag.Append resp.Diagnostics req.Config.diags) = true
  · left; simp only [h1, if_true, and_self]
  · simp only [h1, Bool.false_eq_true, if_false]
    by_cases h2 : diag.HasError (addUnknownErrors req.Config.value
        (diag.Append resp.Diagnostics req.Config.diags)) = true
    · left; simp only [h2, if_true, and_self]
    · simp only [h2, Bool.false_eq_true, if_false]
      by_cases h3 : diag.HasError (addMissingErrors
          (configOrEnv req.Config.value.Host env.RANGER_HOST)
          (configOrEnv req.Config.value.Username env.RANGER_USERNAME)
          (configOrEnv req.Config.value.Password env.RANGER_PASSWORD)
          (addUnknownErrors req.Config.value
            (diag.Append resp.Diagnostics req.Config.diags))) = true
      · left; simp only [h3, if_true, and_self]
      · right
        simp only [h3, Bool.false_eq_true, if_false, true_and]
        refine ⟨?_, ?_, ?_⟩
        · intro he
          exact h3 (addMissingErrors_hasError_of_empty _ _ _ _ (Or.inl he))
        · intro he
          exact h3 (addMissingErrors_hasError_of_empty _ _ _ _ (Or.inr (Or.inl he)))
        · intro he
          exact h3 (addMissingErrors_hasError_of_empty _ _ _ _ (Or.inr (Or.inr he)))

/-- C20. For each of host, username and password in provider Configure: a known
configuration value is the resolved value whatever the `RANGER_*` variable holds, also when
it is the empty string; the environment value is the resolved value only for a null
configuration value.  Observed on the result: a client that Configure constructs holds, for
each of the three, the configured value when that is known and the environment value when
the configuration is null; and a configured empty string is not replaced by the
environment value, so no client is constructed. -/
theorem C20_config_overrides_env (env : Environ) (config : rangerProviderModel)
    (cfgDiags : diag.Diagnostics) (resp : provider.ConfigureResponse) :
    (∀ v e : GoString, configOrEnv (types.String.known v) e = v) ∧
    (∀ e : GoString, configOrEnv types.String.null e = e) ∧
    (∀ h : ranger.ClientHandle, resp.ResourceData = none →
      (rangerProvider.Configure env ⟨⟨cfgDiags, config⟩⟩ resp).ResourceData = some h →
      (∀ v, config.Host = types.String.known v → h.host = v) ∧
      (∀ v, config.Username = types.String.known v → h.username = v) ∧
      (∀ v, config.Password = types.String.known v → h.password = v) ∧
      (config.Host = types.String.null → h.host = env.RANGER_HOST) ∧
      (config.Username = types.String.null → h.username = env.RANGER_USERNAME) ∧
      (config.Password = types.String.null → h.password = env.RANGER_PASSWORD)) ∧
    (config.Host = types.String.known "" ∨ config.Username = types.String.known "" ∨
        config.Password = types.String.known "" →
      (rangerProvider.Configure env ⟨⟨cfgDiags, config⟩⟩ resp).ResourceData =
        resp.ResourceData) := by
  refine ⟨configOrEnv_known, configOrEnv_null, ?_, ?_⟩
  · intro h hnone hsome
    rcases configure_resourceData env ⟨⟨cfgDiags, config⟩⟩ resp with ⟨h1, _⟩ | ⟨h1, _, _⟩
    · rw [h1, hnone] at hsome
      exact absurd hsome (by simp)
    · rw [h1] at hsome
      simp only [Option.some.injEq] at hsome
      subst hsome
      refine ⟨?_, ?_, ?_, ?_, ?_, ?_⟩
      · intro v hv; simp only [hv, configOrEnv_known]
      · intro v hv; simp only [hv, configOrEnv_known]
      · intro v hv; simp only [hv, configOrEnv_known]
      · intro hv; simp only [hv, configOrEnv_null]
      · intro hv; simp only [hv, configOrEnv_null]
      · intro hv; simp only [hv, configOrEnv_null]
  · intro hempty
    rcases configure_resourceData env ⟨⟨cfgDiags, config⟩⟩ resp with ⟨h1, _⟩ | ⟨_, _, n1, n2, n3⟩
    · exact h1
    · simp only at n1 n2 n3
      rcases hempty with he | he | he
      · rw [he, configOrEnv_known] at n1; exact absurd rfl n1
      · rw [he, configOrEnv_known] at n2; exact absurd rfl n2
      · rw [he, configOrEnv_known] at n3; exact absurd rfl n3

/-- Witness of C20: the configured values win over a fully set environment. -/
theorem C20_config_overrides_env_witness :
    (rangerProvider.Configure sampleEnviron ⟨⟨[], sampleProviderConfig⟩⟩
      emptyConfigureResponse).ResourceData =
        some { host := "http://localhost:6080", username := "admin",
               password := "rangerR0cks!" } ∧
    (rangerProvider.Configure sampleEnviron
      ⟨⟨[], { sampleProviderConfig with Host := types.String.known "" }⟩⟩
      emptyConfigureResponse).ResourceData = none ∧
    (rangerProvider.Configure sampleEnviron
      ⟨⟨[], { sampleProviderConfig with Host := types.String.null }⟩⟩
      emptyConfigureResponse).ResourceData =
        some { host := "http://ranger.example:6080", username := "admin",
               password := "rangerR0cks!" } :=
  ⟨by decide,
   (C20_config_overrides_env sampleEnviron
      { sampleProviderConfig with Host := types.String.known "" } []
      emptyConfigureResponse).2.2.2 (Or.inl rfl),
   by decide⟩

/-! ## Facts about the diagnostics of the provider configuration -/

theorem diag.Append_append (l1 l2 : diag.Diagnostics) :
    ∀ d : diag.Diagnostics, diag.Append d (l1 ++ l2) = diag.Append (diag.Append d l1) l2 := by
  induction l1 with
  | nil => intro d; rfl
  | cons a as ih =>
    intro d
    simp only [List.cons_append, diag.Append]
    split
    · exact ih d
    · exact ih (d ++ [a])

theorem diag.Contains_append (d l : diag.Diagnostics) (x : diag.Diagnostic) :
    diag.Contains (d ++ l) x = (diag.Contains d x || diag.Contains l x) := by
  simp only [diag.Contains, List.any_append]

/-- Appending error diagnostics that are pairwise different to a list without errors adds
every one of them, in order. -/
theorem diag.Append_fresh (d : diag.Diagnostics) (hd : diag.HasError d = false)
    (l2 : diag.Diagnostics) :
    ∀ l1 : diag.Diagnostics, (l1 ++ l2).Nodup →
      (∀ x ∈ l2, x.Severity = diag.Severity.SeverityError) →
      diag.Append (d ++ l1) l2 = d ++ l1 ++ l2 := by
  induction l2 with
  | nil => intro l1 _ _; simp [diag.Append]
  | cons a as ih =>
    intro l1 hnd herr
    have ha : diag.Contains (d ++ l1) a = false := by
      rw [diag.Contains_append, diag.Contains_of_noError d a hd (herr a (List.mem_cons_self _ _))]
      simp only [Bool.false_or, diag.Contains, Bool.eq_false_iff, ne_eq, List.any_eq_true,
        decide_eq_true_eq, not_exists, not_and]
      intro y hy hya
      subst hya
      have := List.nodup_append.mp hnd
      exact this.2.2 hy (List.mem_cons_self _ _)
    have hnd2 : ((l1 ++ [a]) ++ as).Nodup := by simpa using hnd
    have h := ih (l1 ++ [a]) hnd2 (fun x hx => herr x (List.mem_cons_of_mem _ hx))
    simp only [diag.Append, ha, Bool.false_eq_true, if_false]
    simpa using h

theorem addUnknownErrors_eq (config : rangerProviderModel) (d : diag.Diagnostics) :
    addUnknownErrors config d = diag.Append d (unknownErrors config) := by
  unfold addUnknownErrors unknownErrors
  rw [diag.Append_append, diag.Append_append]
  cases config.Host.IsUnknown <;> cases config.Username.IsUnknown <;>
    cases config.Password.IsUnknown <;> rfl

theorem addMissingErrors_eq (host username password : GoString) (d : diag.Diagnostics) :
    addMissingErrors host username password d =
      diag.Append d (missingErrors host username password) := by
  unfold addMissingErrors missingErrors
  rw [diag.Append_append, diag.Append_append]
  by_cases h1 : host = "" <;> by_cases h2 : username = "" <;> by_cases h3 : password = "" <;>
    simp only [h1, h2, h3, if_true, if_false] <;> rfl

theorem unknownErrors_nodup (config : rangerProviderModel) : (unknownErrors config).Nodup := by
  unfold unknownErrors
  cases config.Host.IsUnknown <;> cases config.Username.IsUnknown <;>
    cases config.Password.IsUnknown <;> decide

theorem unknownErrors_severity (config : rangerProviderModel) :
    ∀ x ∈ unknownErrors config, x.Severity = diag.Severity.SeverityError := by
  unfold unknownErrors
  cases config.Host.IsUnknown <;> cases config.Username.IsUnknown <;>
    cases config.Password.IsUnknown <;> decide

theorem missingErrors_nodup (host username password : GoString) :
    (missingErrors host username password).Nodup := by
  unfold missingErrors
  by_cases h1 : host = "" <;> by_cases h2 : username = "" <;> by_cases h3 : password = "" <;>
    simp only [h1, h2, h3, if_true, if_false] <;> decide

theorem missingErrors_severity (host username password : GoString) :
    ∀ x ∈ missingErrors host username password, x.Severity = diag.Severity.SeverityError := by
  unfold missingErrors
  by_cases h1 : host = "" <;> by_cases h2 : username = "" <;> by_cases h3 : password = "" <;>
    simp only [h1, h2, h3, if_true, if_false] <;> decide

theorem diag.Append_fresh_nil (d l : diag.Diagnostics) (hd : diag.HasError d = false)
    (hnd : l.Nodup) (herr : ∀ x ∈ l, x.Severity = diag.Severity.SeverityError) :
    diag.Append d l = d ++ l := by
  have h := diag.Append_fresh d hd l [] (by simpa using hnd) herr
  simpa using h

theorem diag.HasError_append_errors (d l : diag.Diagnostics) (hd : diag.HasError d = false)
    (herr : ∀ x ∈ l, x.Severity = diag.Severity.SeverityError) :
    diag.HasError (d ++ l) = !l.isEmpty := by
  cases l with
  | nil => simpa using hd
  | cons a as =>
    have ha := herr a (List.mem_cons_self _ _)
    simp [diag.HasError, ha]

theorem unknownErrors_isEmpty (config : rangerProviderModel) :
    (unknownErrors config).isEmpty = noneUnknown config := by
  unfold unknownErrors noneUnknown
  cases config.Host.IsUnknown <;> cases config.Username.IsUnknown <;>
    cases config.Password.IsUnknown <;> rfl

theorem missingErrors_isEmpty (host username password : GoString) :
    (missingErrors host username password).isEmpty = true ↔
      host ≠ "" ∧ username ≠ "" ∧ password ≠ "" := by
  unfold missingErrors
  by_cases h1 : host = "" <;> by_cases h2 : username = "" <;> by_cases h3 : password = "" <;>
    simp [h1, h2, h3]

/-- Configure when some configuration value is unknown. -/
theorem configure_unknown (env : Environ) (req : provider.ConfigureRequest)
    (resp : provider.ConfigureResponse)
    (hget : diag.HasError (diag.Append resp.Diagnostics req.Config.diags) = false)
    (hunk : noneUnknown req.Config.value = false) :
    rangerProvider.Configure env req resp =
      { resp with
        Diagnostics := diag.Append resp.Diagnostics req.Config.diags ++
          unknownErrors req.Config.value } := by
  have h1 := diag.Append_fresh_nil _ (unknownErrors req.Config.value) hget
    (unknownErrors_nodup _) (unknownErrors_severity _)
  have h2 := diag.HasError_append_errors _ (unknownErrors req.Config.value) hget
    (unknownErrors_severity _)
  rw [unknownErrors_isEmpty, hunk] at h2
  simp only [rangerProvider.Configure, hget, addUnknownErrors_eq, h1, h2, Bool.false_eq_true,
    if_false, Bool.not_false, if_true]

/-- Configure when no configuration value is unknown. -/
theorem configure_known (env : Environ) (req : provider.ConfigureRequest)
    (resp : provider.ConfigureResponse)
    (hget : diag.HasError (diag.Append resp.Diagnostics req.Config.diags) = false)
    (hk : noneUnknown req.Config.value = true) :
    rangerProvider.Configure env req resp =
      if (missingErrors (resolvedHost env req.Config.value)
          (resolvedUsername env req.Config.value)
          (resolvedPassword env req.Config.value)).isEmpty then
        { DataSourceData := some ⟨resolvedHost env req.Config.value,
            resolvedUsername env req.Config.value, resolvedPassword env req.Config.value⟩
          ResourceData := some ⟨resolvedHost env req.Config.value,
            resolvedUsername env req.Config.value, resolvedPassword env req.Config.value⟩
          Diagnostics := diag.Append resp.Diagnostics req.Config.diags }
      else
        { resp with
          Diagnostics := diag.Append resp.Diagnostics req.Config.diags ++
            missingErrors (resolvedHost env req.Config.value)
              (resolvedUsername env req.Config.value)
              (resolvedPassword env req.Config.value) } := by
  have hu : unknownErrors req.Config.value = [] := by
    have := unknownErrors_isEmpty req.Config.value
    rw [hk] at this
    simpa using this
  have h1 := diag.Append_fresh_nil _ (missingErrors (resolvedHost env req.Config.value)
    (resolvedUsername env req.Config.value) (resolvedPassword env req.Config.value)) hget
    (missingErrors_nodup _ _ _) (missingErrors_severity _ _ _)
  have h2 := diag.HasError_append_errors _ (missingErrors (resolvedHost env req.Config.value)
    (resolvedUsername env req.Config.value) (resolvedPassword env req.Config.value)) hget
    (missingErrors_severity _ _ _)
  simp only [resolvedHost, resolvedUsername, resolvedPassword] at h1 h2 ⊢
  simp only [rangerProvider.Configure, hget, addUnknownErrors_eq, hu, diag.Append,
    addMissingErrors_eq, h1, h2, Bool.false_eq_true, if_false]
  cases hE : (missingErrors (configOrEnv req.Config.value.Host env.RANGER_HOST)
      (configOrEnv req.Config.value.Username env.RANGER_USERNAME)
      (configOrEnv req.Config.value.Password env.RANGER_PASSWORD)).isEmpty
  · simp
  · simp [List.isEmpty_iff.mp hE]

/-! ## C21 - C22: when the provider constructs the client -/

/-- C21 (as stated) fails: the host is unknown and the username is missing (null in the
configuration, unset in the environment); no client is constructed, but the response
carries a diagnostic for the host only, none for the missing username. -/
theorem C21_counterexample :
    resolvedUsername emptyEnviron sampleUnknownHostConfig = "" ∧
    (rangerProvider.Configure emptyEnviron ⟨⟨[], sampleUnknownHostConfig⟩⟩
      emptyConfigureResponse).ResourceData = none ∧
    (rangerProvider.Configure emptyEnviron ⟨⟨[], sampleUnknownHostConfig⟩⟩
      emptyConfigureResponse).Diagnostics = [unknownHostError] ∧
    ∀ d ∈ (rangerProvider.Configure emptyEnviron ⟨⟨[], sampleUnknownHostConfig⟩⟩
      emptyConfigureResponse).Diagnostics, d.Path ≠ some "username" := by
  have h : (rangerProvider.Configure emptyEnviron ⟨⟨[], sampleUnknownHostConfig⟩⟩
      emptyConfigureResponse).Diagnostics = [unknownHostError] := rfl
  refine ⟨rfl, rfl, h, ?_⟩
  intro d hd
  rw [h, List.mem_singleton] at hd
  subst hd
  simp [unknownHostError, diag.NewAttributeErrorDiagnostic]

/-- C21 (amended). With the configuration retrieved without error, provider Configure
constructs the API client, from the three resolved values, and hands it to resources and
data sources if and only if none of host, username and password is unknown in the
configuration and each resolves to a non-empty string.  Otherwise no client is constructed
and an error is reported: when a value is unknown the response carries one error diagnostic
for each unknown value (the missing-value checks are not reached); when none is unknown it
carries one error diagnostic for every one of the three values that resolves to the empty
string, all of them and not only the first. -/
theorem C21_client_iff_all_resolved (env : Environ) (config : rangerProviderModel)
    (cfgDiags : diag.Diagnostics) (resp : provider.ConfigureResponse)
    (hget : diag.HasError (diag.Append resp.Diagnostics cfgDiags) = false) :
    ((noneUnknown config = true ∧ resolvedHost env config ≠ "" ∧
        resolvedUsername env config ≠ "" ∧ resolvedPassword env config ≠ "") →
      rangerProvider.Configure env ⟨⟨cfgDiags, config⟩⟩ resp =
        { DataSourceData := some ⟨resolvedHost env config, resolvedUsername env config,
            resolvedPassword env config⟩
          ResourceData := some ⟨resolvedHost env config, resolvedUsername env config,
            resolvedPassword env config⟩
          Diagnostics := diag.Append resp.Diagnostics cfgDiags }) ∧
    (¬(noneUnknown config = true ∧ resolvedHost env config ≠ "" ∧
        resolvedUsername env config ≠ "" ∧ resolvedPassword env config ≠ "") →
      (rangerProvider.Configure env ⟨⟨cfgDiags, config⟩⟩ resp).ResourceData =
        resp.ResourceData ∧
      (rangerProvider.Configure env ⟨⟨cfgDiags, config⟩⟩ resp).DataSourceData =
        resp.DataSourceData ∧
      diag.HasError (rangerProvider.Configure env ⟨⟨cfgDiags, config⟩⟩ resp).Diagnostics =
        true) ∧
    (noneUnknown config = false →
      (rangerProvider.Configure env ⟨⟨cfgDiags, config⟩⟩ resp).Diagnostics =
        diag.Append resp.Diagnostics cfgDiags ++ unknownErrors config) ∧
    (noneUnknown config = true →
      (rangerProvider.Configure env ⟨⟨cfgDiags, config⟩⟩ resp).Diagnostics =
        diag.Append resp.Diagnostics cfgDiags ++
          missingErrors (resolvedHost env config) (resolvedUsername env config)
            (resolvedPassword env config)) := by
  have hU := configure_unknown env ⟨⟨cfgDiags, config⟩⟩ resp hget
  have hK := configure_known env ⟨⟨cfgDiags, config⟩⟩ resp hget
  have hEu := diag.HasError_append_errors _ (unknownErrors config) hget
    (unknownErrors_severity _)
  have hEm := diag.HasError_append_errors _ (missingErrors (resolvedHost env config)
    (resolvedUsername env config) (resolvedPassword env config)) hget
    (missingErrors_severity _ _ _)
  simp only at hU hK
  refine ⟨?_, ?_, ?_, ?_⟩
  · rintro ⟨hk, hm⟩
    rw [hK hk, if_pos ((missingErrors_isEmpty _ _ _).mpr hm)]
  · intro hn
    cases hk : noneUnknown config with
    | false =>
      rw [hU hk]
      refine ⟨rfl, rfl, ?_⟩
      simp only
      rw [hEu, unknownErrors_isEmpty, hk]
      rfl
    | true =>
      have hm : ¬ (missingErrors (resolvedHost env config) (resolvedUsername env config)
          (resolvedPassword env config)).isEmpty = true := fun h =>
        hn ⟨hk, (missingErrors_isEmpty _ _ _).mp h⟩
      rw [hK hk, if_neg hm]
      refine ⟨rfl, rfl, ?_⟩
      simp only
      rw [hEm]
      simpa using hm
  · intro hk
    rw [hU hk]
  · intro hk
    rw [hK hk]
    split
    · rename_i hE
      simp [List.isEmpty_iff.mp hE]
    · rfl

/-- Witness of C21 (amended): the acceptance-test configuration yields the client; with the
environment unset and only the password configured, the host and the username are each
reported as missing. -/
theorem C21_client_iff_all_resolved_witness :
    (rangerProvider.Configure sampleEnviron ⟨⟨[], sampleProviderConfig⟩⟩
      emptyConfigureResponse).DataSourceData =
        some ⟨"http://localhost:6080", "admin", "rangerR0cks!"⟩ ∧
    (rangerProvider.Configure emptyEnviron
      ⟨⟨[], ⟨types.String.null, types.String.null, types.String.known "pw"⟩⟩⟩
      emptyConfigureResponse).Diagnostics = [missingHostError, missingUsernameError] :=
  ⟨congrArg provider.ConfigureResponse.DataSourceData
      ((C21_client_iff_all_resolved sampleEnviron sampleProviderConfig [] emptyConfigureResponse
        (by decide)).1 (by decide)),
    (C21_client_iff_all_resolved emptyEnviron
      ⟨types.String.null, types.String.null, types.String.known "pw"⟩ []
      emptyConfigureResponse (by decide)).2.2.2 (by decide)⟩

/-- C22. If any of host, username or password is an unknown value in the provider
configuration (retrieved without error), Configure reports exactly one attribute error for
each unknown attribute, in the order host, username, password, and constructs no client;
the `RANGER_*` environment variables have no influence on the outcome. -/
theorem C22_unknown_values_reported (env env2 : Environ) (config : rangerProviderModel)
    (cfgDiags : diag.Diagnostics) (resp : provider.ConfigureResponse)
    (hget : diag.HasError (diag.Append resp.Diagnostics cfgDiags) = false)
    (hunk : config.Host.IsUnknown = true ∨ config.Username.IsUnknown = true ∨
      config.Password.IsUnknown = true) :
    (rangerProvider.Configure env ⟨⟨cfgDiags, config⟩⟩ resp).Diagnostics =
      diag.Append resp.Diagnostics cfgDiags ++
        ((if config.Host.IsUnknown then [unknownHostError] else []) ++
         (if config.Username.IsUnknown then [unknownUsernameError] else []) ++
         (if config.Password.IsUnknown then [unknownPasswordError] else [])) ∧
    (rangerProvider.Configure env ⟨⟨cfgDiags, config⟩⟩ resp).ResourceData =
      resp.ResourceData ∧
    (rangerProvider.Configure env ⟨⟨cfgDiags, config⟩⟩ resp).DataSourceData =
      resp.DataSourceData ∧
    rangerProvider.Configure env2 ⟨⟨cfgDiags, config⟩⟩ resp =
      rangerProvider.Configure env ⟨⟨cfgDiags, config⟩⟩ resp := by
  have hk : noneUnknown config = false := by
    unfold noneUnknown
    rcases hunk with h | h | h <;> simp [h]
  rw [configure_unknown env ⟨⟨cfgDiags, config⟩⟩ resp hget hk,
    configure_unknown env2 ⟨⟨cfgDiags, config⟩⟩ resp hget hk]
  exact ⟨rfl, rfl, rfl, rfl⟩

/-- Witness of C22: host and password unknown, with a fully set environment. -/
theorem C22_unknown_values_reported_witness :
    (rangerProvider.Configure sampleEnviron
      ⟨⟨[], ⟨types.String.unknown, types.String.known "admin", types.String.unknown⟩⟩⟩
      emptyConfigureResponse).Diagnostics = [unknownHostError, unknownPasswordError] ∧
    (rangerProvider.Configure sampleEnviron
      ⟨⟨[], ⟨types.String.unknown, types.String.known "admin", types.String.unknown⟩⟩⟩
      emptyConfigureResponse).ResourceData = none :=
  ⟨(C22_unknown_values_reported sampleEnviron emptyEnviron
      ⟨types.String.unknown, types.String.known "admin", types.String.unknown⟩ []
      emptyConfigureResponse (by decide) (Or.inl rfl)).1,
   (C22_unknown_values_reported sampleEnviron emptyEnviron
      ⟨types.String.unknown, types.String.known "admin", types.String.unknown⟩ []
      emptyConfigureResponse (by decide) (Or.inl rfl)).2.1⟩

/-! ## C23 - C24: server-assigned fields and the description -/

/-- C23. For every wire policy `p`, `ConvertPolicyToModel p` has `id`, `guid`, `version` and
`service_type` as known values equal to `p`'s `ID`, `GUID`, `Version` and `ServiceType`,
also when those are 0 or the empty string. -/
theorem C23_server_fields_populated (p : ranger.Policy) :
    (ConvertPolicyToModel p).ID = types.Int64.known p.ID ∧
    (ConvertPolicyToModel p).GUID = types.String.known p.GUID ∧
    (ConvertPolicyToModel p).Version = types.Int64.known p.Version ∧
    (ConvertPolicyToModel p).ServiceType = types.String.known p.ServiceType ∧
    (ConvertPolicyToModel { p with ID := 0, GUID := "", Version := 0, ServiceType := "" }).ID =
      types.Int64.known 0 ∧
    (ConvertPolicyToModel { p with ID := 0, GUID := "", Version := 0, ServiceType := "" }).GUID =
      types.String.known "" ∧
    (ConvertPolicyToModel
      { p with ID := 0, GUID := "", Version := 0, ServiceType := "" }).Version =
      types.Int64.known 0 ∧
    (ConvertPolicyToModel
      { p with ID := 0, GUID := "", Version := 0, ServiceType := "" }).ServiceType =
      types.String.known "" :=
  ⟨rfl, rfl, rfl, rfl, rfl, rfl, rfl, rfl⟩

/-- C24. For every wire policy `p`, the description in `ConvertPolicyToModel p` is null when
`p`'s description is the empty string and the known string `p.Description` otherwise, never
a known empty string; `UpdatePlanFromPolicy` sets the plan's description by the same rule;
and `ConvertModelToPolicy` maps a null description to the empty wire description, so that
null → wire → config stays null. -/
theorem C24_description_null_iff_empty (plan : policyResourceModel) (p : ranger.Policy) :
    (p.Description = "" → (ConvertPolicyToModel p).Description = types.String.null) ∧
    (p.Description ≠ "" →
      (ConvertPolicyToModel p).Description = types.String.known p.Description) ∧
    (ConvertPolicyToModel p).Description ≠ types.String.known "" ∧
    (UpdatePlanFromPolicy plan p).Description = (ConvertPolicyToModel p).Description ∧
    (plan.Description = types.String.null →
      (ConvertModelToPolicy plan).Description = "" ∧
      (ConvertPolicyToModel (ConvertModelToPolicy plan)).Description = types.String.null ∧
      (UpdatePlanFromPolicy plan (ConvertModelToPolicy plan)).Description =
        types.String.null) := by
  refine ⟨?_, ?_, ?_, rfl, ?_⟩
  · intro h
    simp only [ConvertPolicyToModel, h, ne_eq, not_true_eq_false, if_false, types.StringNull]
  · intro h
    simp only [ConvertPolicyToModel, h, ne_eq, not_false_eq_true, if_true, types.StringValue]
  · by_cases h : p.Description = ""
    · simp [ConvertPolicyToModel, h, types.StringNull]
    · simp only [ConvertPolicyToModel, h, ne_eq, not_false_eq_true, if_true, types.StringValue,
        types.String.known.injEq]
  · intro h
    have hw : (ConvertModelToPolicy plan).Description = "" := by
      simp [ConvertModelToPolicy, h, types.String.ValueString]
    refine ⟨hw, ?_, ?_⟩
    · simp only [ConvertPolicyToModel, hw, ne_eq, not_true_eq_false, if_false,
        types.StringNull]
    · simp only [UpdatePlanFromPolicy, hw, ne_eq, not_true_eq_false, if_false,
        types.StringNull]

/-! ## C26 - C27: numbers and empty filters -/

/-- C26. Numeric fields are converted exactly: for every known 64-bit `policy_type` `n` and
`policy_priority` `m` in the config, the wire values of `ConvertModelToPolicy` are `n` and
`m`; for every wire `ID`, `Version`, `PolicyType` and `PolicyPriority`,
`ConvertPolicyToModel` and `UpdatePlanFromPolicy` yield the same integers as known values;
so config → wire → config returns the original numbers. -/
theorem C26_numbers_exact (plan : policyResourceModel) (p : ranger.Policy) (n m : Int)
    (hn : plan.PolicyType = types.Int64.known n) (hm : plan.PolicyPriority = types.Int64.known m)
    (hrn : inInt64 n) (hrm : inInt64 m) :
    (ConvertModelToPolicy plan).PolicyType = n ∧
    (ConvertModelToPolicy plan).PolicyPriority = m ∧
    ((ConvertPolicyToModel p).ID = types.Int64.known p.ID ∧
      (ConvertPolicyToModel p).Version = types.Int64.known p.Version ∧
      (ConvertPolicyToModel p).PolicyType = types.Int64.known p.PolicyType ∧
      (ConvertPolicyToModel p).PolicyPriority = types.Int64.known p.PolicyPriority) ∧
    ((UpdatePlanFromPolicy plan p).ID = types.Int64.known p.ID ∧
      (UpdatePlanFromPolicy plan p).Version = types.Int64.known p.Version ∧
      (UpdatePlanFromPolicy plan p).PolicyType = types.Int64.known p.PolicyType ∧
      (UpdatePlanFromPolicy plan p).PolicyPriority = types.Int64.known p.PolicyPriority) ∧
    (ConvertPolicyToModel (ConvertModelToPolicy plan)).PolicyType = plan.PolicyType ∧
    (ConvertPolicyToModel (ConvertModelToPolicy plan)).PolicyPriority = plan.PolicyPriority ∧
    (UpdatePlanFromPolicy plan (ConvertModelToPolicy plan)).PolicyType = plan.PolicyType ∧
    (UpdatePlanFromPolicy plan (ConvertModelToPolicy plan)).PolicyPriority =
      plan.PolicyPriority := by
  have h1 : (ConvertModelToPolicy plan).PolicyType = n := by
    simp only [ConvertModelToPolicy, hn, types.Int64.ValueInt64, toInt_of_inInt64 n hrn]
  have h2 : (ConvertModelToPolicy plan).PolicyPriority = m := by
    simp only [ConvertModelToPolicy, hm, types.Int64.ValueInt64, toInt_of_inInt64 m hrm]
  refine ⟨h1, h2, ⟨rfl, rfl, rfl, rfl⟩, ⟨rfl, rfl, rfl, rfl⟩, ?_, ?_, ?_, ?_⟩
  · simp only [ConvertPolicyToModel, h1, hn, types.Int64Value, toInt64]
  · simp only [ConvertPolicyToModel, h2, hm, types.Int64Value, toInt64]
  · simp only [UpdatePlanFromPolicy, h1, hn, types.Int64Value, toInt64]
  · simp only [UpdatePlanFromPolicy, h2, hm, types.Int64Value, toInt64]

/-- Witness of C26: the largest and the smallest 64-bit integer. -/
theorem C26_numbers_exact_witness :
    (ConvertModelToPolicy sampleExtremePlan).PolicyType = 9223372036854775807 ∧
    (ConvertModelToPolicy sampleExtremePlan).PolicyPriority = -9223372036854775808 :=
  ⟨(C26_numbers_exact sampleExtremePlan sampleWirePolicy 9223372036854775807
      (-9223372036854775808) rfl rfl (by decide) (by decide)).1,
   (C26_numbers_exact sampleExtremePlan sampleWirePolicy 9223372036854775807
      (-9223372036854775808) rfl rfl (by decide) (by decide)).2.1⟩

/-- C27. The mapper does not validate filters: for a config filter that is present with zero
patterns, `ConvertModelToPolicy` emits a present wire filter under the same key, with an
allocated empty values list and the two flags of the config filter (their `ValueBool()`). -/
theorem C27_empty_filter_emitted (m : policyResourceModel) (k : ResourceKey)
    (f : ResourceTypeModel) (h : m.Resources.get k = some f) (hz : len f.Values = 0) :
    (ConvertModelToPolicy m).Resources.get k =
      some { Values := some []
             IsExcludes := f.IsExcludes.ValueBool
             IsRecursive := f.IsRecursive.ValueBool } ∧
    (∀ ex re : GoBool, f.IsExcludes = types.Bool.known ex → f.IsRecursive = types.Bool.known re →
      (ConvertModelToPolicy m).Resources.get k =
        some { Values := some [], IsExcludes := ex, IsRecursive := re }) := by
  have hv : (elems f.Values).map types.String.ValueString = [] := by
    obtain ⟨vals, ex, re⟩ := f
    cases vals with
    | none => rfl
    | some vs =>
      simp only [len] at hz
      simp [elems, List.length_eq_zero.mp hz]
  have hw : (ConvertModelToPolicy m).Resources.get k =
      some { Values := some []
             IsExcludes := f.IsExcludes.ValueBool
             IsRecursive := f.IsRecursive.ValueBool } := by
    rw [convertModelToPolicy_get, h]
    simp only [Option.map_some', modelFilterToWire, makeAndFill_eq_map, hv]
  refine ⟨hw, ?_⟩
  intro ex re hex hre
  rw [hw, hex, hre]
  rfl

/-- Witness of C27: the `table` filter without patterns. -/
theorem C27_empty_filter_emitted_witness :
    (ConvertModelToPolicy sampleEmptyFilterPlan).Resources.get ResourceKey.table =
      some { Values := some [], IsExcludes := true, IsRecursive := false } :=
  (C27_empty_filter_emitted sampleEmptyFilterPlan ResourceKey.table
    { Values := some [], IsExcludes := types.Bool.known true,
      IsRecursive := types.Bool.known false } rfl rfl).1

/-! ## C25: the mappers are total and write within bounds -/

theorem rangeAssignChecked_append {α β : Type} (f : α → Option β) (g : α → β)
    (hfg : ∀ a, f a = some (g a)) (z : β) (src : List α) :
    ∀ pre : List β,
      rangeAssignChecked f pre.length src (pre ++ List.replicate src.length z) =
        some (pre ++ src.map g) := by
  induction src with
  | nil => intro pre; simp [rangeAssignChecked]
  | cons v vs ih =>
    intro pre
    have h := ih (pre ++ [g v])
    simp only [List.length_append, List.length_singleton, List.append_assoc,
      List.singleton_append] at h
    have hlt : pre.length < (pre ++ List.replicate (vs.length + 1) z).length := by
      simp
    simp only [rangeAssignChecked, hfg v, setIndex, List.length_cons, hlt, if_true,
      List.replicate_succ, List.map_cons]
    rw [List.set_append_right _ _ (Nat.le_refl _)]
    simpa using h

/-- Every write of the allocate-and-copy idiom is within the bounds of the list allocated for
it: with an element function that does not fail, the checked idiom returns the list of the
unchecked one. -/
theorem makeAndFillChecked_eq {α β : Type} [Inhabited β] (f : α → Option β) (g : α → β)
    (hfg : ∀ a, f a = some (g a)) (src : Slice α) :
    makeAndFillChecked f src = some (makeAndFill g src) := by
  have h := rangeAssignChecked_append f g hfg (default : β) (elems src) []
  rw [makeAndFill_eq_map]
  cases src <;> simpa [makeAndFillChecked, make, len, elems] using h

theorem checkedSlice_eq {α β : Type} [Inhabited β] (f : α → Option β) (g : α → β)
    (hfg : ∀ a, f a = some (g a)) (src : Slice α) :
    checkedSlice f src =
      some (match src with
        | some _ => some (makeAndFill g src)
        | none => none) := by
  cases src with
  | none => rfl
  | some xs => simp only [checkedSlice, makeAndFillChecked_eq f g hfg, Option.map_some']

theorem checkedPointer_eq {α β : Type} (f : α → Option β) (g : α → β)
    (hfg : ∀ a, f a = some (g a)) (o : Option α) :
    checkedPointer f o = some (o.map g) := by
  cases o with
  | none => rfl
  | some a => simp only [checkedPointer, hfg a, Option.map_some']

theorem checkedModelFilterToWire_eq (f : ResourceTypeModel) :
    checkedModelFilterToWire f = some (modelFilterToWire f) := by
  simp only [checkedModelFilterToWire,
    makeAndFillChecked_eq _ types.String.ValueString (fun _ => rfl), Option.map_some',
    modelFilterToWire]

theorem checkedWireFilterToModel_eq (f : ranger.ResourceType) :
    checkedWireFilterToModel f = some (wireFilterToModel f) := by
  simp only [checkedWireFilterToModel,
    makeAndFillChecked_eq _ types.StringValue (fun _ => rfl), Option.map_some',
    wireFilterToModel]

theorem checkedModelItemToWire_eq (item : PolicyItemModel) :
    checkedModelItemToWire item = some (modelItemToWire item) := by
  obtain ⟨accesses, users, groups, admin⟩ := item
  cases accesses <;> cases users <;> cases groups <;>
    simp only [checkedModelItemToWire,
      checkedSlice_eq _ types.String.ValueString (fun _ => rfl),
      checkedSlice_eq _ modelAccessToWire (fun _ => rfl), Option.bind_eq_bind, Option.some_bind,
      Option.pure_def, modelItemToWire]

theorem checkedWireItemToModel_eq (item : ranger.PolicyItem) :
    checkedWireItemToModel item = some (wireItemToModel item) := by
  obtain ⟨accesses, users, groups, admin⟩ := item
  cases accesses <;> cases users <;> cases groups <;>
    simp only [checkedWireItemToModel,
      checkedSlice_eq _ types.StringValue (fun _ => rfl),
      checkedSlice_eq _ wireAccessToModel (fun _ => rfl), Option.bind_eq_bind, Option.some_bind,
      Option.pure_def, wireItemToModel]

theorem checkedWireItemToPlan_eq (item : ranger.PolicyItem) :
    checkedWireItemToPlan item = some (wireItemToPlan item) := by
  obtain ⟨accesses, users, groups, admin⟩ := item
  cases accesses <;> cases users <;> cases groups <;>
    simp only [checkedWireItemToPlan,
      checkedSlice_eq _ types.StringValue (fun _ => rfl),
      makeAndFillChecked_eq _ wireAccessToModel (fun _ => rfl), Option.bind_eq_bind,
      Option.some_bind, Option.pure_def, wireItemToPlan]

theorem checkedResourcesToModel_eq (r : ranger.Resources) :
    checkedResourcesToModel r =
      some { Topic := r.Topic.map wireFilterToModel
             Database := r.Database.map wireFilterToModel
             Table := r.Table.map wireFilterToModel
             URL := r.URL.map wireFilterToModel
             HiveService := r.HiveService.map wireFilterToModel
             Global := r.Global.map wireFilterToModel
             UDF := r.UDF.map wireFilterToModel
             Column := r.Column.map wireFilterToModel } := by
  simp only [checkedResourcesToModel,
    checkedPointer_eq _ wireFilterToModel checkedWireFilterToModel_eq, Option.bind_eq_bind,
    Option.some_bind, Option.pure_def]

/-- C25. `ConvertModelToPolicy`, `ConvertPolicyToModel` and `UpdatePlanFromPolicy` are total:
for every input (nil and empty lists, null or unknown scalars, absent filters, rules without
users, groups or accesses included) the run with checked indexed writes returns a result,
so that no write into a destination list falls outside the list allocated for it, and
that result is the value of the function. -/
theorem C25_mappers_total (plan : policyResourceModel) (p : ranger.Policy) :
    checkedConvertModelToPolicy plan = some (ConvertModelToPolicy plan) ∧
    checkedConvertPolicyToModel p = some (ConvertPolicyToModel p) ∧
    checkedUpdatePlanFromPolicy plan p = some (UpdatePlanFromPolicy plan p) := by
  obtain ⟨pid, pguid, pname, pdesc, pservice, pres, paudit, penabled, pversion, ptype, pprio,
    pdeny, pstype, pitems⟩ := plan
  obtain ⟨id, guid, name, desc, service, stype, res, audit, enabled, version, wtype, prio, deny,
    items⟩ := p
  refine ⟨?_, ?_, ?_⟩
  · cases pitems <;> simp only [checkedConvertModelToPolicy,
      checkedPointer_eq _ modelFilterToWire checkedModelFilterToWire_eq,
      checkedSlice_eq _ modelItemToWire checkedModelItemToWire_eq, Option.bind_eq_bind,
      Option.some_bind, Option.pure_def, ConvertModelToPolicy]
  · cases items <;> simp only [checkedConvertPolicyToModel, checkedResourcesToModel_eq,
      checkedSlice_eq _ wireItemToModel checkedWireItemToModel_eq, Option.bind_eq_bind,
      Option.some_bind, Option.pure_def, ConvertPolicyToModel]
  · cases items <;> simp only [checkedUpdatePlanFromPolicy, checkedResourcesToModel_eq,
      checkedSlice_eq _ wireItemToPlan checkedWireItemToPlan_eq, Option.bind_eq_bind,
      Option.some_bind, Option.pure_def, UpdatePlanFromPolicy]

/-! ## C28: Configure of the resource and of the data source -/

/-- C28. Resource and data-source Configure: when the host supplies no provider data, the
client is left unchanged and no diagnostic is reported; when it supplies an API client, that
client is stored and no diagnostic is reported; when it supplies a value of any other shape,
the client is left unchanged and one error diagnostic is reported (exactly one is added,
unless the very same diagnostic is already in the response) whose detail names the observed
type. -/
theorem C28_configure_stores_client (r : policyResource) (d : serviceDataSource)
    (resp : resource.ConfigureResponse) (dresp : datasource.ConfigureResponse)
    (c : Option ranger.ClientHandle) (typeName : GoString) :
    policyResource.Configure r ⟨ProviderData.absent⟩ resp = (r, resp) ∧
    policyResource.Configure r ⟨ProviderData.client c⟩ resp = ({ client := c }, resp) ∧
    (policyResource.Configure r ⟨ProviderData.other typeName⟩ resp).1 = r ∧
    (policyResource.Configure r ⟨ProviderData.other typeName⟩ resp).2.Diagnostics =
      diag.AddError resp.Diagnostics "Unexpected Resource Configure Type"
        ("Expected *ranger.Client, got: " ++ typeName ++
          ". Please report this issue to the provider developers.") ∧
    (diag.Contains resp.Diagnostics (diag.NewErrorDiagnostic "Unexpected Resource Configure Type"
        ("Expected *ranger.Client, got: " ++ typeName ++
          ". Please report this issue to the provider developers.")) = false →
      (policyResource.Configure r ⟨ProviderData.other typeName⟩ resp).2.Diagnostics =
        resp.Diagnostics ++ [diag.NewErrorDiagnostic "Unexpected Resource Configure Type"
          ("Expected *ranger.Client, got: " ++ typeName ++
            ". Please report this issue to the provider developers.")]) ∧
    serviceDataSource.Configure d ⟨ProviderData.absent⟩ dresp = (d, dresp) ∧
    serviceDataSource.Configure d ⟨ProviderData.client c⟩ dresp = ({ client := c }, dresp) ∧
    (serviceDataSource.Configure d ⟨ProviderData.other typeName⟩ dresp).1 = d ∧
    (serviceDataSource.Configure d ⟨ProviderData.other typeName⟩ dresp).2.Diagnostics =
      diag.AddError dresp.Diagnostics "Unexpected Data Source Configure Type"
        ("Expected *ranger.Client, got: " ++ typeName ++
          ". Please report this issue to the provider developers.") ∧
    (diag.Contains dresp.Diagnostics
        (diag.NewErrorDiagnostic "Unexpected Data Source Configure Type"
          ("Expected *ranger.Client, got: " ++ typeName ++
            ". Please report this issue to the provider developers.")) = false →
      (serviceDataSource.Configure d ⟨ProviderData.other typeName⟩ dresp).2.Diagnostics =
        dresp.Diagnostics ++ [diag.NewErrorDiagnostic "Unexpected Data Source Configure Type"
          ("Expected *ranger.Client, got: " ++ typeName ++
            ". Please report this issue to the provider developers.")]) := by
  refine ⟨rfl, rfl, rfl, rfl, ?_, rfl, rfl, rfl, rfl, ?_⟩
  · intro h
    simp only [policyResource.Configure, diag.AddError, diag.Append, h, Bool.false_eq_true,
      if_false]
  · intro h
    simp only [serviceDataSource.Configure, diag.AddError, diag.Append, h, Bool.false_eq_true,
      if_false]

/-- Witness of C28: a string handed over as provider data to a fresh response. -/
theorem C28_configure_stores_client_witness :
    (policyResource.Configure ⟨none⟩ ⟨ProviderData.other "string"⟩ ⟨[]⟩).2.Diagnostics =
      [diag.NewErrorDiagnostic "Unexpected Resource Configure Type"
        "Expected *ranger.Client, got: string. Please report this issue to the provider developers."] :=
  (C28_configure_stores_client ⟨none⟩ ⟨none⟩ ⟨[]⟩ ⟨[]⟩ none "string").2.2.2.2.1 (by decide)

/-! ## C29: `UpdatePlanFromPolicy` overwrites the whole plan -/

/-- C29. The result of `UpdatePlanFromPolicy` is a function of the wire policy alone: for
every wire policy `p` and any two plans `a` and `b`, the plan after
`UpdatePlanFromPolicy a p` equals the plan after `UpdatePlanFromPolicy b p`; every one of the
fourteen config fields is assigned from `p` and no value of the incoming plan survives. -/
theorem C29_update_plan_ignores_plan (a b : policyResourceModel) (p : ranger.Policy) :
    UpdatePlanFromPolicy a p = UpdatePlanFromPolicy b p :=
  rfl

/-! ## C30: what the two wire → config mappers leave null -/

theorem allKnownStrings_map_stringValue (ws : List GoString) :
    allKnownStrings (ws.map types.StringValue) = true := by
  induction ws with
  | nil => rfl
  | cons w ws ih =>
    simp only [allKnownStrings, List.map_cons, List.all_cons, Bool.and_eq_true] at ih ⊢
    exact ⟨rfl, ih⟩

theorem all_allKnown_map_wireAccessToModel (as : List ranger.Access) :
    ((as.map wireAccessToModel).all AccessModel.allKnown) = true := by
  induction as with
  | nil => rfl
  | cons a as ih =>
    simp only [List.map_cons, List.all_cons, Bool.and_eq_true]
    exact ⟨rfl, ih⟩

theorem wireFilterToModel_scalarsKnown (f : ranger.ResourceType) :
    (wireFilterToModel f).scalarsKnown = true := by
  simp only [ResourceTypeModel.scalarsKnown, wireFilterToModel, makeAndFill_eq_map, elems,
    allKnownStrings_map_stringValue, types.BoolValue, types.Bool.isKnown, Bool.and_self]

theorem wireItemToModel_scalarsKnown (item : ranger.PolicyItem) :
    (wireItemToModel item).scalarsKnown = true := by
  obtain ⟨accesses, users, groups, admin⟩ := item
  cases accesses <;> cases users <;> cases groups <;>
    simp [PolicyItemModel.scalarsKnown, wireItemToModel, makeAndFill_eq_map, elems,
      allKnownStrings_map_stringValue, all_allKnown_map_wireAccessToModel, types.BoolValue,
      types.Bool.isKnown, allKnownStrings, types.StringValue, types.String.isKnown]

theorem wireItemToPlan_scalarsKnown (item : ranger.PolicyItem) :
    (wireItemToPlan item).scalarsKnown = true := by
  obtain ⟨accesses, users, groups, admin⟩ := item
  cases accesses <;> cases users <;> cases groups <;>
    simp [PolicyItemModel.scalarsKnown, wireItemToPlan, makeAndFill_eq_map, elems,
      allKnownStrings_map_stringValue, all_allKnown_map_wireAccessToModel, types.BoolValue,
      types.Bool.isKnown, allKnownStrings, types.StringValue, types.String.isKnown]

theorem convertPolicyToModel_scalarsKnown (p : ranger.Policy) :
    (ConvertPolicyToModel p).scalarsKnown where
  id := rfl
  guid := rfl
  name := rfl
  service := rfl
  audit := rfl
  enabled := rfl
  version := rfl
  policyType := rfl
  policyPriority := rfl
  denyAllElse := rfl
  resources := by
    intro k f h
    rw [convertPolicyToModel_get] at h
    cases hk : p.Resources.get k with
    | none => rw [hk] at h; simp at h
    | some w =>
      rw [hk] at h
      simp only [Option.map_some', Option.some.injEq] at h
      rw [← h]
      exact wireFilterToModel_scalarsKnown w
  items := by
    intro items h c hc
    cases hi : p.PolicyItems with
    | none => simp [ConvertPolicyToModel, hi] at h
    | some its =>
      simp only [ConvertPolicyToModel, hi, makeAndFill_eq_map, elems, Option.some.injEq] at h
      rw [← h] at hc
      obtain ⟨it, _, rfl⟩ := List.mem_map.mp hc
      exact wireItemToModel_scalarsKnown it

theorem updatePlanFromPolicy_scalarsKnown (plan : policyResourceModel) (p : ranger.Policy) :
    (UpdatePlanFromPolicy plan p).scalarsKnown where
  id := rfl
  guid := rfl
  name := rfl
  service := rfl
  audit := rfl
  enabled := rfl
  version := rfl
  policyType := rfl
  policyPriority := rfl
  denyAllElse := rfl
  resources := by
    intro k f h
    rw [updatePlanFromPolicy_get] at h
    cases hk : p.Resources.get k with
    | none => rw [hk] at h; simp at h
    | some w =>
      rw [hk] at h
      simp only [Option.map_some', Option.some.injEq] at h
      rw [← h]
      exact wireFilterToModel_scalarsKnown w
  items := by
    intro items h c hc
    cases hi : p.PolicyItems with
    | none => simp [UpdatePlanFromPolicy, hi] at h
    | some its =>
      simp only [UpdatePlanFromPolicy, hi, makeAndFill_eq_map, elems, Option.some.injEq] at h
      rw [← h] at hc
      obtain ⟨it, _, rfl⟩ := List.mem_map.mp hc
      exact wireItemToPlan_scalarsKnown it

/-- C30. For every wire policy `p`, no value in `ConvertPolicyToModel p` or in the plan after
`UpdatePlanFromPolicy` is unknown.  Every scalar other than `description` and `service_type`
is a known value, including every element of values, users and groups and every grant's type
and allowed flag.  The description is null exactly when the wire description is empty and
known otherwise; `service_type` is always known in `ConvertPolicyToModel p`, and in the plan
after `UpdatePlanFromPolicy` it is null exactly when the wire service type is empty and
known otherwise. -/
theorem C30_no_unknown_values (plan : policyResourceModel) (p : ranger.Policy) :
    (ConvertPolicyToModel p).scalarsKnown ∧
    (UpdatePlanFromPolicy plan p).scalarsKnown ∧
    ((ConvertPolicyToModel p).Description = types.String.null ↔ p.Description = "") ∧
    (p.Description ≠ "" → (ConvertPolicyToModel p).Description.isKnown = true) ∧
    (UpdatePlanFromPolicy plan p).Description = (ConvertPolicyToModel p).Description ∧
    (ConvertPolicyToModel p).ServiceType.isKnown = true ∧
    ((UpdatePlanFromPolicy plan p).ServiceType = types.String.null ↔ p.ServiceType = "") ∧
    (p.ServiceType ≠ "" → (UpdatePlanFromPolicy plan p).ServiceType.isKnown = true) := by
  refine ⟨convertPolicyToModel_scalarsKnown p, updatePlanFromPolicy_scalarsKnown plan p,
    ?_, ?_, rfl, rfl, ?_, ?_⟩
  · by_cases h : p.Description = "" <;>
      simp [ConvertPolicyToModel, h, types.StringNull, types.StringValue]
  · intro h
    simp [ConvertPolicyToModel, h, types.StringValue, types.String.isKnown]
  · by_cases h : p.ServiceType = "" <;>
      simp [UpdatePlanFromPolicy, h, types.StringNull, types.StringValue]
  · intro h
    simp [UpdatePlanFromPolicy, h, types.StringValue, types.String.isKnown]

/-! ## C32: one conversion cycle normalises a config -/

theorem inInt64_toInt (x : Int) : inInt64 (toInt x) := by
  unfold inInt64 toInt wrapSigned intSize
  omega

/-- Wire → config → wire gives the wire policy back, up to the three fields that
`ConvertModelToPolicy` never sets. -/
theorem convertModelToPolicy_convertPolicyToModel (p : ranger.Policy)
    (hvals : ∀ k f, p.Resources.get k = some f → f.hasValues = true)
    (htype : inInt64 p.PolicyType) (hprio : inInt64 p.PolicyPriority) :
    ConvertModelToPolicy (ConvertPolicyToModel p) = { p with ID := 0, GUID := "", Version := 0 } := by
  obtain ⟨id, guid, name, desc, service, stype, res, audit, enabled, version, ptype, prio, deny,
    items⟩ := p
  obtain ⟨topic, database, table, url, hive, glob, udf, column⟩ := res
  simp only at htype hprio
  have hf : ∀ k, ((ranger.Resources.get ⟨topic, database, table, url, hive, glob, udf, column⟩
      k).map wireFilterToModel).map modelFilterToWire =
      ranger.Resources.get ⟨topic, database, table, url, hive, glob, udf, column⟩ k := fun k =>
    option_map_roundtrip wireFilterToModel modelFilterToWire (fun f => f.hasValues = true)
      modelFilterToWire_wireFilterToModel _ (hvals k)
  have e1 := hf ResourceKey.topic
  have e2 := hf ResourceKey.database
  have e3 := hf ResourceKey.table
  have e4 := hf ResourceKey.url
  have e5 := hf ResourceKey.hiveservice
  have e6 := hf ResourceKey.global
  have e7 := hf ResourceKey.udf
  have e8 := hf ResourceKey.column
  simp only [ranger.Resources.get] at e1 e2 e3 e4 e5 e6 e7 e8
  clear hf hvals
  by_cases hd : desc = "" <;> by_cases hs : stype = "" <;> cases items <;>
    simp only [ConvertModelToPolicy, ConvertPolicyToModel, e1, e2, e3, e4, e5, e6, e7, e8, hd, hs,
      makeAndFill_eq_map, elems, map_item_roundtrip, toInt64, types.Int64Value,
      types.Int64.ValueInt64, toInt_of_inInt64 _ htype, toInt_of_inInt64 _ hprio,
      types.StringValue, types.StringNull, types.String.ValueString, types.BoolValue,
      types.Bool.ValueBool, ne_eq, not_true_eq_false, not_false_eq_true, if_true, if_false,
      ite_self]

/-- Every wire filter that `ConvertModelToPolicy` emits has an allocated values list. -/
theorem convertModelToPolicy_hasValues (m : policyResourceModel) (k : ResourceKey)
    (f : ranger.ResourceType) (h : (ConvertModelToPolicy m).Resources.get k = some f) :
    f.hasValues = true := by
  rw [convertModelToPolicy_get] at h
  cases hk : m.Resources.get k with
  | none => rw [hk] at h; simp at h
  | some g =>
    rw [hk] at h
    simp only [Option.map_some', Option.some.injEq] at h
    rw [← h]
    rfl

/-- A wire policy produced by `ConvertModelToPolicy` survives wire → config → wire
unchanged. -/
theorem convertModelToPolicy_fixed (m : policyResourceModel) :
    ConvertModelToPolicy (ConvertPolicyToModel (ConvertModelToPolicy m)) =
      ConvertModelToPolicy m := by
  rw [convertModelToPolicy_convertPolicyToModel (ConvertModelToPolicy m)
    (convertModelToPolicy_hasValues m) (inInt64_toInt _) (inInt64_toInt _)]
  rfl

/-- C32. Normalisation is idempotent: with `N m = ConvertPolicyToModel (ConvertModelToPolicy
m)`, for every config `m` (null or unknown values, an empty description, nil lists and absent
filters included) `N (N m) = N m`: a config that has been through one write/read conversion
cycle is a fixed point of further cycles. -/
theorem C32_normalisation_idempotent (m : policyResourceModel) :
    ConvertPolicyToModel (ConvertModelToPolicy
        (ConvertPolicyToModel (ConvertModelToPolicy m))) =
      ConvertPolicyToModel (ConvertModelToPolicy m) := by
  rw [convertModelToPolicy_fixed]

/-! ## C31: null and unknown scalars become zero values -/

theorem valueString_of_not_known (v : types.String) (h : v.isKnown = false) :
    v.ValueString = "" := by
  cases v <;> simp_all [types.String.isKnown, types.String.ValueString]

theorem valueBool_of_not_known (v : types.Bool) (h : v.isKnown = false) :
    v.ValueBool = false := by
  cases v <;> simp_all [types.Bool.isKnown, types.Bool.ValueBool]

theorem valueInt64_of_not_known (v : types.Int64) (h : v.isKnown = false) :
    v.ValueInt64 = 0 := by
  cases v <;> simp_all [types.Int64.isKnown, types.Int64.ValueInt64]

theorem toInt_zero : toInt 0 = 0 := toInt_of_inInt64 0 (by decide)

/-- A copied list of strings keeps its length; a null or unknown element is copied as the
empty string. -/
theorem unset_strings_copied (s : Slice types.String) :
    (elems s).length = len s ∧
    ((elems s).map types.String.ValueString).length = len s ∧
    ∀ (j : Nat) (v : types.String), (elems s)[j]? = some v → v.isKnown = false →
      ((elems s).map types.String.ValueString)[j]? = some "" := by
  refine ⟨?_, ?_, ?_⟩
  · cases s <;> rfl
  · cases s <;> simp [elems, len]
  · intro j v hj hv
    rw [List.getElem?_map, hj]
    simp only [Option.map_some', valueString_of_not_known v hv]

theorem elems_map {α β : Type} (f : α → β) (s : Slice α) :
    elems (s.map (fun xs => xs.map f)) = (elems s).map f := by
  cases s <;> rfl

theorem len_map {α β : Type} (f : α → β) (s : Slice α) :
    len (s.map (fun xs => xs.map f)) = len s := by
  cases s <;> simp [len]

/-- C31. `ConvertModelToPolicy` maps every null or unknown scalar of the config to the zero
value of its kind, not to a schema default: a null or unknown string becomes `""`, a null or
unknown number `0`, a null or unknown boolean `false` (also `is_audit_enabled`, `is_enabled`
and a grant's `is_allowed`, whose declared defaults are true); null or unknown elements of
values, users and groups are kept as empty strings and not dropped, so that every list keeps
its length. -/
theorem C31_unset_scalars_become_zero (m : policyResourceModel) :
    (m.Name.isKnown = false → (ConvertModelToPolicy m).Name = "") ∧
    (m.Service.isKnown = false → (ConvertModelToPolicy m).Service = "") ∧
    (m.Description.isKnown = false → (ConvertModelToPolicy m).Description = "") ∧
    (m.ServiceType.isKnown = false → (ConvertModelToPolicy m).ServiceType = "") ∧
    (m.PolicyType.isKnown = false → (ConvertModelToPolicy m).PolicyType = 0) ∧
    (m.PolicyPriority.isKnown = false → (ConvertModelToPolicy m).PolicyPriority = 0) ∧
    (m.IsAuditEnabled.isKnown = false → (ConvertModelToPolicy m).IsAuditEnabled = false) ∧
    (m.IsEnabled.isKnown = false → (ConvertModelToPolicy m).IsEnabled = false) ∧
    (m.IsDenyAllElse.isKnown = false → (ConvertModelToPolicy m).IsDenyAllElse = false) ∧
    (∀ (k : ResourceKey) (f : ResourceTypeModel), m.Resources.get k = some f →
      ∃ (w : ranger.ResourceType) (ws : List GoString),
        (ConvertModelToPolicy m).Resources.get k = some w ∧ w.Values = some ws ∧
        ws.length = len f.Values ∧
        (∀ (j : Nat) (v : types.String), (elems f.Values)[j]? = some v → v.isKnown = false →
          ws[j]? = some "") ∧
        (f.IsExcludes.isKnown = false → w.IsExcludes = false) ∧
        (f.IsRecursive.isKnown = false → w.IsRecursive = false)) ∧
    (∀ (items : List PolicyItemModel) (i : Nat) (c : PolicyItemModel),
      m.PolicyItems = some items → items[i]? = some c →
      ∃ (witems : List ranger.PolicyItem) (w : ranger.PolicyItem),
        (ConvertModelToPolicy m).PolicyItems = some witems ∧ witems[i]? = some w ∧
        (c.DelegateAdmin.isKnown = false → w.DelegateAdmin = false) ∧
        len w.Users = len c.Users ∧ len w.Groups = len c.Groups ∧
        len w.Accesses = len c.Accesses ∧
        (∀ (j : Nat) (v : types.String), (elems c.Users)[j]? = some v → v.isKnown = false →
          (elems w.Users)[j]? = some "") ∧
        (∀ (j : Nat) (v : types.String), (elems c.Groups)[j]? = some v → v.isKnown = false →
          (elems w.Groups)[j]? = some "") ∧
        (∀ (j : Nat) (a : AccessModel), (elems c.Accesses)[j]? = some a →
          ∃ wa : ranger.Access, (elems w.Accesses)[j]? = some wa ∧
            (a.Type_.isKnown = false → wa.Type_ = "") ∧
            (a.IsAllowed.isKnown = false → wa.IsAllowed = false))) := by
  refine ⟨?_, ?_, ?_, ?_, ?_, ?_, ?_, ?_, ?_, ?_, ?_⟩
  · intro h
    simp only [ConvertModelToPolicy, valueString_of_not_known _ h]
  · intro h
    simp only [ConvertModelToPolicy, valueString_of_not_known _ h]
  · intro h
    simp only [ConvertModelToPolicy, valueString_of_not_known _ h, ite_self]
  · intro h
    simp only [ConvertModelToPolicy, valueString_of_not_known _ h, ite_self]
  · intro h
    simp only [ConvertModelToPolicy, valueInt64_of_not_known _ h, toInt_zero]
  · intro h
    simp only [ConvertModelToPolicy, valueInt64_of_not_known _ h, toInt_zero]
  · intro h
    simp only [ConvertModelToPolicy, valueBool_of_not_known _ h]
  · intro h
    simp only [ConvertModelToPolicy, valueBool_of_not_known _ h]
  · intro h
    simp only [ConvertModelToPolicy, valueBool_of_not_known _ h]
  · intro k f hf
    refine ⟨modelFilterToWire f, (elems f.Values).map types.String.ValueString, ?_, ?_,
      (unset_strings_copied f.Values).2.1, (unset_strings_copied f.Values).2.2, ?_, ?_⟩
    · rw [convertModelToPolicy_get, hf]; rfl
    · simp only [modelFilterToWire, makeAndFill_eq_map]
    · intro h
      simp only [modelFilterToWire, valueBool_of_not_known _ h]
    · intro h
      simp only [modelFilterToWire, valueBool_of_not_known _ h]
  · intro items i c hitems hc
    refine ⟨items.map modelItemToWire, modelItemToWire c,
      convertModelToPolicy_items m items hitems, ?_, ?_, ?_, ?_, ?_, ?_, ?_, ?_⟩
    · rw [List.getElem?_map, hc]; rfl
    · intro h
      simp only [modelItemToWire, valueBool_of_not_known _ h]
    · rw [modelItemToWire_users, len_map]
    · rw [modelItemToWire_groups, len_map]
    · rw [modelItemToWire_accesses, len_map]
    · rw [modelItemToWire_users, elems_map]
      exact (unset_strings_copied c.Users).2.2
    · rw [modelItemToWire_groups, elems_map]
      exact (unset_strings_copied c.Groups).2.2
    · intro j a hj
      refine ⟨modelAccessToWire a, ?_, ?_, ?_⟩
      · rw [modelItemToWire_accesses, elems_map, List.getElem?_map, hj]; rfl
      · intro h
        simp only [modelAccessToWire, valueString_of_not_known _ h]
      · intro h
        simp only [modelAccessToWire, valueBool_of_not_known _ h]

/-- Witness of C31: the unset sample config; its unknown name becomes the empty string, its
null `is_audit_enabled` and unknown `is_enabled` become false although both default to true,
and its `topic` filter keeps three patterns. -/
theorem C31_unset_scalars_become_zero_witness :
    (ConvertModelToPolicy sampleUnsetPlan).Name = "" ∧
    (ConvertModelToPolicy sampleUnsetPlan).IsAuditEnabled = false ∧
    (ConvertModelToPolicy sampleUnsetPlan).IsEnabled = false ∧
    (ConvertModelToPolicy sampleUnsetPlan).Resources.Topic =
      some { Values := some ["", "t-*", ""], IsExcludes := false, IsRecursive := false } :=
  ⟨(C31_unset_scalars_become_zero sampleUnsetPlan).1 rfl,
   (C31_unset_scalars_become_zero sampleUnsetPlan).2.2.2.2.2.2.1 rfl,
   (C31_unset_scalars_become_zero sampleUnsetPlan).2.2.2.2.2.2.2.1 rfl,
   by decide⟩
